import Mathlib

/-!
# Trapezoidal line tracker (`std_trackers`)

A shallow embedding of `flat_state.cpp` and `line_tracker_trapezoid.cpp`.

* C++ `float`/`double` values and ROS time stamps are elements of a linear
  ordered field `F` (exact arithmetic); the theorems that need a square root
  are stated over `ℝ` with `Real.sqrt`.
* Where rounding decides a property, the `float` arithmetic of the planning
  lines is computed exactly as IEEE 754 binary32 (`Binary32`,
  `update_durations32`).
* `std::sqrt` is an explicit parameter `sqrt : F → F` of every function that
  (transitively) calls it, so all definitions stay executable.
* Objects are explicit records; member functions take the record and return
  the updated record (and the returned value, if any).
* A shared pointer that the code tests against `NULL` is an `Option`; a pointer
  the code dereferences without a test is passed as the pointee.
-/

/-! ## Eigen::Vector3f -/

/-- Three-component vector (`Eigen::Vector3f`, `geometry_msgs/Vector3`, `geometry_msgs/Point`). -/
@[ext]
structure Vec3 (F : Type) where
  x : F
  y : F
  z : F
deriving DecidableEq, Repr

section Vec3Ops
variable {F : Type} [LinearOrderedField F]

instance : Zero (Vec3 F) := ⟨⟨0, 0, 0⟩⟩
instance : Add (Vec3 F) := ⟨fun u v => ⟨u.x + v.x, u.y + v.y, u.z + v.z⟩⟩
instance : Sub (Vec3 F) := ⟨fun u v => ⟨u.x - v.x, u.y - v.y, u.z - v.z⟩⟩
instance : Neg (Vec3 F) := ⟨fun u => ⟨-u.x, -u.y, -u.z⟩⟩
instance : HMul F (Vec3 F) (Vec3 F) := ⟨fun c u => ⟨c * u.x, c * u.y, c * u.z⟩⟩
instance : HMul (Vec3 F) F (Vec3 F) := ⟨fun u c => ⟨u.x * c, u.y * c, u.z * c⟩⟩
instance : HDiv (Vec3 F) F (Vec3 F) := ⟨fun u c => ⟨u.x / c, u.y / c, u.z / c⟩⟩

/-- Eigen `squaredNorm()`. -/
def Vec3.squaredNorm (v : Vec3 F) : F := v.x * v.x + v.y * v.y + v.z * v.z

/-- Eigen `norm()`: the square root of `squaredNorm()`. -/
def Vec3.norm (sqrt : F → F) (v : Vec3 F) : F := sqrt v.squaredNorm

/-- Eigen `normalized()` (Eigen 3.3 and later): the vector divided by its norm when the
squared norm is positive, the vector itself otherwise, so the zero vector is mapped to
the zero vector. -/
def Vec3.normalized (sqrt : F → F) (v : Vec3 F) : Vec3 F :=
  let z := v.squaredNorm
  if z > 0 then v / sqrt z else v

end Vec3Ops

/-! ## Messages -/

/-- The `std_msgs/Header` fields the tracker reads or writes. -/
structure Header (F : Type) where
  stamp : F
  frame_id : String
deriving DecidableEq, Repr

/-- The `nav_msgs/Odometry` fields the tracker reads. `yaw` stands for
`tf::getYaw(pose.pose.orientation)`; the quaternion itself is not modelled. -/
structure Odometry (F : Type) where
  header : Header F
  position : Vec3 F
  yaw : F
  linear : Vec3 F
  angular : Vec3 F
deriving DecidableEq, Repr

/-- Message `quadrotor_msgs/PositionCommand`. -/
structure PositionCommand (F : Type) where
  header : Header F
  position : Vec3 F
  velocity : Vec3 F
  acceleration : Vec3 F
  jerk : Vec3 F
  snap : Vec3 F
  yaw : F
  yaw_dot : F
  yaw_ddot : F
  kx : Vec3 F
  kv : Vec3 F
deriving DecidableEq, Repr

/-- Message `quadrotor_msgs/LineTrackerGoal`: the fields `goal_callback` reads. -/
structure LineTrackerGoal (F : Type) where
  x : F
  y : F
  z : F
  relative : Bool
  v_des : F
  a_des : F
deriving DecidableEq, Repr

/-- The two `quadrotor_msgs/TrackerStatus` status constants that `status()` uses. -/
inductive StatusCode where
  | ACTIVE
  | SUCCEEDED
deriving DecidableEq, Repr

/-- Message `quadrotor_msgs/TrackerStatus`: the field `status()` fills in. -/
structure TrackerStatus where
  status : StatusCode
deriving DecidableEq, Repr

/-! ## flat_state.cpp -/

/-- Class `FlatState`: the cached flat outputs and the `cmd_valid_` latch. -/
structure FlatState (F : Type) where
  pos_ : Vec3 F
  vel_ : Vec3 F
  acc_ : Vec3 F
  jrk_ : Vec3 F
  snp_ : Vec3 F
  yaw_ : F
  yaw_dot_ : F
  yaw_ddot_ : F
  cmd_valid_ : Bool
deriving DecidableEq, Repr

section FlatStateOps
variable {F : Type} [LinearOrderedField F]

/-- Constructor `FlatState::FlatState()`: everything zero, not valid. -/
def FlatState.ctor : FlatState F :=
  { pos_ := 0, vel_ := 0, acc_ := 0, jrk_ := 0, snp_ := 0,
    yaw_ := 0, yaw_dot_ := 0, yaw_ddot_ := 0, cmd_valid_ := false }

/-- Member `FlatState::set_from_cmd`: a null message changes nothing; otherwise every
field is copied from the message and the latch is set. -/
def FlatState.set_from_cmd (s : FlatState F) (msg : Option (PositionCommand F)) : FlatState F :=
  match msg with
  | none => s
  | some m =>
    { pos_ := m.position
      vel_ := m.velocity
      acc_ := m.acceleration
      jrk_ := m.jerk
      snp_ := m.snap
      yaw_ := m.yaw
      yaw_dot_ := m.yaw_dot
      yaw_ddot_ := m.yaw_ddot
      cmd_valid_ := true }

/-- Member `FlatState::set_from_odom`: only while `cmd_valid_` is false, the fields are
overwritten from the measurement; `cmd_valid_` itself is never written. -/
def FlatState.set_from_odom (s : FlatState F) (msg : Odometry F) : FlatState F :=
  if !s.cmd_valid_ then
    { s with
      pos_ := msg.position
      vel_ := msg.linear
      acc_ := 0
      jrk_ := 0
      snp_ := 0
      yaw_ := msg.yaw
      yaw_dot_ := msg.angular.z
      yaw_ddot_ := 0 }
  else s

/-- Member `FlatState::reset`. -/
def FlatState.reset (s : FlatState F) : FlatState F :=
  { s with cmd_valid_ := false }

end FlatStateOps

/-! ## line_tracker_trapezoid.cpp -/

/-- Class `LineTrackerTrapezoid`: its data members (the subscriber handle apart). -/
structure LineTrackerTrapezoid (F : Type) where
  pos_set_ : Bool
  goal_set_ : Bool
  goal_reached_ : Bool
  default_v_des_ : F
  default_a_des_ : F
  epsilon_ : F
  v_des_ : F
  a_des_ : F
  active_ : Bool
  ICs_ : FlatState F
  start_pos_ : Vec3 F
  goal_ : Vec3 F
  pos_ : Vec3 F
  traj_start_ : F
  cur_yaw_ : F
  start_yaw_ : F
  t_accel_ : F
  t_constant_ : F
  kx_ : Vec3 F
  kv_ : Vec3 F
deriving DecidableEq, Repr

/-- The parameter-server entries read by `Initialize`; `none` is an unset parameter. -/
structure Params (F : Type) where
  gains_pos_x : Option F
  gains_pos_y : Option F
  gains_pos_z : Option F
  gains_vel_x : Option F
  gains_vel_y : Option F
  gains_vel_z : Option F
  default_v_des : Option F
  default_a_des : Option F
  epsilon : Option F
deriving DecidableEq, Repr

section TrackerOps
variable {F : Type} [LinearOrderedField F]

/-- Constructor `LineTrackerTrapezoid::LineTrackerTrapezoid`. The initialiser list sets
four flags; `ICs_` and `traj_start_` are default-constructed; every other member keeps
whatever the memory held, which is the argument `mem`. -/
def LineTrackerTrapezoid.ctor (mem : LineTrackerTrapezoid F) : LineTrackerTrapezoid F :=
  { mem with
    pos_set_ := false
    goal_set_ := false
    goal_reached_ := true
    active_ := false
    ICs_ := FlatState.ctor
    traj_start_ := 0 }

/-- ROS `NodeHandle::param(name, var, default)`. -/
def param (entry : Option F) (dflt : F) : F := entry.getD dflt

/-- Member `LineTrackerTrapezoid::Initialize`. -/
def LineTrackerTrapezoid.Initialize (s : LineTrackerTrapezoid F) (p : Params F) :
    LineTrackerTrapezoid F :=
  let s := { s with
    kx_ := ⟨param p.gains_pos_x 2.5, param p.gains_pos_y 2.5, param p.gains_pos_z 5.0⟩
    kv_ := ⟨param p.gains_vel_x 2.2, param p.gains_vel_y 2.2, param p.gains_vel_z 4.0⟩ }
  let s := { s with
    default_v_des_ := param p.default_v_des 0.5
    default_a_des_ := param p.default_a_des 0.5
    epsilon_ := param p.epsilon 0.1 }
  { s with v_des_ := s.default_v_des_, a_des_ := s.default_a_des_ }

/-- Member `LineTrackerTrapezoid::Activate`; the command argument is not read. -/
def LineTrackerTrapezoid.Activate (s : LineTrackerTrapezoid F)
    (_cmd : Option (PositionCommand F)) : LineTrackerTrapezoid F × Bool :=
  let s :=
    if s.goal_set_ && s.pos_set_ then
      { s with start_pos_ := s.pos_, start_yaw_ := s.cur_yaw_, active_ := true }
    else s
  (s, s.active_)

/-- Member `LineTrackerTrapezoid::Deactivate`. -/
def LineTrackerTrapezoid.Deactivate (s : LineTrackerTrapezoid F) : LineTrackerTrapezoid F :=
  { s with ICs_ := s.ICs_.reset, goal_set_ := false, active_ := false }

/-- A default-constructed `PositionCommand` (`new quadrotor_msgs::PositionCommand`):
ROS messages are value-initialised. -/
def PositionCommand.fresh : PositionCommand F :=
  { header := ⟨0, ""⟩, position := 0, velocity := 0, acceleration := 0, jerk := 0, snap := 0,
    yaw := 0, yaw_dot := 0, yaw_ddot := 0, kx := 0, kv := 0 }

/-- Lines 141-184 of `update`: evaluation of the planned profile at `t_now`, reached by
both the planning branch and the tracking branch. -/
def LineTrackerTrapezoid.update_profile (sqrt : F → F) (s : LineTrackerTrapezoid F)
    (cmd : PositionCommand F) (t_now : F) : LineTrackerTrapezoid F × Option (PositionCommand F) :=
  let dir : Vec3 F := (s.goal_ - s.start_pos_).normalized sqrt
  let traj_time : F := t_now - s.traj_start_
  let r : LineTrackerTrapezoid F × Vec3 F × Vec3 F × Vec3 F :=
    if traj_time ≤ s.t_accel_ then
      -- Accelerate
      let dT := traj_time
      let a := s.a_des_ * dir
      let v := s.a_des_ * dir * dT
      let x := s.start_pos_ + 0.5 * s.a_des_ * dir * dT * dT
      (s, x, v, a)
    else if traj_time ≤ s.t_accel_ + s.t_constant_ then
      -- Constant speed
      let dT := traj_time - s.t_accel_
      let a : Vec3 F := 0
      let v := s.a_des_ * dir * s.t_accel_
      let x := (s.start_pos_ + 0.5 * s.a_des_ * dir * s.t_accel_ * s.t_accel_) + (v * dT)
      (s, x, v, a)
    else if traj_time ≤ s.t_accel_ + s.t_constant_ + s.t_accel_ then
      -- Decelerate
      let dT := traj_time - (s.t_accel_ + s.t_constant_)
      let a := -s.a_des_ * dir
      let v := s.a_des_ * dir * s.t_accel_ - s.a_des_ * dir * dT
      let x := (s.start_pos_ + 0.5 * s.a_des_ * dir * s.t_accel_ * s.t_accel_) +
        (s.a_des_ * dir * s.t_accel_ * s.t_constant_) +
        (s.a_des_ * dir * s.t_accel_ * dT - 0.5 * s.a_des_ * dir * dT * dT)
      (s, x, v, a)
    else
      -- Reached goal
      ({ s with goal_reached_ := true }, s.goal_, 0, 0)
  let s := r.1
  let cmd := { cmd with position := r.2.1, velocity := r.2.2.1, acceleration := r.2.2.2 }
  ({ s with ICs_ := s.ICs_.set_from_cmd (some cmd) }, some cmd)

/-- Member `LineTrackerTrapezoid::update`. `now` is the value of `ros::Time::now()` read
for the command header. The result is the tracker afterwards and the returned pointer
(`none` for the null pointer returned while inactive). -/
def LineTrackerTrapezoid.update (sqrt : F → F) (now : F) (s : LineTrackerTrapezoid F)
    (msg : Odometry F) : LineTrackerTrapezoid F × Option (PositionCommand F) :=
  let s := { s with
    pos_ := msg.position
    cur_yaw_ := msg.yaw
    pos_set_ := true
    ICs_ := s.ICs_.set_from_odom msg }
  let t_now := msg.header.stamp
  if !s.active_ then (s, none)
  else
    let cmd : PositionCommand F :=
      { (PositionCommand.fresh : PositionCommand F) with
        header := ⟨now, msg.header.frame_id⟩
        yaw := s.start_yaw_
        yaw_dot := 0
        kx := s.kx_
        kv := s.kv_ }
    if s.goal_set_ then
      let s := { s with
        traj_start_ := t_now
        start_pos_ := s.ICs_.pos_
        start_yaw_ := s.ICs_.yaw_ }
      let cmd := { cmd with yaw := s.start_yaw_ }
      let total_dist := (s.goal_ - s.start_pos_).norm sqrt
      let s :=
        if total_dist > s.v_des_ * s.v_des_ / s.a_des_ then
          { s with
            t_accel_ := s.v_des_ / s.a_des_
            t_constant_ := total_dist / s.v_des_ - s.v_des_ / s.a_des_ }
        else
          { s with
            t_accel_ := sqrt (total_dist / s.a_des_)
            t_constant_ := 0 }
      let s := { s with goal_set_ := false }
      s.update_profile sqrt cmd t_now
    else if s.goal_reached_ then
      let cmd := { cmd with position := s.goal_, velocity := 0, acceleration := 0 }
      ({ s with ICs_ := s.ICs_.set_from_cmd (some cmd) }, some cmd)
    else
      s.update_profile sqrt cmd t_now

/-- Member `LineTrackerTrapezoid::goal_callback`. -/
def LineTrackerTrapezoid.goal_callback (s : LineTrackerTrapezoid F) (msg : LineTrackerGoal F) :
    LineTrackerTrapezoid F :=
  let s := { s with goal_ := ⟨msg.x, msg.y, msg.z⟩ }
  let s := if msg.relative then { s with goal_ := s.goal_ + s.ICs_.pos_ } else s
  let s := if msg.v_des > 0 then { s with v_des_ := msg.v_des }
    else { s with v_des_ := s.default_v_des_ }
  let s := if msg.a_des > 0 then { s with a_des_ := msg.a_des }
    else { s with a_des_ := s.default_a_des_ }
  { s with goal_set_ := true, goal_reached_ := false }

/-- Member `LineTrackerTrapezoid::status`: the returned pointer (`none` when null). -/
def LineTrackerTrapezoid.status (s : LineTrackerTrapezoid F) : Option TrackerStatus :=
  if !s.active_ then none
  else some { status := if s.goal_reached_ then StatusCode.SUCCEEDED else StatusCode.ACTIVE }

/-- The host's control loop: consecutive `update` calls, one per tick, each tick giving
the `ros::Time::now()` reading and the measurement. Returns the tracker after the last
tick and the pointers returned by the ticks, in order. -/
def LineTrackerTrapezoid.updates (sqrt : F → F) (s : LineTrackerTrapezoid F) :
    List (F × Odometry F) → LineTrackerTrapezoid F × List (Option (PositionCommand F))
  | [] => (s, [])
  | tick :: rest =>
    let r := s.update sqrt tick.1 tick.2
    let rr := LineTrackerTrapezoid.updates sqrt r.1 rest
    (rr.1, r.2 :: rr.2)

/-- The tracker states the host can produce: construction, with or without the one
`Initialize` call that follows it, then any sequence of goal messages, `Activate`,
`Deactivate` and `update` calls. -/
inductive LineTrackerTrapezoid.Reachable (sqrt : F → F) : LineTrackerTrapezoid F → Prop where
  | ctor (mem : LineTrackerTrapezoid F) :
      LineTrackerTrapezoid.Reachable sqrt (LineTrackerTrapezoid.ctor mem)
  | init (mem : LineTrackerTrapezoid F) (p : Params F) :
      LineTrackerTrapezoid.Reachable sqrt ((LineTrackerTrapezoid.ctor mem).Initialize p)
  | goal_callback {s : LineTrackerTrapezoid F} (msg : LineTrackerGoal F) :
      LineTrackerTrapezoid.Reachable sqrt s →
      LineTrackerTrapezoid.Reachable sqrt (s.goal_callback msg)
  | Activate {s : LineTrackerTrapezoid F} (cmd : Option (PositionCommand F)) :
      LineTrackerTrapezoid.Reachable sqrt s →
      LineTrackerTrapezoid.Reachable sqrt (s.Activate cmd).1
  | Deactivate {s : LineTrackerTrapezoid F} :
      LineTrackerTrapezoid.Reachable sqrt s →
      LineTrackerTrapezoid.Reachable sqrt s.Deactivate
  | update {s : LineTrackerTrapezoid F} (now : F) (msg : Odometry F) :
      LineTrackerTrapezoid.Reachable sqrt s →
      LineTrackerTrapezoid.Reachable sqrt (s.update sqrt now msg).1

/-- The reachable states together with the command most recently returned by `update`
(`none` while no command has been returned yet). -/
inductive LineTrackerTrapezoid.ReachableEmitting (sqrt : F → F) :
    LineTrackerTrapezoid F → Option (PositionCommand F) → Prop where
  | ctor (mem : LineTrackerTrapezoid F) :
      LineTrackerTrapezoid.ReachableEmitting sqrt (LineTrackerTrapezoid.ctor mem) none
  | init (mem : LineTrackerTrapezoid F) (p : Params F) :
      LineTrackerTrapezoid.ReachableEmitting sqrt
        ((LineTrackerTrapezoid.ctor mem).Initialize p) none
  | goal_callback {s : LineTrackerTrapezoid F} {last : Option (PositionCommand F)}
      (msg : LineTrackerGoal F) :
      LineTrackerTrapezoid.ReachableEmitting sqrt s last →
      LineTrackerTrapezoid.ReachableEmitting sqrt (s.goal_callback msg) last
  | Activate {s : LineTrackerTrapezoid F} {last : Option (PositionCommand F)}
      (cmd : Option (PositionCommand F)) :
      LineTrackerTrapezoid.ReachableEmitting sqrt s last →
      LineTrackerTrapezoid.ReachableEmitting sqrt (s.Activate cmd).1 last
  | Deactivate {s : LineTrackerTrapezoid F} {last : Option (PositionCommand F)} :
      LineTrackerTrapezoid.ReachableEmitting sqrt s last →
      LineTrackerTrapezoid.ReachableEmitting sqrt s.Deactivate last
  | update {s : LineTrackerTrapezoid F} {last : Option (PositionCommand F)}
      (now : F) (msg : Odometry F) :
      LineTrackerTrapezoid.ReachableEmitting sqrt s last →
      LineTrackerTrapezoid.ReachableEmitting sqrt (s.update sqrt now msg).1
        ((s.update sqrt now msg).2.or last)

end TrackerOps

/-! ## The scalar profile

The position, velocity and acceleration that `update` computes are multiples of the unit
direction `dir`; the factors, read off lines 146-178, are the scalar functions below.
They are used to state and prove the properties of the emitted commands. -/

section Profile
variable {F : Type} [LinearOrderedField F]

/-- Distance from the start along the line at elapsed time `tau`: the factor of `dir`
in `x - start_pos_`, for acceleration `a`, durations `ta`, `tc` and total distance `d`. -/
def profileDist (a ta tc d tau : F) : F :=
  if tau ≤ ta then 0.5 * a * tau * tau
  else if tau ≤ ta + tc then 0.5 * a * ta * ta + a * ta * (tau - ta)
  else if tau ≤ ta + tc + ta then
    0.5 * a * ta * ta + a * ta * tc +
      (a * ta * (tau - (ta + tc)) - 0.5 * a * (tau - (ta + tc)) * (tau - (ta + tc)))
  else d

/-- Speed along the line at elapsed time `tau`: the factor of `dir` in `v`. -/
def profileSpeed (a ta tc tau : F) : F :=
  if tau ≤ ta then a * tau
  else if tau ≤ ta + tc then a * ta
  else if tau ≤ ta + tc + ta then a * ta - a * (tau - (ta + tc))
  else 0

/-- Acceleration along the line at elapsed time `tau`: the factor of `dir` in `a`. -/
def profileAccel (a ta tc tau : F) : F :=
  if tau ≤ ta then a
  else if tau ≤ ta + tc then 0
  else if tau ≤ ta + tc + ta then -a
  else 0

/-- The durations stored in the tracker are the ones lines 118-128 compute from the
stored start, goal and cruise parameters. -/
def LineTrackerTrapezoid.Planned (sqrt : F → F) (s : LineTrackerTrapezoid F) : Prop :=
  ((s.goal_ - s.start_pos_).norm sqrt > s.v_des_ * s.v_des_ / s.a_des_ →
    s.t_accel_ = s.v_des_ / s.a_des_ ∧
    s.t_constant_ = (s.goal_ - s.start_pos_).norm sqrt / s.v_des_ - s.v_des_ / s.a_des_) ∧
  (¬ (s.goal_ - s.start_pos_).norm sqrt > s.v_des_ * s.v_des_ / s.a_des_ →
    s.t_accel_ = sqrt ((s.goal_ - s.start_pos_).norm sqrt / s.a_des_) ∧
    s.t_constant_ = 0)

end Profile

/-! ## The planning arithmetic in `float`

`total_dist`, `v_des_`, `a_des_`, `t_accel_` and `t_constant_` are C++ `float`s, so lines
119-128 run in IEEE 754 binary32: every `*`, `/`, `-` and `std::sqrt` returns the exact
result rounded to the nearest number with 24 significant bits, ties to even. The
definitions below compute that on finite values in the normal range (no overflow, no
subnormal result, divisors non-zero, square roots of non-negative values). -/

/-- A finite binary32 value `m * 2^e`; the pair need not be normalised. -/
structure Binary32 where
  m : Int
  e : Int
deriving DecidableEq, Repr

namespace Binary32

/-- Number of binary digits of `n` (`fuel` bounds the recursion; `n` itself suffices). -/
def bitLength : Nat → Nat → Nat
  | 0, _ => 0
  | fuel + 1, n => if n = 0 then 0 else bitLength fuel (n / 2) + 1

/-- Rounding of the exact value `m * 2^e` to 24 significant bits, to nearest, ties to
even: what every binary32 operation does to its exact result. -/
def round (x : Binary32) : Binary32 :=
  let n := x.m.natAbs
  let k := bitLength n n
  if k ≤ 24 then x
  else
    let sh := k - 24
    let q := n / 2 ^ sh
    let r := n % 2 ^ sh
    let half := 2 ^ (sh - 1)
    let q1 := if r > half ∨ (r = half ∧ q % 2 = 1) then q + 1 else q
    ⟨(if x.m < 0 then -1 else 1) * (q1 : Nat), x.e + (sh : Nat)⟩

/-- Product `x * y` of two `float`s. -/
def mul (x y : Binary32) : Binary32 := round ⟨x.m * y.m, x.e + y.e⟩

/-- Difference `x - y` of two `float`s. -/
def sub (x y : Binary32) : Binary32 :=
  let e := min x.e y.e
  round ⟨x.m * (2 ^ (x.e - e).toNat : Nat) - y.m * (2 ^ (y.e - e).toNat : Nat), e⟩

/-- Quotient `x / y` of two `float`s, `y` non-zero: the quotient of the mantissas is
taken to 64 further bits, with a last bit that records a non-zero remainder, and
rounded. -/
def div (x y : Binary32) : Binary32 :=
  let num := x.m.natAbs * 2 ^ 64
  let den := y.m.natAbs
  let q := num / den
  let sticky := if num % den = 0 then 0 else 1
  round ⟨(if (x.m < 0) = (y.m < 0) then 1 else -1) * (2 * q + sticky : Nat), x.e - y.e - 65⟩

/-- Square root `std::sqrt(x)` of a `float`, `x` non-negative: the integer square root of
the mantissa scaled by an even power of two, with a last bit that records inexactness,
rounded. -/
def sqrt (x : Binary32) : Binary32 :=
  let k := 64 + (x.e % 2).toNat
  let n := x.m.toNat * 2 ^ k
  let s := Nat.sqrt n
  let sticky := if s * s = n then 0 else 1
  round ⟨(2 * s + sticky : Nat), (x.e - (k : Nat)) / 2 - 1⟩

/-- Comparison `x > y` of two `float`s. -/
def gt (x y : Binary32) : Bool :=
  let e := min x.e y.e
  decide (x.m * (2 ^ (x.e - e).toNat : Nat) > y.m * (2 ^ (y.e - e).toNat : Nat))

/-- The rational number a binary32 value stands for. -/
def toRat (x : Binary32) : ℚ := x.m * (2 : ℚ) ^ x.e

end Binary32

/-- Lines 119-128 of `update` in the code's own `float` arithmetic: the stored
`(t_accel_, t_constant_)` for the `float`s `total_dist`, `v_des_` and `a_des_`. -/
def update_durations32 (total_dist v_des_ a_des_ : Binary32) : Binary32 × Binary32 :=
  if Binary32.gt total_dist (Binary32.div (Binary32.mul v_des_ v_des_) a_des_) then
    (Binary32.div v_des_ a_des_,
      Binary32.sub (Binary32.div total_dist v_des_) (Binary32.div v_des_ a_des_))
  else
    (Binary32.sqrt (Binary32.div total_dist a_des_), ⟨0, 0⟩)

/-- The `float` nearest to 4.0804758, a desired speed `v_des_`. -/
def negCruiseSpeed : Binary32 := ⟨4278689, -20⟩

/-- The `float` nearest to 4.6820741, a desired acceleration `a_des_`. -/
def negCruiseAccel : Binary32 := ⟨9819021, -21⟩

/-- The `float` nearest to 3.5561767, a distance `total_dist` to the goal. -/
def negCruiseDist : Binary32 := ⟨7457843, -21⟩

/-- The `float` nearest to 0.7, a desired speed `v_des_`. -/
def zeroCruiseSpeed : Binary32 := ⟨11744051, -24⟩

/-- The `float` nearest to 0.3, a desired acceleration `a_des_`. -/
def zeroCruiseAccel : Binary32 := ⟨5033165, -24⟩

/-- The `float` nearest to 1.6333333, a distance `total_dist` to the goal. -/
def zeroCruiseDist : Binary32 := ⟨13701393, -23⟩

/-! ## Concrete inputs used to instantiate the theorems -/

section Samples
variable {F : Type} [LinearOrderedField F]

/-- Some memory contents for the constructor to start from. -/
def sampleMem : LineTrackerTrapezoid F :=
  { pos_set_ := true, goal_set_ := true, goal_reached_ := false
    default_v_des_ := 7, default_a_des_ := 7, epsilon_ := 7, v_des_ := 7, a_des_ := 7
    active_ := true
    ICs_ := ⟨⟨7, 7, 7⟩, ⟨7, 7, 7⟩, ⟨7, 7, 7⟩, ⟨7, 7, 7⟩, ⟨7, 7, 7⟩, 7, 7, 7, true⟩
    start_pos_ := ⟨7, 7, 7⟩, goal_ := ⟨7, 7, 7⟩, pos_ := ⟨7, 7, 7⟩
    traj_start_ := 7, cur_yaw_ := 7, start_yaw_ := 7, t_accel_ := 7, t_constant_ := 7
    kx_ := ⟨7, 7, 7⟩, kv_ := ⟨7, 7, 7⟩ }

/-- A parameter server with no entry set. -/
def noParams : Params F := ⟨none, none, none, none, none, none, none, none, none⟩

/-- A measurement with stamp `t` and position `p`, at rest, yaw zero. -/
def odomAt (t : F) (p : Vec3 F) : Odometry F := ⟨⟨t, "world"⟩, p, 0, 0, 0⟩

/-- An absolute goal message. -/
def goalAbs (x y z v a : F) : LineTrackerGoal F := ⟨x, y, z, false, v, a⟩

/-- Constructed, initialised, one measurement at the origin (stamp 99), the absolute goal
(10,0,0) with `v_des = 2`, `a_des = 1`, activated: a goal is pending. -/
def samplePending (sqrt : F → F) : LineTrackerTrapezoid F :=
  (((((LineTrackerTrapezoid.ctor sampleMem).Initialize noParams).update sqrt 0
    (odomAt 99 0)).1.goal_callback (goalAbs 10 0 0 2 1)).Activate none).1

/-- The state `samplePending` after its planning tick at stamp 100, measured at the origin. -/
def sampleTracking (sqrt : F → F) : LineTrackerTrapezoid F :=
  ((samplePending sqrt).update sqrt 0 (odomAt 100 0)).1

/-- The scenario's tracker written out, one second into its profile: active, no goal
pending, start at the origin, goal (10,0,0), `v_des = 2`, `a_des = 1`, `t_accel = 2`,
`t_const = 3`, plan start 100. -/
def sampleCruise : LineTrackerTrapezoid F :=
  { sampleMem with
    goal_set_ := false, goal_reached_ := false, active_ := true
    v_des_ := 2, a_des_ := 1, start_pos_ := 0, goal_ := ⟨10, 0, 0⟩
    traj_start_ := 100, t_accel_ := 2, t_constant_ := 3 }

/-- Constructed, initialised, one measurement at the origin (stamp 99), the absolute goal
(0,0,0) with `v_des = 2`, `a_des = 1`, activated: the pending goal is where the vehicle
is. -/
def sampleZeroPending (sqrt : F → F) : LineTrackerTrapezoid F :=
  (((((LineTrackerTrapezoid.ctor sampleMem).Initialize noParams).update sqrt 0
    (odomAt 99 0)).1.goal_callback (goalAbs 0 0 0 2 1)).Activate none).1

/-- A parameter server whose only entry is a negative default speed. -/
def negSpeedParams : Params F := { (noParams : Params F) with default_v_des := some (-1) }

/-- Under `negSpeedParams`: constructed, initialised, one measurement at the origin
(stamp 99), the absolute goal (10,0,0) with `v_des = 2`, `a_des = 1`, activated. -/
def sampleNegSpeedPending (sqrt : F → F) : LineTrackerTrapezoid F :=
  (((((LineTrackerTrapezoid.ctor sampleMem).Initialize negSpeedParams).update sqrt 0
    (odomAt 99 0)).1.goal_callback (goalAbs 10 0 0 2 1)).Activate none).1

/-- A replan under `negSpeedParams`: the tracker `sampleNegSpeedPending` after its
planning tick at stamp 100, measured at the origin (the command emitted there is at the
origin), and then the goal (10,0,0) again with `v_des = 0`, `a_des = 1`, so that the
default speed is taken. -/
def sampleNegSpeedReplan (sqrt : F → F) : LineTrackerTrapezoid F :=
  ((sampleNegSpeedPending sqrt).update sqrt 0 (odomAt 100 0)).1.goal_callback
    (goalAbs 10 0 0 0 1)

/-- A replan: the tracker `sampleTracking` with the new absolute goal (20,0,0),
`v_des = 2`, `a_des = 1` pending. -/
def sampleReplan (sqrt : F → F) : LineTrackerTrapezoid F :=
  (sampleTracking sqrt).goal_callback (goalAbs 20 0 0 2 1)

/-- The tracker `sampleCruise` once its goal is reached. -/
def sampleHold : LineTrackerTrapezoid F :=
  { (sampleCruise : LineTrackerTrapezoid F) with goal_reached_ := true }

end Samples

set_option linter.unusedSectionVars false

/-! ## Basic facts about vectors -/

section Vec3Lemmas
variable {F : Type} [LinearOrderedField F]

@[simp] theorem Vec3.zero_x : (0 : Vec3 F).x = 0 := rfl
@[simp] theorem Vec3.zero_y : (0 : Vec3 F).y = 0 := rfl
@[simp] theorem Vec3.zero_z : (0 : Vec3 F).z = 0 := rfl
@[simp] theorem Vec3.add_x (u v : Vec3 F) : (u + v).x = u.x + v.x := rfl
@[simp] theorem Vec3.add_y (u v : Vec3 F) : (u + v).y = u.y + v.y := rfl
@[simp] theorem Vec3.add_z (u v : Vec3 F) : (u + v).z = u.z + v.z := rfl
@[simp] theorem Vec3.sub_x (u v : Vec3 F) : (u - v).x = u.x - v.x := rfl
@[simp] theorem Vec3.sub_y (u v : Vec3 F) : (u - v).y = u.y - v.y := rfl
@[simp] theorem Vec3.sub_z (u v : Vec3 F) : (u - v).z = u.z - v.z := rfl
@[simp] theorem Vec3.neg_x (u : Vec3 F) : (-u).x = -u.x := rfl
@[simp] theorem Vec3.neg_y (u : Vec3 F) : (-u).y = -u.y := rfl
@[simp] theorem Vec3.neg_z (u : Vec3 F) : (-u).z = -u.z := rfl
@[simp] theorem Vec3.smul_x (c : F) (u : Vec3 F) : (c * u).x = c * u.x := rfl
@[simp] theorem Vec3.smul_y (c : F) (u : Vec3 F) : (c * u).y = c * u.y := rfl
@[simp] theorem Vec3.smul_z (c : F) (u : Vec3 F) : (c * u).z = c * u.z := rfl
@[simp] theorem Vec3.muls_x (u : Vec3 F) (c : F) : (u * c).x = u.x * c := rfl
@[simp] theorem Vec3.muls_y (u : Vec3 F) (c : F) : (u * c).y = u.y * c := rfl
@[simp] theorem Vec3.muls_z (u : Vec3 F) (c : F) : (u * c).z = u.z * c := rfl
@[simp] theorem Vec3.divs_x (u : Vec3 F) (c : F) : (u / c).x = u.x / c := rfl
@[simp] theorem Vec3.divs_y (u : Vec3 F) (c : F) : (u / c).y = u.y / c := rfl
@[simp] theorem Vec3.divs_z (u : Vec3 F) (c : F) : (u / c).z = u.z / c := rfl

theorem Vec3.squaredNorm_nonneg (v : Vec3 F) : 0 ≤ v.squaredNorm := by
  unfold Vec3.squaredNorm
  nlinarith [mul_self_nonneg v.x, mul_self_nonneg v.y, mul_self_nonneg v.z]

theorem Vec3.eq_zero_of_squaredNorm_eq_zero (v : Vec3 F) (h : v.squaredNorm = 0) : v = 0 := by
  unfold Vec3.squaredNorm at h
  have hx := mul_self_nonneg v.x
  have hy := mul_self_nonneg v.y
  have hz := mul_self_nonneg v.z
  ext
  · exact mul_self_eq_zero.mp (by linarith)
  · exact mul_self_eq_zero.mp (by linarith)
  · exact mul_self_eq_zero.mp (by linarith)

theorem Vec3.squaredNorm_smul (c : F) (v : Vec3 F) :
    (c * v).squaredNorm = c ^ 2 * v.squaredNorm := by
  simp only [Vec3.squaredNorm, Vec3.smul_x, Vec3.smul_y, Vec3.smul_z]
  ring

theorem Vec3.muls_eq_smul (v : Vec3 F) (c : F) : v * c = c * v := by
  ext
  · exact mul_comm _ _
  · exact mul_comm _ _
  · exact mul_comm _ _

end Vec3Lemmas

/-! ## Norms over the reals -/

theorem Vec3.norm_nonneg (v : Vec3 ℝ) : 0 ≤ v.norm Real.sqrt := Real.sqrt_nonneg _

theorem Vec3.norm_smul (c : ℝ) (v : Vec3 ℝ) :
    (c * v).norm Real.sqrt = |c| * v.norm Real.sqrt := by
  unfold Vec3.norm
  rw [Vec3.squaredNorm_smul, Real.sqrt_mul (sq_nonneg c), Real.sqrt_sq_eq_abs]

theorem Vec3.norm_zero : (0 : Vec3 ℝ).norm Real.sqrt = 0 := by
  simp [Vec3.norm, Vec3.squaredNorm]

/-- The norm times the normalised vector gives the vector back, the zero vector included. -/
theorem Vec3.norm_mul_normalized (v : Vec3 ℝ) :
    v.norm Real.sqrt * v.normalized Real.sqrt = v := by
  unfold Vec3.norm Vec3.normalized
  by_cases h : v.squaredNorm > 0
  · have hs : Real.sqrt v.squaredNorm ≠ 0 := (Real.sqrt_pos.mpr h).ne'
    simp only [h, if_true]
    ext
    · simp only [Vec3.smul_x, Vec3.divs_x]
      field_simp
    · simp only [Vec3.smul_y, Vec3.divs_y]
      field_simp
    · simp only [Vec3.smul_z, Vec3.divs_z]
      field_simp
  · have h0 : v.squaredNorm = 0 := le_antisymm (not_lt.mp h) (Vec3.squaredNorm_nonneg v)
    have hv : v = 0 := Vec3.eq_zero_of_squaredNorm_eq_zero v h0
    simp only [h, if_false]
    subst hv
    ext <;> simp

theorem Vec3.norm_normalized_le_one (v : Vec3 ℝ) :
    (v.normalized Real.sqrt).norm Real.sqrt ≤ 1 := by
  by_cases h : v.squaredNorm > 0
  · have hs : 0 < Real.sqrt v.squaredNorm := Real.sqrt_pos.mpr h
    have e : v.normalized Real.sqrt = (Real.sqrt v.squaredNorm)⁻¹ * v := by
      simp only [Vec3.normalized, h, if_true]
      ext
      · simp only [Vec3.smul_x, Vec3.divs_x]
        field_simp
      · simp only [Vec3.smul_y, Vec3.divs_y]
        field_simp
      · simp only [Vec3.smul_z, Vec3.divs_z]
        field_simp
    rw [e, Vec3.norm_smul, abs_of_pos (inv_pos.mpr hs)]
    unfold Vec3.norm
    rw [inv_mul_cancel₀ hs.ne']
  · have h0 : v.squaredNorm = 0 := le_antisymm (not_lt.mp h) (Vec3.squaredNorm_nonneg v)
    have hv : v = 0 := Vec3.eq_zero_of_squaredNorm_eq_zero v h0
    subst hv
    have : (0 : Vec3 ℝ).normalized Real.sqrt = 0 := by
      simp [Vec3.normalized, Vec3.squaredNorm]
    rw [this, Vec3.norm_zero]
    exact zero_le_one

/-- A multiple of a normalised vector is no longer than the factor. -/
theorem Vec3.norm_smul_normalized_le (c : ℝ) (v : Vec3 ℝ) :
    (c * v.normalized Real.sqrt).norm Real.sqrt ≤ |c| := by
  rw [Vec3.norm_smul]
  exact mul_le_of_le_one_right (abs_nonneg c) (Vec3.norm_normalized_le_one v)

/-- The goal is the start plus the distance times the unit direction. -/
theorem Vec3.start_add_norm_mul_normalized (p g : Vec3 ℝ) :
    p + (g - p).norm Real.sqrt * (g - p).normalized Real.sqrt = g := by
  rw [Vec3.norm_mul_normalized]
  ext
  · simp only [Vec3.add_x, Vec3.sub_x]
    ring
  · simp only [Vec3.add_y, Vec3.sub_y]
    ring
  · simp only [Vec3.add_z, Vec3.sub_z]
    ring

theorem Vec3.norm_sub_pos (p g : Vec3 ℝ) (h : p ≠ g) : 0 < (g - p).norm Real.sqrt := by
  unfold Vec3.norm
  rw [Real.sqrt_pos]
  rcases (Vec3.squaredNorm_nonneg (g - p)).lt_or_eq with k | k
  · exact k
  · exfalso
    have z := Vec3.eq_zero_of_squaredNorm_eq_zero (g - p) k.symm
    apply h
    have zx : (g - p).x = 0 := by rw [z]; rfl
    have zy : (g - p).y = 0 := by rw [z]; rfl
    have zz : (g - p).z = 0 := by rw [z]; rfl
    simp only [Vec3.sub_x, Vec3.sub_y, Vec3.sub_z] at zx zy zz
    ext <;> linarith

theorem Vec3.zero_smul (v : Vec3 ℝ) : (0 : ℝ) * v = 0 := by
  ext
  · simp only [Vec3.smul_x, Vec3.zero_x, zero_mul]
  · simp only [Vec3.smul_y, Vec3.zero_y, zero_mul]
  · simp only [Vec3.smul_z, Vec3.zero_z, zero_mul]

theorem Vec3.norm_sub_self (p : Vec3 ℝ) : (p - p).norm Real.sqrt = 0 := by
  simp [Vec3.norm, Vec3.squaredNorm]

/-- Two points on the line through `p` along the unit direction are no further apart
than the difference of their parameters. -/
theorem Vec3.norm_line_sub_le (p v : Vec3 ℝ) (x y : ℝ) :
    ((p + y * v.normalized Real.sqrt) - (p + x * v.normalized Real.sqrt)).norm Real.sqrt ≤
      |y - x| := by
  have e : (p + y * v.normalized Real.sqrt) - (p + x * v.normalized Real.sqrt) =
      (y - x) * v.normalized Real.sqrt := by
    ext
    · simp only [Vec3.add_x, Vec3.sub_x, Vec3.smul_x]
      ring
    · simp only [Vec3.add_y, Vec3.sub_y, Vec3.smul_y]
      ring
    · simp only [Vec3.add_z, Vec3.sub_z, Vec3.smul_z]
      ring
  rw [e]
  exact Vec3.norm_smul_normalized_le _ _

/-- The durations `update` plans for distance `d`, speed `v` and acceleration `a`. -/
theorem planned_durations (d v a ta tc : ℝ) (hd : 0 ≤ d) (hv : 0 < v) (ha : 0 < a)
    (h1 : d > v * v / a → ta = v / a ∧ tc = d / v - v / a)
    (h2 : ¬ d > v * v / a → ta = Real.sqrt (d / a) ∧ tc = 0) :
    0 ≤ ta ∧ 0 ≤ tc ∧ a * ta * (ta + tc) = d ∧ a * ta ≤ v ∧
    (d > v * v / a → a * ta = v) ∧ (¬ d > v * v / a → a * ta = Real.sqrt (a * d)) := by
  by_cases h : d > v * v / a
  · obtain ⟨e1, e2⟩ := h1 h
    subst e1 e2
    have k : v * v < d * a := (div_lt_iff₀ ha).mp h
    refine ⟨by positivity, ?_, ?_, ?_, ?_, fun h' => absurd h h'⟩
    · rw [sub_nonneg, div_le_div_iff₀ ha hv]
      linarith
    · field_simp
      ring
    · field_simp
    · intro _
      field_simp
  · obtain ⟨e1, e2⟩ := h2 h
    subst e1 e2
    have k : d * a ≤ v * v := by
      have := not_lt.mp h
      exact (le_div_iff₀ ha).mp this
    have hda : 0 ≤ d / a := div_nonneg hd ha.le
    have hs : Real.sqrt (d / a) * Real.sqrt (d / a) = d / a := Real.mul_self_sqrt hda
    have e : a * Real.sqrt (d / a) = Real.sqrt (a * d) := by
      have : a = Real.sqrt (a * a) := (Real.sqrt_mul_self ha.le).symm
      calc a * Real.sqrt (d / a) = Real.sqrt (a * a) * Real.sqrt (d / a) := by rw [← this]
        _ = Real.sqrt (a * a * (d / a)) := (Real.sqrt_mul (mul_self_nonneg a) _).symm
        _ = Real.sqrt (a * d) := by
          congr 1
          field_simp
          ring
    refine ⟨Real.sqrt_nonneg _, le_rfl, ?_, ?_, fun h' => absurd h' h, fun _ => e⟩
    · rw [add_zero, mul_assoc, hs]
      field_simp
    · rw [e]
      calc Real.sqrt (a * d) ≤ Real.sqrt (v * v) := Real.sqrt_le_sqrt (by linarith)
        _ = v := Real.sqrt_mul_self hv.le


/-! ## The scalar profile is monotone and speed-limited -/

section ProfileLemmas
variable {F : Type} [LinearOrderedField F]

theorem monoLip_glue (f : F → F) (V lo b hi : F)
    (h1 : ∀ x y, lo ≤ x → x ≤ y → y ≤ b → 0 ≤ f y - f x ∧ f y - f x ≤ V * (y - x))
    (h2 : ∀ x y, b ≤ x → x ≤ y → y ≤ hi → 0 ≤ f y - f x ∧ f y - f x ≤ V * (y - x))
    (x y : F) (hx : lo ≤ x) (hxy : x ≤ y) (hy : y ≤ hi) :
    0 ≤ f y - f x ∧ f y - f x ≤ V * (y - x) := by
  rcases le_total y b with hyb | hyb
  · exact h1 x y hx hxy hyb
  · rcases le_total b x with hbx | hbx
    · exact h2 x y hbx hxy hy
    · obtain ⟨p1, p2⟩ := h1 x b hx hbx le_rfl
      obtain ⟨q1, q2⟩ := h2 b y le_rfl hyb hy
      constructor
      · linarith
      · have : V * (y - x) = V * (y - b) + V * (b - x) := by ring
        linarith

theorem profileDist_accel (a ta tc d tau : F) (h : tau ≤ ta) :
    profileDist a ta tc d tau = a * tau ^ 2 / 2 := by
  have e : (0.5 : F) = 1 / 2 := by norm_num
  simp only [profileDist, h, if_true, e]
  ring

theorem profileDist_cruise (a ta tc d tau : F) (h1 : ta ≤ tau) (h2 : tau ≤ ta + tc) :
    profileDist a ta tc d tau = a * ta ^ 2 / 2 + a * ta * (tau - ta) := by
  have e : (0.5 : F) = 1 / 2 := by norm_num
  simp only [profileDist, e]
  split_ifs with c1
  · have : tau = ta := le_antisymm c1 h1
    subst this
    ring
  · ring

theorem profileDist_decel (a ta tc d tau : F) (htc : 0 ≤ tc) (h1 : ta + tc ≤ tau)
    (h2 : tau ≤ ta + tc + ta) :
    profileDist a ta tc d tau =
      a * ta ^ 2 / 2 + a * ta * tc + a * ta * (tau - (ta + tc)) - a * (tau - (ta + tc)) ^ 2 / 2 := by
  have e : (0.5 : F) = 1 / 2 := by norm_num
  simp only [profileDist, e]
  split_ifs with c1 c2
  · have h3 : tc = 0 := by linarith
    have h4 : tau = ta := by linarith
    subst h4 h3
    ring
  · have h4 : tau = ta + tc := le_antisymm c2 h1
    subst h4
    ring
  · ring

theorem profileDist_reached (a ta tc d tau : F) (hta : 0 ≤ ta) (htc : 0 ≤ tc)
    (hd : d = a * ta * (ta + tc)) (h1 : ta + tc + ta ≤ tau) :
    profileDist a ta tc d tau = d := by
  have e : (0.5 : F) = 1 / 2 := by norm_num
  simp only [profileDist, e]
  split_ifs with c1 c2 c3
  · have h3 : tc = 0 := by linarith
    have h4 : ta = 0 := by linarith
    have h5 : tau = 0 := by linarith
    subst hd
    rw [h3, h4, h5]
    ring
  · have h4 : ta = 0 := by linarith
    have h5 : tau = tc := by linarith
    subst hd
    rw [h4, h5]
    ring
  · have h5 : tau = ta + tc + ta := le_antisymm c3 h1
    subst hd
    rw [h5]
    ring
  · rfl

theorem profileDist_monoLip (a ta tc d : F) (ha : 0 < a) (hta : 0 ≤ ta) (htc : 0 ≤ tc)
    (hd : d = a * ta * (ta + tc)) (x y : F) (hx : 0 ≤ x) (hxy : x ≤ y) :
    0 ≤ profileDist a ta tc d y - profileDist a ta tc d x ∧
    profileDist a ta tc d y - profileDist a ta tc d x ≤ a * ta * (y - x) := by
  have p1 : ∀ x y, 0 ≤ x → x ≤ y → y ≤ ta →
      0 ≤ profileDist a ta tc d y - profileDist a ta tc d x ∧
      profileDist a ta tc d y - profileDist a ta tc d x ≤ a * ta * (y - x) := by
    intro x y h0 h1 h2
    rw [profileDist_accel a ta tc d y h2, profileDist_accel a ta tc d x (h1.trans h2)]
    have k1 : 0 ≤ a * ((y - x) * (x + y)) :=
      mul_nonneg ha.le (mul_nonneg (sub_nonneg.mpr h1) (by linarith))
    have k2 : 0 ≤ a * ((y - x) * (2 * ta - x - y)) :=
      mul_nonneg ha.le (mul_nonneg (sub_nonneg.mpr h1) (by linarith))
    have e1 : a * y ^ 2 / 2 - a * x ^ 2 / 2 = a * ((y - x) * (x + y)) / 2 := by ring
    have e2 : a * ta * (y - x) - (a * y ^ 2 / 2 - a * x ^ 2 / 2) =
        a * ((y - x) * (2 * ta - x - y)) / 2 := by ring
    constructor <;> linarith
  have p2 : ∀ x y, ta ≤ x → x ≤ y → y ≤ ta + tc →
      0 ≤ profileDist a ta tc d y - profileDist a ta tc d x ∧
      profileDist a ta tc d y - profileDist a ta tc d x ≤ a * ta * (y - x) := by
    intro x y h0 h1 h2
    rw [profileDist_cruise a ta tc d y (h0.trans h1) h2,
      profileDist_cruise a ta tc d x h0 (h1.trans h2)]
    have k1 : 0 ≤ a * ta * (y - x) := mul_nonneg (mul_nonneg ha.le hta) (sub_nonneg.mpr h1)
    have e1 : a * ta ^ 2 / 2 + a * ta * (y - ta) - (a * ta ^ 2 / 2 + a * ta * (x - ta)) =
        a * ta * (y - x) := by ring
    constructor <;> linarith
  have p3 : ∀ x y, ta + tc ≤ x → x ≤ y → y ≤ ta + tc + ta →
      0 ≤ profileDist a ta tc d y - profileDist a ta tc d x ∧
      profileDist a ta tc d y - profileDist a ta tc d x ≤ a * ta * (y - x) := by
    intro x y h0 h1 h2
    rw [profileDist_decel a ta tc d y htc (h0.trans h1) h2,
      profileDist_decel a ta tc d x htc h0 (h1.trans h2)]
    have k1 : 0 ≤ a * ((y - x) * ((x - (ta + tc)) + (y - (ta + tc)))) :=
      mul_nonneg ha.le (mul_nonneg (sub_nonneg.mpr h1) (by linarith))
    have k2 : 0 ≤ a * ((y - x) * (2 * ta - (x - (ta + tc)) - (y - (ta + tc)))) :=
      mul_nonneg ha.le (mul_nonneg (sub_nonneg.mpr h1) (by linarith))
    have e1 : a * ta ^ 2 / 2 + a * ta * tc + a * ta * (y - (ta + tc)) -
          a * (y - (ta + tc)) ^ 2 / 2 -
        (a * ta ^ 2 / 2 + a * ta * tc + a * ta * (x - (ta + tc)) -
          a * (x - (ta + tc)) ^ 2 / 2) =
        a * ((y - x) * (2 * ta - (x - (ta + tc)) - (y - (ta + tc)))) / 2 := by ring
    have e2 : a * ta * (y - x) -
        (a * ta ^ 2 / 2 + a * ta * tc + a * ta * (y - (ta + tc)) -
          a * (y - (ta + tc)) ^ 2 / 2 -
        (a * ta ^ 2 / 2 + a * ta * tc + a * ta * (x - (ta + tc)) -
          a * (x - (ta + tc)) ^ 2 / 2)) =
        a * ((y - x) * ((x - (ta + tc)) + (y - (ta + tc)))) / 2 := by ring
    constructor <;> linarith
  have p4 : ∀ x y, ta + tc + ta ≤ x → x ≤ y →
      0 ≤ profileDist a ta tc d y - profileDist a ta tc d x ∧
      profileDist a ta tc d y - profileDist a ta tc d x ≤ a * ta * (y - x) := by
    intro x y h0 h1
    rw [profileDist_reached a ta tc d y hta htc hd (h0.trans h1),
      profileDist_reached a ta tc d x hta htc hd h0]
    have k1 : 0 ≤ a * ta * (y - x) := mul_nonneg (mul_nonneg ha.le hta) (sub_nonneg.mpr h1)
    constructor <;> linarith
  have q12 := monoLip_glue (profileDist a ta tc d) (a * ta) 0 ta (ta + tc) p1 p2
  have q123 := monoLip_glue (profileDist a ta tc d) (a * ta) 0 (ta + tc) (ta + tc + ta) q12 p3
  rcases le_total y (ta + tc + ta) with hy | hy
  · exact q123 x y hx hxy hy
  · rcases le_total (ta + tc + ta) x with hbx | hbx
    · exact p4 x y hbx hxy
    · obtain ⟨a1, a2⟩ := q123 x (ta + tc + ta) hx hbx le_rfl
      obtain ⟨b1, b2⟩ := p4 (ta + tc + ta) y le_rfl hy
      constructor
      · linarith
      · have : a * ta * (y - x) = a * ta * (y - (ta + tc + ta)) + a * ta * ((ta + tc + ta) - x) := by
          ring
        linarith
/-- From the plan start on, the speed stays between zero and the peak `a * ta`. -/
theorem profileSpeed_bounds (a ta tc tau : F) (ha : 0 < a) (hta : 0 ≤ ta) (h0 : 0 ≤ tau) :
    0 ≤ profileSpeed a ta tc tau ∧ profileSpeed a ta tc tau ≤ a * ta := by
  have k0 : 0 ≤ a * ta := mul_nonneg ha.le hta
  simp only [profileSpeed]
  split_ifs with h1 h2 h3
  · exact ⟨mul_nonneg ha.le h0, mul_le_mul_of_nonneg_left h1 ha.le⟩
  · exact ⟨k0, le_rfl⟩
  · have k1 : 0 ≤ a * (tau - (ta + tc)) := mul_nonneg ha.le (by linarith)
    have k2 : 0 ≤ a * (ta + tc + ta - tau) := mul_nonneg ha.le (by linarith)
    have e : a * ta - a * (tau - (ta + tc)) = a * (ta + tc + ta - tau) := by ring
    constructor <;> linarith
  · exact ⟨le_rfl, k0⟩

end ProfileLemmas

/-! ## FlatState -/

section FlatStateTheorems
variable {F : Type} [LinearOrderedField F]

/-- C3 (one-way latch): a measurement ingested after a command leaves every field of
FlatState as the command set it, and more generally `set_from_odom` is the identity on
every FlatState whose valid flag is true. -/
theorem C3_set_from_odom_after_cmd (s : FlatState F) (c : PositionCommand F) (m : Odometry F) :
    (s.set_from_cmd (some c)).set_from_odom m = s.set_from_cmd (some c) ∧
    ((s.set_from_cmd (some c)).set_from_odom m =
      { pos_ := c.position, vel_ := c.velocity, acc_ := c.acceleration, jrk_ := c.jerk,
        snp_ := c.snap, yaw_ := c.yaw, yaw_dot_ := c.yaw_dot, yaw_ddot_ := c.yaw_ddot,
        cmd_valid_ := true }) ∧
    (∀ t : FlatState F, t.cmd_valid_ = true → t.set_from_odom m = t) := by
  refine ⟨?_, ?_, ?_⟩
  · simp [FlatState.set_from_cmd, FlatState.set_from_odom]
  · simp [FlatState.set_from_cmd, FlatState.set_from_odom]
  · intro t ht
    simp [FlatState.set_from_odom, ht]

end FlatStateTheorems

/-! ## What `update` leaves alone -/

section Frame
variable {F : Type} [LinearOrderedField F]

theorem LineTrackerTrapezoid.update_profile_frame (sqrt : F → F) (s : LineTrackerTrapezoid F)
    (cmd : PositionCommand F) (t : F) :
    (s.update_profile sqrt cmd t).1.active_ = s.active_ ∧
    (s.update_profile sqrt cmd t).1.goal_set_ = s.goal_set_ ∧
    (s.update_profile sqrt cmd t).1.pos_set_ = s.pos_set_ ∧
    (s.update_profile sqrt cmd t).1.goal_ = s.goal_ ∧
    (s.update_profile sqrt cmd t).1.start_pos_ = s.start_pos_ ∧
    (s.update_profile sqrt cmd t).1.start_yaw_ = s.start_yaw_ ∧
    (s.update_profile sqrt cmd t).1.traj_start_ = s.traj_start_ ∧
    (s.update_profile sqrt cmd t).1.t_accel_ = s.t_accel_ ∧
    (s.update_profile sqrt cmd t).1.t_constant_ = s.t_constant_ ∧
    (s.update_profile sqrt cmd t).1.v_des_ = s.v_des_ ∧
    (s.update_profile sqrt cmd t).1.a_des_ = s.a_des_ := by
  simp only [LineTrackerTrapezoid.update_profile]
  split_ifs <;> simp

/-- No `update` call changes the active flag, the goal or the cruise parameters. -/
theorem LineTrackerTrapezoid.update_frame (sqrt : F → F) (now : F) (s : LineTrackerTrapezoid F)
    (msg : Odometry F) :
    (s.update sqrt now msg).1.active_ = s.active_ ∧
    (s.update sqrt now msg).1.goal_ = s.goal_ ∧
    (s.update sqrt now msg).1.v_des_ = s.v_des_ ∧
    (s.update sqrt now msg).1.a_des_ = s.a_des_ ∧
    (s.update sqrt now msg).1.pos_set_ = true := by
  simp only [LineTrackerTrapezoid.update]
  split_ifs <;>
    simp_all [(LineTrackerTrapezoid.update_profile_frame sqrt _ _ _)]

/-- Without a pending goal, `update` keeps the planned profile. -/
theorem LineTrackerTrapezoid.update_frame_profile (sqrt : F → F) (now : F)
    (s : LineTrackerTrapezoid F) (msg : Odometry F) (hgs : s.goal_set_ = false) :
    (s.update sqrt now msg).1.goal_set_ = false ∧
    (s.update sqrt now msg).1.start_pos_ = s.start_pos_ ∧
    (s.update sqrt now msg).1.start_yaw_ = s.start_yaw_ ∧
    (s.update sqrt now msg).1.traj_start_ = s.traj_start_ ∧
    (s.update sqrt now msg).1.t_accel_ = s.t_accel_ ∧
    (s.update sqrt now msg).1.t_constant_ = s.t_constant_ := by
  simp only [LineTrackerTrapezoid.update]
  split_ifs <;>
    simp_all [(LineTrackerTrapezoid.update_profile_frame sqrt _ _ _)]

end Frame

/-! ## The command emitted by a tick -/

section Emitted

/-- What lines 141-184 emit, in terms of the scalar profile: position, velocity and
acceleration are the scalar profile times the unit direction, the command is fed back
into FlatState, and the goal-reached flag is set only past the end of the profile. -/
theorem LineTrackerTrapezoid.update_profile_spec (s : LineTrackerTrapezoid ℝ)
    (cmd : PositionCommand ℝ) (t : ℝ) :
    ∃ c : PositionCommand ℝ, (s.update_profile Real.sqrt cmd t).2 = some c ∧
      c.position = s.start_pos_ +
        profileDist s.a_des_ s.t_accel_ s.t_constant_ ((s.goal_ - s.start_pos_).norm Real.sqrt)
          (t - s.traj_start_) * (s.goal_ - s.start_pos_).normalized Real.sqrt ∧
      c.velocity = profileSpeed s.a_des_ s.t_accel_ s.t_constant_ (t - s.traj_start_) *
        (s.goal_ - s.start_pos_).normalized Real.sqrt ∧
      c.acceleration = profileAccel s.a_des_ s.t_accel_ s.t_constant_ (t - s.traj_start_) *
        (s.goal_ - s.start_pos_).normalized Real.sqrt ∧
      ((s.update_profile Real.sqrt cmd t).1.goal_reached_ = true →
        s.goal_reached_ = true ∨ s.t_accel_ + s.t_constant_ + s.t_accel_ < t - s.traj_start_) ∧
      (s.goal_reached_ = true ∨
          (s.t_accel_ < t - s.traj_start_ ∧ s.t_accel_ + s.t_constant_ < t - s.traj_start_ ∧
            s.t_accel_ + s.t_constant_ + s.t_accel_ < t - s.traj_start_) →
        (s.update_profile Real.sqrt cmd t).1.goal_reached_ = true) ∧
      (s.update_profile Real.sqrt cmd t).1.ICs_.cmd_valid_ = true ∧
      (s.update_profile Real.sqrt cmd t).1.ICs_.pos_ = c.position := by
  have hg : s.goal_ = s.start_pos_ + (s.goal_ - s.start_pos_).norm Real.sqrt *
      (s.goal_ - s.start_pos_).normalized Real.sqrt := by
    rw [Vec3.norm_mul_normalized]
    ext
    · simp only [Vec3.add_x, Vec3.sub_x]
      ring
    · simp only [Vec3.add_y, Vec3.sub_y]
      ring
    · simp only [Vec3.add_z, Vec3.sub_z]
      ring
  simp only [LineTrackerTrapezoid.update_profile, profileDist, profileSpeed, profileAccel]
  split_ifs with h1 h2 h3
  · refine ⟨_, rfl, ?_, ?_, rfl, fun h => Or.inl h,
      fun h => h.elim id (fun k => absurd h1 (not_le.mpr k.1)), rfl, rfl⟩ <;>
      (ext <;> simp only [Vec3.add_x, Vec3.add_y, Vec3.add_z, Vec3.smul_x, Vec3.smul_y,
        Vec3.smul_z, Vec3.muls_x, Vec3.muls_y, Vec3.muls_z] <;> ring)
  · refine ⟨_, rfl, ?_, ?_, ?_, fun h => Or.inl h,
      fun h => h.elim id (fun k => absurd h2 (not_le.mpr k.2.1)), rfl, rfl⟩ <;>
      (ext <;> simp only [Vec3.add_x, Vec3.add_y, Vec3.add_z, Vec3.smul_x, Vec3.smul_y,
        Vec3.smul_z, Vec3.muls_x, Vec3.muls_y, Vec3.muls_z, Vec3.zero_x, Vec3.zero_y,
        Vec3.zero_z] <;> ring)
  · refine ⟨_, rfl, ?_, ?_, rfl, fun h => Or.inl h,
      fun h => h.elim id (fun k => absurd h3 (not_le.mpr k.2.2)), rfl, rfl⟩ <;>
      (ext <;> simp only [Vec3.add_x, Vec3.add_y, Vec3.add_z, Vec3.sub_x, Vec3.sub_y,
        Vec3.sub_z, Vec3.smul_x, Vec3.smul_y, Vec3.smul_z, Vec3.muls_x, Vec3.muls_y,
        Vec3.muls_z] <;> ring)
  · refine ⟨_, rfl, hg, ?_, ?_, fun _ => Or.inr (not_le.mp h3), fun _ => rfl, rfl, rfl⟩ <;>
      (ext <;> simp only [Vec3.smul_x, Vec3.smul_y, Vec3.smul_z, Vec3.zero_x, Vec3.zero_y,
        Vec3.zero_z] <;> ring)

/-- What a tick on an active tracker emits. In the hold state it is the goal at rest;
otherwise (planning or tracking tick) it is the scalar profile of the tracker as it is
after the tick, times the unit direction. The command is always fed back to FlatState. -/
theorem LineTrackerTrapezoid.update_emits (s : LineTrackerTrapezoid ℝ) (now : ℝ)
    (msg : Odometry ℝ) (hact : s.active_ = true) :
    ∃ c : PositionCommand ℝ, (s.update Real.sqrt now msg).2 = some c ∧
      (s.update Real.sqrt now msg).1.ICs_.cmd_valid_ = true ∧
      (s.update Real.sqrt now msg).1.ICs_.pos_ = c.position ∧
      (s.goal_set_ = false → s.goal_reached_ = true →
        c.position = s.goal_ ∧ c.velocity = 0 ∧ c.acceleration = 0 ∧
        (s.update Real.sqrt now msg).1.goal_reached_ = true) ∧
      (s.goal_set_ = true ∨ s.goal_reached_ = false →
        c.position = (s.update Real.sqrt now msg).1.start_pos_ +
          profileDist (s.update Real.sqrt now msg).1.a_des_
            (s.update Real.sqrt now msg).1.t_accel_ (s.update Real.sqrt now msg).1.t_constant_
            (((s.update Real.sqrt now msg).1.goal_ -
              (s.update Real.sqrt now msg).1.start_pos_).norm Real.sqrt)
            (msg.header.stamp - (s.update Real.sqrt now msg).1.traj_start_) *
          ((s.update Real.sqrt now msg).1.goal_ -
            (s.update Real.sqrt now msg).1.start_pos_).normalized Real.sqrt ∧
        c.velocity =
          profileSpeed (s.update Real.sqrt now msg).1.a_des_
            (s.update Real.sqrt now msg).1.t_accel_ (s.update Real.sqrt now msg).1.t_constant_
            (msg.header.stamp - (s.update Real.sqrt now msg).1.traj_start_) *
          ((s.update Real.sqrt now msg).1.goal_ -
            (s.update Real.sqrt now msg).1.start_pos_).normalized Real.sqrt ∧
        c.acceleration =
          profileAccel (s.update Real.sqrt now msg).1.a_des_
            (s.update Real.sqrt now msg).1.t_accel_ (s.update Real.sqrt now msg).1.t_constant_
            (msg.header.stamp - (s.update Real.sqrt now msg).1.traj_start_) *
          ((s.update Real.sqrt now msg).1.goal_ -
            (s.update Real.sqrt now msg).1.start_pos_).normalized Real.sqrt ∧
        ((s.update Real.sqrt now msg).1.goal_reached_ = true →
          s.goal_reached_ = true ∨
          (s.update Real.sqrt now msg).1.t_accel_ + (s.update Real.sqrt now msg).1.t_constant_ +
            (s.update Real.sqrt now msg).1.t_accel_ <
              msg.header.stamp - (s.update Real.sqrt now msg).1.traj_start_) ∧
        (s.goal_reached_ = true ∨
            ((s.update Real.sqrt now msg).1.t_accel_ <
                msg.header.stamp - (s.update Real.sqrt now msg).1.traj_start_ ∧
              (s.update Real.sqrt now msg).1.t_accel_ +
                  (s.update Real.sqrt now msg).1.t_constant_ <
                msg.header.stamp - (s.update Real.sqrt now msg).1.traj_start_ ∧
              (s.update Real.sqrt now msg).1.t_accel_ +
                  (s.update Real.sqrt now msg).1.t_constant_ +
                  (s.update Real.sqrt now msg).1.t_accel_ <
                msg.header.stamp - (s.update Real.sqrt now msg).1.traj_start_) →
          (s.update Real.sqrt now msg).1.goal_reached_ = true)) := by
  cases hgs : s.goal_set_
  · cases hgr : s.goal_reached_
    · simp only [LineTrackerTrapezoid.update, hact, hgs, hgr, Bool.not_true,
        Bool.false_eq_true, if_false]
      obtain ⟨c, h1, h2, h3, h4, h5, h6, h7, h8⟩ :=
        LineTrackerTrapezoid.update_profile_spec _ _ _
      obtain ⟨-, -, -, f4, f5, -, f7, f8, f9, f10, f11⟩ :=
        LineTrackerTrapezoid.update_profile_frame Real.sqrt _ _ _
      refine ⟨c, h1, h7, h8, fun _ h => absurd h (by simp), fun _ => ?_⟩
      rw [f4, f5, f7, f8, f9, f11]
      refine ⟨h2, h3, h4, fun h => ?_, fun h => ?_⟩
      · rcases h5 h with k | k
        · exact absurd k (by simp)
        · exact Or.inr k
      · rcases h with k | k
        · exact absurd k (by simp)
        · exact h6 (Or.inr k)
    · simp [LineTrackerTrapezoid.update, FlatState.set_from_cmd, hact, hgs, hgr]
  · by_cases hd : (s.goal_ - (s.ICs_.set_from_odom msg).pos_).norm Real.sqrt >
        s.v_des_ * s.v_des_ / s.a_des_
    all_goals
      simp only [LineTrackerTrapezoid.update, hact, hgs, hd, Bool.not_true,
        Bool.false_eq_true, if_false, if_true]
      obtain ⟨c, h1, h2, h3, h4, h5, h6, h7, h8⟩ :=
        LineTrackerTrapezoid.update_profile_spec _ _ _
      obtain ⟨-, -, -, f4, f5, -, f7, f8, f9, f10, f11⟩ :=
        LineTrackerTrapezoid.update_profile_frame Real.sqrt _ _ _
      refine ⟨c, h1, h7, h8, fun h => absurd h (by simp), fun _ => ?_⟩
      rw [f4, f5, f7, f8, f9, f11]
      exact ⟨h2, h3, h4, h5, h6⟩

/-- The planning tick stores the durations computed from the stored start and goal. -/
theorem LineTrackerTrapezoid.update_planned {F : Type} [LinearOrderedField F] (sqrt : F → F)
    (now : F) (s : LineTrackerTrapezoid F) (msg : Odometry F) (hact : s.active_ = true)
    (hgs : s.goal_set_ = true) :
    LineTrackerTrapezoid.Planned sqrt (s.update sqrt now msg).1 ∧
    (s.update sqrt now msg).1.traj_start_ = msg.header.stamp ∧
    (s.update sqrt now msg).1.start_pos_ = (s.ICs_.set_from_odom msg).pos_ := by
  simp only [LineTrackerTrapezoid.update, hact, hgs, Bool.not_true, Bool.false_eq_true,
    if_false, if_true, LineTrackerTrapezoid.Planned,
    (LineTrackerTrapezoid.update_profile_frame sqrt _ _ _)]
  split_ifs with h <;> simp [h]

/-- A tick without a pending goal keeps the durations consistent with start and goal. -/
theorem LineTrackerTrapezoid.update_keeps_planned {F : Type} [LinearOrderedField F]
    (sqrt : F → F) (now : F) (s : LineTrackerTrapezoid F) (msg : Odometry F)
    (hgs : s.goal_set_ = false) (hp : LineTrackerTrapezoid.Planned sqrt s) :
    LineTrackerTrapezoid.Planned sqrt (s.update sqrt now msg).1 := by
  obtain ⟨-, g2, g3, g4, -⟩ := LineTrackerTrapezoid.update_frame sqrt now s msg
  obtain ⟨-, p2, -, -, p5, p6⟩ := LineTrackerTrapezoid.update_frame_profile sqrt now s msg hgs
  simp only [LineTrackerTrapezoid.Planned, g2, g3, g4, p2, p5, p6]
  exact hp

/-- In every reachable state a pending goal is not marked reached, and an active tracker
without a pending goal holds durations planned from its stored start and goal. -/
theorem LineTrackerTrapezoid.Reachable.invariant {F : Type} [LinearOrderedField F]
    (sqrt : F → F) (s : LineTrackerTrapezoid F) (h : LineTrackerTrapezoid.Reachable sqrt s) :
    (s.goal_set_ = true → s.goal_reached_ = false) ∧
    (s.active_ = true → s.goal_set_ = false → LineTrackerTrapezoid.Planned sqrt s) := by
  induction h with
  | ctor mem =>
    simp [LineTrackerTrapezoid.ctor]
  | init mem p =>
    simp [LineTrackerTrapezoid.Initialize, LineTrackerTrapezoid.ctor]
  | goal_callback msg _ ih =>
    simp only [LineTrackerTrapezoid.goal_callback]
    split_ifs <;> simp
  | @Activate s cmd _ ih =>
    simp only [LineTrackerTrapezoid.Activate]
    split_ifs with hc
    · simp only [Bool.and_eq_true] at hc
      refine ⟨ih.1, fun _ h => ?_⟩
      simp [hc.1] at h
    · exact ih
  | Deactivate _ ih =>
    simp [LineTrackerTrapezoid.Deactivate]
  | @update s now msg _ ih =>
    obtain ⟨g1, -, -, -, -⟩ := LineTrackerTrapezoid.update_frame sqrt now s msg
    cases hact : s.active_
    · have e : s.update sqrt now msg = ({ s with
          pos_ := msg.position, cur_yaw_ := msg.yaw, pos_set_ := true,
          ICs_ := s.ICs_.set_from_odom msg }, none) := by
        simp [LineTrackerTrapezoid.update, hact]
      rw [e]
      exact ⟨ih.1, fun h => absurd (h.symm.trans hact) (by simp)⟩
    · cases hgs : s.goal_set_
      · obtain ⟨p1, -⟩ := LineTrackerTrapezoid.update_frame_profile sqrt now s msg hgs
        refine ⟨fun h => absurd (h.symm.trans p1) (by simp), fun _ _ => ?_⟩
        exact LineTrackerTrapezoid.update_keeps_planned sqrt now s msg hgs (ih.2 hact hgs)
      · obtain ⟨q1, -, -⟩ := LineTrackerTrapezoid.update_planned sqrt now s msg hact hgs
        have q2 : (s.update sqrt now msg).1.goal_set_ = false := by
          simp only [LineTrackerTrapezoid.update, hact, hgs, Bool.not_true, Bool.false_eq_true,
            if_false, if_true, (LineTrackerTrapezoid.update_profile_frame sqrt _ _ _)]
        exact ⟨fun h => absurd (h.symm.trans q2) (by simp), fun _ _ => q1⟩

/-- The planned durations of a tracker with positive cruise parameters. -/
theorem LineTrackerTrapezoid.Planned.durations (s : LineTrackerTrapezoid ℝ)
    (hp : LineTrackerTrapezoid.Planned Real.sqrt s) (hv : 0 < s.v_des_) (ha : 0 < s.a_des_) :
    0 ≤ s.t_accel_ ∧ 0 ≤ s.t_constant_ ∧
    s.a_des_ * s.t_accel_ * (s.t_accel_ + s.t_constant_) =
      (s.goal_ - s.start_pos_).norm Real.sqrt ∧
    s.a_des_ * s.t_accel_ ≤ s.v_des_ ∧
    ((s.goal_ - s.start_pos_).norm Real.sqrt > s.v_des_ * s.v_des_ / s.a_des_ →
      s.a_des_ * s.t_accel_ = s.v_des_) ∧
    (¬ (s.goal_ - s.start_pos_).norm Real.sqrt > s.v_des_ * s.v_des_ / s.a_des_ →
      s.a_des_ * s.t_accel_ =
        Real.sqrt (s.a_des_ * (s.goal_ - s.start_pos_).norm Real.sqrt)) :=
  planned_durations _ _ _ _ _ (Vec3.norm_nonneg _) hv ha hp.1 hp.2

/-- After a tick on an active tracker whose profile, if already planned, started no
later than the tick, the tracker holds a planned profile that started no later than the
tick, for the same goal and cruise parameters. -/
theorem LineTrackerTrapezoid.update_ready (s : LineTrackerTrapezoid ℝ) (now : ℝ)
    (msg : Odometry ℝ) (hact : s.active_ = true)
    (hpl : s.goal_set_ = false →
      LineTrackerTrapezoid.Planned Real.sqrt s ∧ s.traj_start_ ≤ msg.header.stamp) :
    (s.update Real.sqrt now msg).1.active_ = true ∧
    (s.update Real.sqrt now msg).1.goal_set_ = false ∧
    LineTrackerTrapezoid.Planned Real.sqrt (s.update Real.sqrt now msg).1 ∧
    (s.update Real.sqrt now msg).1.traj_start_ ≤ msg.header.stamp ∧
    (s.update Real.sqrt now msg).1.goal_ = s.goal_ ∧
    (s.update Real.sqrt now msg).1.v_des_ = s.v_des_ ∧
    (s.update Real.sqrt now msg).1.a_des_ = s.a_des_ := by
  obtain ⟨g1, g2, g3, g4, -⟩ := LineTrackerTrapezoid.update_frame Real.sqrt now s msg
  rcases Bool.eq_false_or_eq_true s.goal_set_ with hgs | hgs
  · obtain ⟨q1, q2, -⟩ := LineTrackerTrapezoid.update_planned Real.sqrt now s msg hact hgs
    have q3 : (s.update Real.sqrt now msg).1.goal_set_ = false := by
      simp only [LineTrackerTrapezoid.update, hact, hgs, Bool.not_true, Bool.false_eq_true,
        if_false, if_true, (LineTrackerTrapezoid.update_profile_frame Real.sqrt _ _ _)]
    exact ⟨g1.trans hact, q3, q1, q2.le, g2, g3, g4⟩
  · obtain ⟨p1, -, -, p4, -, -⟩ :=
      LineTrackerTrapezoid.update_frame_profile Real.sqrt now s msg hgs
    obtain ⟨h1, h2⟩ := hpl hgs
    exact ⟨g1.trans hact, p1,
      LineTrackerTrapezoid.update_keeps_planned Real.sqrt now s msg hgs h1,
      p4.le.trans h2, g2, g3, g4⟩

end Emitted

/-! ## Tracker: evaluation, planning, hold, activation, goals -/

section TrackerTheorems
variable {F : Type} [LinearOrderedField F]

/-- C2 (profile planning): a tick on an active tracker with a pending goal stamps the
plan start with the measurement's time, takes start position and yaw from FlatState as
it is after ingesting the measurement, clears the pending flag, and sets the durations
from `d = |goal - start|`: `v/a` and `d/v - v/a` when `d > v^2/a`, `sqrt (d/a)` and `0`
otherwise; the total time follows. -/
theorem C2_profile_planning (sqrt : F → F) (now : F) (s : LineTrackerTrapezoid F)
    (msg : Odometry F) (hact : s.active_ = true) (hgs : s.goal_set_ = true) :
    (s.update sqrt now msg).1.traj_start_ = msg.header.stamp ∧
    (s.update sqrt now msg).1.start_pos_ = (s.ICs_.set_from_odom msg).pos_ ∧
    (s.update sqrt now msg).1.start_yaw_ = (s.ICs_.set_from_odom msg).yaw_ ∧
    (s.update sqrt now msg).1.goal_set_ = false ∧
    (s.update sqrt now msg).1.goal_ = s.goal_ ∧
    ((s.goal_ - (s.ICs_.set_from_odom msg).pos_).norm sqrt > s.v_des_ ^ 2 / s.a_des_ →
      (s.update sqrt now msg).1.t_accel_ = s.v_des_ / s.a_des_ ∧
      (s.update sqrt now msg).1.t_constant_ =
        (s.goal_ - (s.ICs_.set_from_odom msg).pos_).norm sqrt / s.v_des_ - s.v_des_ / s.a_des_ ∧
      2 * (s.update sqrt now msg).1.t_accel_ + (s.update sqrt now msg).1.t_constant_ =
        2 * (s.v_des_ / s.a_des_) +
          ((s.goal_ - (s.ICs_.set_from_odom msg).pos_).norm sqrt / s.v_des_ -
            s.v_des_ / s.a_des_)) ∧
    (¬ (s.goal_ - (s.ICs_.set_from_odom msg).pos_).norm sqrt > s.v_des_ ^ 2 / s.a_des_ →
      (s.update sqrt now msg).1.t_accel_ =
        sqrt ((s.goal_ - (s.ICs_.set_from_odom msg).pos_).norm sqrt / s.a_des_) ∧
      (s.update sqrt now msg).1.t_constant_ = 0 ∧
      2 * (s.update sqrt now msg).1.t_accel_ + (s.update sqrt now msg).1.t_constant_ =
        2 * sqrt ((s.goal_ - (s.ICs_.set_from_odom msg).pos_).norm sqrt / s.a_des_)) := by
  simp only [LineTrackerTrapezoid.update, hact, hgs, Bool.not_true, Bool.false_eq_true,
    if_false, if_true, (LineTrackerTrapezoid.update_profile_frame sqrt _ _ _), pow_two]
  split_ifs with h <;> simp [h]

/-- C7 (idempotent hold): on an active tracker whose goal is reached and that has no
pending goal, every `update` returns the goal position with zero velocity and
acceleration, keeps the tracker in that state with status SUCCEEDED and FlatState valid
at the goal; hence every command of any run of further ticks is this hold command. -/
theorem C7_idempotent_hold (sqrt : F → F) (s : LineTrackerTrapezoid F)
    (hact : s.active_ = true) (hgr : s.goal_reached_ = true) (hgs : s.goal_set_ = false) :
    (∀ (now : F) (msg : Odometry F),
      ∃ c : PositionCommand F, (s.update sqrt now msg).2 = some c ∧
        c.position = s.goal_ ∧ c.velocity = 0 ∧ c.acceleration = 0 ∧
        (s.update sqrt now msg).1.goal_reached_ = true ∧
        (s.update sqrt now msg).1.status = some ⟨StatusCode.SUCCEEDED⟩ ∧
        (s.update sqrt now msg).1.ICs_.cmd_valid_ = true ∧
        (s.update sqrt now msg).1.ICs_.pos_ = s.goal_) ∧
    (∀ ticks : List (F × Odometry F),
      (s.updates sqrt ticks).1.status = some ⟨StatusCode.SUCCEEDED⟩ ∧
      (s.updates sqrt ticks).2.length = ticks.length ∧
      ∀ r ∈ (s.updates sqrt ticks).2, ∃ c : PositionCommand F, r = some c ∧
        c.position = s.goal_ ∧ c.velocity = 0 ∧ c.acceleration = 0 ∧
        c.yaw = s.start_yaw_ ∧ c.yaw_dot = 0 ∧ c.kx = s.kx_ ∧ c.kv = s.kv_) := by
  have step : ∀ (t : LineTrackerTrapezoid F) (now : F) (msg : Odometry F),
      t.active_ = true → t.goal_reached_ = true → t.goal_set_ = false →
      (t.update sqrt now msg).1.active_ = true ∧
      (t.update sqrt now msg).1.goal_reached_ = true ∧
      (t.update sqrt now msg).1.goal_set_ = false ∧
      (t.update sqrt now msg).1.goal_ = t.goal_ ∧
      (t.update sqrt now msg).1.start_yaw_ = t.start_yaw_ ∧
      (t.update sqrt now msg).1.kx_ = t.kx_ ∧
      (t.update sqrt now msg).1.kv_ = t.kv_ ∧
      (t.update sqrt now msg).1.ICs_.cmd_valid_ = true ∧
      (t.update sqrt now msg).1.ICs_.pos_ = t.goal_ ∧
      ∃ c : PositionCommand F, (t.update sqrt now msg).2 = some c ∧
        c.position = t.goal_ ∧ c.velocity = 0 ∧ c.acceleration = 0 ∧
        c.yaw = t.start_yaw_ ∧ c.yaw_dot = 0 ∧ c.kx = t.kx_ ∧ c.kv = t.kv_ := by
    intro t now msg h1 h2 h3
    simp [LineTrackerTrapezoid.update, FlatState.set_from_cmd, h1, h2, h3]
  constructor
  · intro now msg
    obtain ⟨a1, a2, -, -, -, -, -, a8, a9, c, hc, c1, c2, c3, -⟩ := step s now msg hact hgr hgs
    refine ⟨c, hc, c1, c2, c3, a2, ?_, a8, a9⟩
    simp [LineTrackerTrapezoid.status, a1, a2]
  · intro ticks
    induction ticks generalizing s with
    | nil => simp [LineTrackerTrapezoid.updates, LineTrackerTrapezoid.status, hact, hgr]
    | cons tick rest ih =>
      obtain ⟨a1, a2, a3, a4, a5, a6, a7, -, -, c, hc, c1, c2, c3, c4, c5, c6, c7⟩ :=
        step s tick.1 tick.2 hact hgr hgs
      obtain ⟨i1, i2, i3⟩ := ih (s.update sqrt tick.1 tick.2).1 a1 a2 a3
      refine ⟨by simpa [LineTrackerTrapezoid.updates] using i1,
        by simp [LineTrackerTrapezoid.updates, i2], ?_⟩
      intro r hr
      simp only [LineTrackerTrapezoid.updates, List.mem_cons] at hr
      rcases hr with hr | hr
      · exact ⟨c, hr.trans hc, c1, c2, c3, c4, c5, c6, c7⟩
      · obtain ⟨c', hc', d1, d2, d3, d4, d5, d6, d7⟩ := i3 r hr
        exact ⟨c', hc', d1.trans a4, d2, d3, d4.trans a5, d5, d6.trans a6, d7.trans a7⟩

/-- C8, as amended: `Activate` returns the active flag as it is after the call, and that
is true exactly when a goal is pending and a measurement has been observed, or the
tracker was already active; so an inactive tracker is activated only with a pending goal
and an observed measurement, and is refused otherwise. -/
theorem C8_activate_iff (s : LineTrackerTrapezoid F) (cmd : Option (PositionCommand F)) :
    (s.Activate cmd).1.active_ = (s.Activate cmd).2 ∧
    ((s.Activate cmd).2 = true ↔
      (s.goal_set_ = true ∧ s.pos_set_ = true) ∨ s.active_ = true) ∧
    ((s.Activate cmd).2 = false ↔
      ¬ (s.goal_set_ = true ∧ s.pos_set_ = true) ∧ s.active_ = false) := by
  simp only [LineTrackerTrapezoid.Activate]
  cases hg : s.goal_set_ <;> cases hp : s.pos_set_ <;> cases ha : s.active_ <;> simp [ha]

/-- C9 (goal target): after `goal_callback` the stored goal is the message's offset plus
FlatState's cached position for a relative goal and the offset itself otherwise, the
goal-pending flag is true and the goal-reached flag is false; with cached position
(1,1,0) the relative goal (2,0,0) is stored as (3,1,0). -/
theorem C9_goal_target (s : LineTrackerTrapezoid F) (msg : LineTrackerGoal F) :
    (s.goal_callback msg).goal_ =
      (if msg.relative = true then (⟨msg.x, msg.y, msg.z⟩ : Vec3 F) + s.ICs_.pos_
        else ⟨msg.x, msg.y, msg.z⟩) ∧
    (s.goal_callback msg).goal_set_ = true ∧
    (s.goal_callback msg).goal_reached_ = false ∧
    (∀ v a : F,
      (({ s with ICs_ := { s.ICs_ with pos_ := ⟨1, 1, 0⟩ } } : LineTrackerTrapezoid F).goal_callback
        ⟨2, 0, 0, true, v, a⟩).goal_ = ⟨3, 1, 0⟩) := by
  refine ⟨?_, ?_, ?_, ?_⟩
  · simp only [LineTrackerTrapezoid.goal_callback]
    split_ifs <;> rfl
  · simp only [LineTrackerTrapezoid.goal_callback]
  · simp only [LineTrackerTrapezoid.goal_callback]
  · intro v a
    have h : ((⟨2, 0, 0⟩ : Vec3 F) + ⟨1, 1, 0⟩) = ⟨3, 1, 0⟩ := by
      ext
      · show (2 : F) + 1 = 3
        norm_num
      · show (0 : F) + 1 = 1
        norm_num
      · show (0 : F) + 0 = 0
        norm_num
    simp only [LineTrackerTrapezoid.goal_callback, if_true]
    split_ifs <;> exact h

end TrackerTheorems

/-! ## Tracker: arrival, speed limit, continuity -/

section RealTheorems

/-- C4 (arrival): after the tick that plans a pending goal different from the start,
with positive cruise parameters, a tick stamped exactly the total profile time
`2 * t_accel + t_const` later emits the goal as position and zero velocity, and that
elapsed time satisfies the conditions of the decelerate branch (past `t_accel` and
`t_accel + t_const`, not past `t_accel + t_const + t_accel`); the trapezoidal and the
triangular plan are both covered. -/
theorem C4_arrival (s : LineTrackerTrapezoid ℝ) (hact : s.active_ = true)
    (hgs : s.goal_set_ = true) (hv : 0 < s.v_des_) (ha : 0 < s.a_des_) (now0 now1 : ℝ)
    (m0 m1 : Odometry ℝ) (hne : (s.ICs_.set_from_odom m0).pos_ ≠ s.goal_)
    (hm : m1.header.stamp = m0.header.stamp +
      (2 * (s.update Real.sqrt now0 m0).1.t_accel_ +
        (s.update Real.sqrt now0 m0).1.t_constant_)) :
    ∃ c : PositionCommand ℝ,
      ((s.update Real.sqrt now0 m0).1.update Real.sqrt now1 m1).2 = some c ∧
      c.position = s.goal_ ∧ c.velocity = 0 ∧
      (s.update Real.sqrt now0 m0).1.t_accel_ <
        m1.header.stamp - (s.update Real.sqrt now0 m0).1.traj_start_ ∧
      (s.update Real.sqrt now0 m0).1.t_accel_ + (s.update Real.sqrt now0 m0).1.t_constant_ <
        m1.header.stamp - (s.update Real.sqrt now0 m0).1.traj_start_ ∧
      m1.header.stamp - (s.update Real.sqrt now0 m0).1.traj_start_ ≤
        (s.update Real.sqrt now0 m0).1.t_accel_ + (s.update Real.sqrt now0 m0).1.t_constant_ +
          (s.update Real.sqrt now0 m0).1.t_accel_ := by
  obtain ⟨q1, q2, q3⟩ := LineTrackerTrapezoid.update_planned Real.sqrt now0 s m0 hact hgs
  obtain ⟨r1, r2, -, -, r5, r6, r7⟩ :=
    LineTrackerTrapezoid.update_ready s now0 m0 hact (fun h => absurd (h.symm.trans hgs) (by simp))
  obtain ⟨d1, d2, d3, -, -, -⟩ :=
    LineTrackerTrapezoid.Planned.durations _ q1 (r6 ▸ hv) (r7 ▸ ha)
  have hd : 0 < ((s.update Real.sqrt now0 m0).1.goal_ -
      (s.update Real.sqrt now0 m0).1.start_pos_).norm Real.sqrt :=
    Vec3.norm_sub_pos _ _ (by rw [q3, r5]; exact hne)
  have hta : 0 < (s.update Real.sqrt now0 m0).1.t_accel_ := by
    rcases d1.lt_or_eq with k | k
    · exact k
    · rw [← k] at d3
      simp only [mul_zero, zero_mul] at d3
      exact absurd d3 hd.ne
  have htau : m1.header.stamp - (s.update Real.sqrt now0 m0).1.traj_start_ =
      (s.update Real.sqrt now0 m0).1.t_accel_ + (s.update Real.sqrt now0 m0).1.t_constant_ +
        (s.update Real.sqrt now0 m0).1.t_accel_ := by
    rw [hm, q2]
    ring
  obtain ⟨c, f1, -, -, f4, f5⟩ :=
    LineTrackerTrapezoid.update_emits (s.update Real.sqrt now0 m0).1 now1 m1 r1
  obtain ⟨-, g2, -, g4, -⟩ :=
    LineTrackerTrapezoid.update_frame Real.sqrt now1 (s.update Real.sqrt now0 m0).1 m1
  obtain ⟨-, p2, -, p4, p5, p6⟩ :=
    LineTrackerTrapezoid.update_frame_profile Real.sqrt now1 (s.update Real.sqrt now0 m0).1 m1 r2
  rw [g2, g4, p2, p4, p5, p6] at f5
  refine ⟨c, f1, ?_, ?_, by rw [htau]; linarith, by rw [htau]; linarith, htau.le⟩
  · rcases Bool.eq_false_or_eq_true (s.update Real.sqrt now0 m0).1.goal_reached_ with h | h
    · rw [(f4 r2 h).1, r5]
    · rw [(f5 (Or.inr h)).1, htau, profileDist_decel _ _ _ _ _ d2 (by linarith) le_rfl]
      have e : (s.update Real.sqrt now0 m0).1.a_des_ *
            (s.update Real.sqrt now0 m0).1.t_accel_ ^ 2 / 2 +
          (s.update Real.sqrt now0 m0).1.a_des_ * (s.update Real.sqrt now0 m0).1.t_accel_ *
            (s.update Real.sqrt now0 m0).1.t_constant_ +
          (s.update Real.sqrt now0 m0).1.a_des_ * (s.update Real.sqrt now0 m0).1.t_accel_ *
            ((s.update Real.sqrt now0 m0).1.t_accel_ +
              (s.update Real.sqrt now0 m0).1.t_constant_ +
              (s.update Real.sqrt now0 m0).1.t_accel_ -
              ((s.update Real.sqrt now0 m0).1.t_accel_ +
                (s.update Real.sqrt now0 m0).1.t_constant_)) -
          (s.update Real.sqrt now0 m0).1.a_des_ *
            ((s.update Real.sqrt now0 m0).1.t_accel_ +
              (s.update Real.sqrt now0 m0).1.t_constant_ +
              (s.update Real.sqrt now0 m0).1.t_accel_ -
              ((s.update Real.sqrt now0 m0).1.t_accel_ +
                (s.update Real.sqrt now0 m0).1.t_constant_)) ^ 2 / 2 =
          ((s.update Real.sqrt now0 m0).1.goal_ -
            (s.update Real.sqrt now0 m0).1.start_pos_).norm Real.sqrt := by
        rw [← d3]
        ring
      rw [e, Vec3.start_add_norm_mul_normalized, r5]
  · rcases Bool.eq_false_or_eq_true (s.update Real.sqrt now0 m0).1.goal_reached_ with h | h
    · exact (f4 r2 h).2.1
    · rw [(f5 (Or.inr h)).2.1, htau]
      simp only [profileSpeed]
      rw [if_neg (by linarith), if_neg (by linarith), if_pos le_rfl]
      have e : (s.update Real.sqrt now0 m0).1.a_des_ * (s.update Real.sqrt now0 m0).1.t_accel_ -
          (s.update Real.sqrt now0 m0).1.a_des_ *
            ((s.update Real.sqrt now0 m0).1.t_accel_ +
              (s.update Real.sqrt now0 m0).1.t_constant_ +
              (s.update Real.sqrt now0 m0).1.t_accel_ -
              ((s.update Real.sqrt now0 m0).1.t_accel_ +
                (s.update Real.sqrt now0 m0).1.t_constant_)) = 0 := by ring
      rw [e, Vec3.zero_smul]

/-- C5 (velocity peak): for a reachable active tracker with positive cruise parameters,
a tick that plans the pending goal, or that comes no earlier than the start of the
planned profile, emits a velocity of norm at most `v_des` when `d > v_des^2/a_des`, at
most `sqrt (a_des * d)` when `d ≤ v_des^2/a_des`, and at most `v_des` in both cases,
`d` being the distance from the profile's start to the goal. -/
theorem C5_velocity_peak (s : LineTrackerTrapezoid ℝ)
    (hr : LineTrackerTrapezoid.Reachable Real.sqrt s) (hact : s.active_ = true)
    (hv : 0 < s.v_des_) (ha : 0 < s.a_des_) (now : ℝ) (msg : Odometry ℝ)
    (hplan : s.goal_set_ = false → s.traj_start_ ≤ msg.header.stamp) :
    ∃ c : PositionCommand ℝ, (s.update Real.sqrt now msg).2 = some c ∧
      (((s.update Real.sqrt now msg).1.goal_ -
          (s.update Real.sqrt now msg).1.start_pos_).norm Real.sqrt > s.v_des_ ^ 2 / s.a_des_ →
        c.velocity.norm Real.sqrt ≤ s.v_des_) ∧
      (((s.update Real.sqrt now msg).1.goal_ -
          (s.update Real.sqrt now msg).1.start_pos_).norm Real.sqrt ≤ s.v_des_ ^ 2 / s.a_des_ →
        c.velocity.norm Real.sqrt ≤
          Real.sqrt (s.a_des_ * ((s.update Real.sqrt now msg).1.goal_ -
            (s.update Real.sqrt now msg).1.start_pos_).norm Real.sqrt)) ∧
      c.velocity.norm Real.sqrt ≤ s.v_des_ := by
  obtain ⟨-, i2⟩ := LineTrackerTrapezoid.Reachable.invariant Real.sqrt s hr
  obtain ⟨-, -, r3, r4, -, r6, r7⟩ :=
    LineTrackerTrapezoid.update_ready s now msg hact (fun h => ⟨i2 hact h, hplan h⟩)
  obtain ⟨c, e1, -, -, e4, e5⟩ := LineTrackerTrapezoid.update_emits s now msg hact
  obtain ⟨d1, -, -, d4, d5, d6⟩ :=
    LineTrackerTrapezoid.Planned.durations _ r3 (r6 ▸ hv) (r7 ▸ ha)
  rw [r6, r7] at d4 d5 d6
  rw [r7] at e5
  have hvel : c.velocity.norm Real.sqrt ≤ s.a_des_ * (s.update Real.sqrt now msg).1.t_accel_ := by
    by_cases hh : s.goal_set_ = false ∧ s.goal_reached_ = true
    · obtain ⟨-, k, -, -⟩ := e4 hh.1 hh.2
      rw [k, Vec3.norm_zero]
      exact mul_nonneg ha.le d1
    · have hh' : s.goal_set_ = true ∨ s.goal_reached_ = false := by
        rcases Bool.eq_false_or_eq_true s.goal_set_ with h | h
        · exact Or.inl h
        · rcases Bool.eq_false_or_eq_true s.goal_reached_ with k | k
          · exact absurd ⟨h, k⟩ hh
          · exact Or.inr k
      obtain ⟨-, k, -, -, -⟩ := e5 hh'
      obtain ⟨b1, b2⟩ := profileSpeed_bounds s.a_des_ (s.update Real.sqrt now msg).1.t_accel_
        (s.update Real.sqrt now msg).1.t_constant_
        (msg.header.stamp - (s.update Real.sqrt now msg).1.traj_start_) ha d1
        (sub_nonneg.mpr r4)
      rw [k]
      exact ((Vec3.norm_smul_normalized_le _ _).trans (abs_of_nonneg b1).le).trans b2
  refine ⟨c, e1, fun h => ?_, fun h => ?_, hvel.trans d4⟩
  · exact hvel.trans d4
  · rw [pow_two] at h
    exact hvel.trans (d6 (not_lt.mpr h)).le

/-- C6 (continuity): for a reachable active tracker with positive cruise parameters and
two consecutive ticks with non-decreasing stamps, the earlier one planning the pending
goal or coming no earlier than the start of the planned profile, the two emitted
positions differ in norm by at most `v_des` times the difference of the stamps. -/
theorem C6_continuity (s : LineTrackerTrapezoid ℝ)
    (hr : LineTrackerTrapezoid.Reachable Real.sqrt s) (hact : s.active_ = true)
    (hv : 0 < s.v_des_) (ha : 0 < s.a_des_) (now1 now2 : ℝ) (m1 m2 : Odometry ℝ)
    (hplan : s.goal_set_ = false → s.traj_start_ ≤ m1.header.stamp)
    (h12 : m1.header.stamp ≤ m2.header.stamp) :
    ∃ c1 c2 : PositionCommand ℝ,
      (s.update Real.sqrt now1 m1).2 = some c1 ∧
      ((s.update Real.sqrt now1 m1).1.update Real.sqrt now2 m2).2 = some c2 ∧
      (c2.position - c1.position).norm Real.sqrt ≤
        s.v_des_ * (m2.header.stamp - m1.header.stamp) := by
  obtain ⟨i1, i2⟩ := LineTrackerTrapezoid.Reachable.invariant Real.sqrt s hr
  obtain ⟨r1, r2, r3, r4, r5, r6, r7⟩ :=
    LineTrackerTrapezoid.update_ready s now1 m1 hact (fun h => ⟨i2 hact h, hplan h⟩)
  obtain ⟨c1, e1, -, -, e4, e5⟩ := LineTrackerTrapezoid.update_emits s now1 m1 hact
  obtain ⟨c2, f1, -, -, f4, f5⟩ :=
    LineTrackerTrapezoid.update_emits (s.update Real.sqrt now1 m1).1 now2 m2 r1
  obtain ⟨-, g2, -, g4, -⟩ :=
    LineTrackerTrapezoid.update_frame Real.sqrt now2 (s.update Real.sqrt now1 m1).1 m2
  obtain ⟨-, p2, -, p4, p5, p6⟩ :=
    LineTrackerTrapezoid.update_frame_profile Real.sqrt now2 (s.update Real.sqrt now1 m1).1 m2 r2
  rw [g2, g4, p2, p4, p5, p6] at f5
  obtain ⟨d1, d2, d3, d4, -, -⟩ :=
    LineTrackerTrapezoid.Planned.durations _ r3 (r6 ▸ hv) (r7 ▸ ha)
  rw [r6] at d4
  have hdt : 0 ≤ s.v_des_ * (m2.header.stamp - m1.header.stamp) :=
    mul_nonneg hv.le (sub_nonneg.mpr h12)
  have same : c2.position = c1.position →
      (c2.position - c1.position).norm Real.sqrt ≤
        s.v_des_ * (m2.header.stamp - m1.header.stamp) := by
    intro h
    rw [h, Vec3.norm_sub_self]
    exact hdt
  refine ⟨c1, c2, e1, f1, ?_⟩
  by_cases hh : s.goal_set_ = false ∧ s.goal_reached_ = true
  · -- both ticks hold the goal
    obtain ⟨k1, -, -, k4⟩ := e4 hh.1 hh.2
    obtain ⟨l1, -, -, -⟩ := f4 r2 k4
    exact same (by rw [l1, k1, r5])
  · have hh' : s.goal_set_ = true ∨ s.goal_reached_ = false := by
      rcases Bool.eq_false_or_eq_true s.goal_set_ with h | h
      · exact Or.inl h
      · rcases Bool.eq_false_or_eq_true s.goal_reached_ with k | k
        · exact absurd ⟨h, k⟩ hh
        · exact Or.inr k
    have hnr : s.goal_reached_ = false := by
      rcases hh' with h | h
      · exact i1 h
      · exact h
    obtain ⟨k1, -, -, k4, -⟩ := e5 hh'
    rcases Bool.eq_false_or_eq_true (s.update Real.sqrt now1 m1).1.goal_reached_ with hr1 | hr1
    · -- the earlier tick was already past the end of the profile
      obtain ⟨l1, -, -, -⟩ := f4 r2 hr1
      have hlate := (k4 hr1).resolve_left (by simp [hnr])
      rw [profileDist_reached _ _ _ _ _ d1 d2 d3.symm hlate.le,
        Vec3.start_add_norm_mul_normalized] at k1
      exact same (by rw [l1, k1])
    · -- both positions are on the profile
      obtain ⟨l1, -, -, -, -⟩ := f5 (Or.inr hr1)
      obtain ⟨m1', m2'⟩ := profileDist_monoLip (s.update Real.sqrt now1 m1).1.a_des_
        (s.update Real.sqrt now1 m1).1.t_accel_ (s.update Real.sqrt now1 m1).1.t_constant_
        (((s.update Real.sqrt now1 m1).1.goal_ -
          (s.update Real.sqrt now1 m1).1.start_pos_).norm Real.sqrt)
        (r7 ▸ ha) d1 d2 d3.symm
        (m1.header.stamp - (s.update Real.sqrt now1 m1).1.traj_start_)
        (m2.header.stamp - (s.update Real.sqrt now1 m1).1.traj_start_)
        (sub_nonneg.mpr r4) (by linarith)
      rw [l1, k1]
      refine (Vec3.norm_line_sub_le _ _ _ _).trans ?_
      rw [abs_of_nonneg m1']
      have e : m2.header.stamp - (s.update Real.sqrt now1 m1).1.traj_start_ -
          (m1.header.stamp - (s.update Real.sqrt now1 m1).1.traj_start_) =
          m2.header.stamp - m1.header.stamp := by ring
      rw [e] at m2'
      exact m2'.trans (mul_le_mul_of_nonneg_right d4 (sub_nonneg.mpr h12))

end RealTheorems

/-! ## The end-to-end scenario -/

section Scenario

theorem scenario_norm : ((⟨10, 0, 0⟩ : Vec3 ℝ) - 0).norm Real.sqrt = 10 := by
  have e : ((⟨10, 0, 0⟩ : Vec3 ℝ) - 0).squaredNorm = 10 * 10 := by
    simp only [Vec3.squaredNorm, Vec3.sub_x, Vec3.sub_y, Vec3.sub_z, Vec3.zero_x, Vec3.zero_y,
      Vec3.zero_z]
    norm_num
  rw [Vec3.norm, e]
  exact Real.sqrt_mul_self (by norm_num)

theorem scenario_dir : ((⟨10, 0, 0⟩ : Vec3 ℝ) - 0).normalized Real.sqrt = ⟨1, 0, 0⟩ := by
  have h := Vec3.norm_mul_normalized ((⟨10, 0, 0⟩ : Vec3 ℝ) - 0)
  rw [scenario_norm] at h
  have hx := congrArg Vec3.x h
  have hy := congrArg Vec3.y h
  have hz := congrArg Vec3.z h
  simp only [Vec3.smul_x, Vec3.smul_y, Vec3.smul_z, Vec3.sub_x, Vec3.sub_y, Vec3.sub_z,
    Vec3.zero_x, Vec3.zero_y, Vec3.zero_z] at hx hy hz
  ext
  · show _ = (1 : ℝ)
    linarith
  · show _ = (0 : ℝ)
    linarith
  · show _ = (0 : ℝ)
    linarith

/-- A tick of the scenario's tracker after planning: start at the origin, goal (10,0,0),
`a_des = 1`, `t_accel = 2`, `t_const = 3`, plan start `t0`. -/
theorem scenario_tick (t0 : ℝ) (st : LineTrackerTrapezoid ℝ) (now : ℝ) (m : Odometry ℝ)
    (h1 : st.active_ = true) (h2 : st.goal_set_ = false) (h3 : st.goal_reached_ = false)
    (h4 : st.start_pos_ = 0) (h5 : st.goal_ = ⟨10, 0, 0⟩) (h6 : st.a_des_ = 1)
    (h7 : st.t_accel_ = 2) (h8 : st.t_constant_ = 3) (h9 : st.traj_start_ = t0) :
    (∃ c : PositionCommand ℝ, (st.update Real.sqrt now m).2 = some c ∧
      c.position = (0 : Vec3 ℝ) +
        profileDist 1 2 3 10 (m.header.stamp - t0) * (⟨1, 0, 0⟩ : Vec3 ℝ) ∧
      c.velocity = profileSpeed 1 2 3 (m.header.stamp - t0) * (⟨1, 0, 0⟩ : Vec3 ℝ) ∧
      c.acceleration = profileAccel 1 2 3 (m.header.stamp - t0) * (⟨1, 0, 0⟩ : Vec3 ℝ)) ∧
    (st.update Real.sqrt now m).1.active_ = true ∧
    (st.update Real.sqrt now m).1.goal_set_ = false ∧
    (m.header.stamp - t0 ≤ 7 → (st.update Real.sqrt now m).1.goal_reached_ = false) ∧
    (7 < m.header.stamp - t0 → (st.update Real.sqrt now m).1.goal_reached_ = true) ∧
    (st.update Real.sqrt now m).1.start_pos_ = 0 ∧
    (st.update Real.sqrt now m).1.goal_ = ⟨10, 0, 0⟩ ∧
    (st.update Real.sqrt now m).1.a_des_ = 1 ∧
    (st.update Real.sqrt now m).1.t_accel_ = 2 ∧
    (st.update Real.sqrt now m).1.t_constant_ = 3 ∧
    (st.update Real.sqrt now m).1.traj_start_ = t0 := by
  obtain ⟨g1, g2, -, g4, -⟩ := LineTrackerTrapezoid.update_frame Real.sqrt now st m
  obtain ⟨p1, p2, -, p4, p5, p6⟩ :=
    LineTrackerTrapezoid.update_frame_profile Real.sqrt now st m h2
  obtain ⟨c, e1, -, -, -, e5⟩ := LineTrackerTrapezoid.update_emits st now m h1
  obtain ⟨k1, k2, k3, k4, k5⟩ := e5 (Or.inr h3)
  simp only [g2, g4, p2, p4, p5, p6, h4, h5, h6, h7, h8, h9, scenario_norm, scenario_dir]
    at k1 k2 k3 k4 k5
  refine ⟨⟨c, e1, k1, k2, k3⟩, g1.trans h1, p1, fun h => ?_, fun h => ?_, p2.trans h4,
    g2.trans h5, g4.trans h6, p5.trans h7, p6.trans h8, p4.trans h9⟩
  · rcases Bool.eq_false_or_eq_true (st.update Real.sqrt now m).1.goal_reached_ with k | k
    · rcases k4 k with l | l
      · exact absurd (l.symm.trans h3) (by simp)
      · exfalso
        linarith
    · exact k
  · exact k5 (Or.inr ⟨by linarith, by linarith, by linarith⟩)

/-- C10 (end-to-end scenario, start at the origin): a freshly constructed tracker
observes a measurement, receives the absolute goal (10,0,0) with `v_des = 2`,
`a_des = 1`, is activated, and plans on a tick stamped `t0` with the vehicle measured at
the origin, where the profile starts. The plan has `t_accel = 2`, `t_const = 3`, total 7;
ticks stamped `t0 + 1`, `t0 + 3` and `t0 + 7.5` then emit (0.5,0,0), (1,0,0), (1,0,0);
(4,0,0), (2,0,0), (0,0,0); and position (10,0,0) with zero velocity, after which the
status is SUCCEEDED. -/
theorem C10_scenario (mem : LineTrackerTrapezoid ℝ) (cmd : Option (PositionCommand ℝ))
    (t0 n1 n2 n3 n4 n5 : ℝ) (m1 m2 m3 m4 m5 : Odometry ℝ)
    (h2 : m2.position = ⟨0, 0, 0⟩)
    (h2t : m2.header.stamp = t0) (h3t : m3.header.stamp = t0 + 1)
    (h4t : m4.header.stamp = t0 + 3) (h5t : m5.header.stamp = t0 + 7.5) :
    let sA := (((LineTrackerTrapezoid.ctor mem).update Real.sqrt n1 m1).1.goal_callback
      ⟨10, 0, 0, false, 2, 1⟩).Activate cmd
    let sP := sA.1.update Real.sqrt n2 m2
    let s3 := sP.1.update Real.sqrt n3 m3
    let s4 := s3.1.update Real.sqrt n4 m4
    let s5 := s4.1.update Real.sqrt n5 m5
    sA.2 = true ∧
    sP.1.t_accel_ = 2 ∧ sP.1.t_constant_ = 3 ∧ 2 * sP.1.t_accel_ + sP.1.t_constant_ = 7 ∧
    (∃ c : PositionCommand ℝ, s3.2 = some c ∧
      c.position = ⟨0.5, 0, 0⟩ ∧ c.velocity = ⟨1, 0, 0⟩ ∧ c.acceleration = ⟨1, 0, 0⟩) ∧
    (∃ c : PositionCommand ℝ, s4.2 = some c ∧
      c.position = ⟨4, 0, 0⟩ ∧ c.velocity = ⟨2, 0, 0⟩ ∧ c.acceleration = ⟨0, 0, 0⟩) ∧
    (∃ c : PositionCommand ℝ, s5.2 = some c ∧
      c.position = ⟨10, 0, 0⟩ ∧ c.velocity = ⟨0, 0, 0⟩) ∧
    s5.1.status = some ⟨StatusCode.SUCCEEDED⟩ := by
  intro sA sP s3 s4 s5
  -- the tracker after activation
  have a1 : sA.1.active_ = true ∧ sA.2 = true ∧ sA.1.goal_set_ = true ∧
      sA.1.goal_reached_ = false ∧ sA.1.goal_ = ⟨10, 0, 0⟩ ∧ sA.1.v_des_ = 2 ∧
      sA.1.a_des_ = 1 ∧ sA.1.ICs_.cmd_valid_ = false := by
    simp [sA, LineTrackerTrapezoid.Activate, LineTrackerTrapezoid.goal_callback,
      LineTrackerTrapezoid.update, LineTrackerTrapezoid.ctor, FlatState.ctor,
      FlatState.set_from_odom]
  obtain ⟨a1, a2, a3, a4, a5, a6, a7, a8⟩ := a1
  -- the planning tick
  obtain ⟨q1, q2, q3⟩ := LineTrackerTrapezoid.update_planned Real.sqrt n2 sA.1 m2 a1 a3
  obtain ⟨r1, r2, -, -, r5, r6, r7⟩ :=
    LineTrackerTrapezoid.update_ready sA.1 n2 m2 a1 (fun h => absurd (h.symm.trans a3) (by simp))
  have q3' : sP.1.start_pos_ = 0 := by
    rw [q3]
    simp only [FlatState.set_from_odom, a8, Bool.not_false, if_true, h2]
    rfl
  have q4 : sP.1.goal_ = ⟨10, 0, 0⟩ := r5.trans a5
  have q5 : sP.1.v_des_ = 2 := r6.trans a6
  have q6 : sP.1.a_des_ = 1 := r7.trans a7
  have q7 : sP.1.traj_start_ = t0 := q2.trans h2t
  have hd : (sP.1.goal_ - sP.1.start_pos_).norm Real.sqrt >
      sP.1.v_des_ * sP.1.v_des_ / sP.1.a_des_ := by
    rw [q4, q3', q5, q6, scenario_norm]
    norm_num
  obtain ⟨ta, tc⟩ := q1.1 hd
  rw [q4, q3', q5, q6, scenario_norm] at tc
  rw [q5, q6] at ta
  have ta' : sP.1.t_accel_ = 2 := by rw [ta]; norm_num
  have tc' : sP.1.t_constant_ = 3 := by rw [tc]; norm_num
  have q8 : sP.1.goal_reached_ = false := by
    obtain ⟨c, -, -, -, -, e5⟩ := LineTrackerTrapezoid.update_emits sA.1 n2 m2 a1
    obtain ⟨-, -, -, k4, -⟩ := e5 (Or.inl a3)
    rcases Bool.eq_false_or_eq_true sP.1.goal_reached_ with k | k
    · rcases k4 k with l | l
      · exact absurd (l.symm.trans a4) (by simp)
      · exfalso
        change sP.1.t_accel_ + sP.1.t_constant_ + sP.1.t_accel_ <
          m2.header.stamp - sP.1.traj_start_ at l
        rw [ta', tc', q7, h2t] at l
        linarith
    · exact k
  have line : ∀ x : ℝ, (0 : Vec3 ℝ) + x * (⟨1, 0, 0⟩ : Vec3 ℝ) = ⟨x, 0, 0⟩ := by
    intro x
    ext
    · simp only [Vec3.add_x, Vec3.smul_x, Vec3.zero_x]
      ring
    · simp only [Vec3.add_y, Vec3.smul_y, Vec3.zero_y]
      ring
    · simp only [Vec3.add_z, Vec3.smul_z, Vec3.zero_z]
      ring
  have dirm : ∀ x : ℝ, x * (⟨1, 0, 0⟩ : Vec3 ℝ) = ⟨x, 0, 0⟩ := by
    intro x
    ext
    · simp only [Vec3.smul_x]
      ring
    · simp only [Vec3.smul_y]
      ring
    · simp only [Vec3.smul_z]
      ring
  -- the three ticks
  obtain ⟨⟨c3, u1, u2, u3, u4⟩, v1, v2, v3, -, v5, v6, v7, v8, v9, v10⟩ :=
    scenario_tick t0 sP.1 n3 m3 r1 r2 q8 q3' q4 q6 ta' tc' q7
  obtain ⟨⟨c4, w1, w2, w3, w4⟩, x1, x2, x3, -, x5, x6, x7, x8, x9, x10⟩ :=
    scenario_tick t0 s3.1 n4 m4 v1 v2 (v3 (by rw [h3t]; linarith)) v5 v6 v7 v8 v9 v10
  obtain ⟨⟨c5, y1, y2, y3, -⟩, z1, -, -, z4, -⟩ :=
    scenario_tick t0 s4.1 n5 m5 x1 x2 (x3 (by rw [h4t]; linarith)) x5 x6 x7 x8 x9 x10
  have e3 : m3.header.stamp - t0 = 1 := by rw [h3t]; ring
  have e4 : m4.header.stamp - t0 = 3 := by rw [h4t]; ring
  have e5 : m5.header.stamp - t0 = 7.5 := by rw [h5t]; ring
  rw [e3, line] at u2
  rw [e3, dirm] at u3 u4
  rw [e4, line] at w2
  rw [e4, dirm] at w3 w4
  rw [e5, line] at y2
  rw [e5, dirm] at y3
  refine ⟨a2, ta', tc', by rw [ta', tc']; norm_num, ⟨c3, u1, ?_, ?_, ?_⟩,
    ⟨c4, w1, ?_, ?_, ?_⟩, ⟨c5, y1, ?_, ?_⟩, ?_⟩
  · rw [u2]
    norm_num [profileDist]
  · rw [u3]
    norm_num [profileSpeed]
  · rw [u4]
    norm_num [profileAccel]
  · rw [w2]
    norm_num [profileDist]
  · rw [w3]
    norm_num [profileSpeed]
  · rw [w4]
    norm_num [profileAccel]
  · rw [y2]
    norm_num [profileDist]
  · rw [y3]
    norm_num [profileSpeed]
  · have z4' := z4 (by rw [e5]; norm_num)
    show (LineTrackerTrapezoid.update Real.sqrt n5 s4.1 m5).1.status = _
    simp only [LineTrackerTrapezoid.status, z1, z4', Bool.not_true, Bool.false_eq_true,
      if_false, if_true]

end Scenario

/-! ## The theorems at concrete inputs -/

section Instances

theorem samplePending_facts :
    (samplePending Real.sqrt : LineTrackerTrapezoid ℝ).active_ = true ∧
    (samplePending Real.sqrt : LineTrackerTrapezoid ℝ).goal_set_ = true ∧
    (samplePending Real.sqrt : LineTrackerTrapezoid ℝ).goal_reached_ = false ∧
    (samplePending Real.sqrt : LineTrackerTrapezoid ℝ).v_des_ = 2 ∧
    (samplePending Real.sqrt : LineTrackerTrapezoid ℝ).a_des_ = 1 ∧
    (samplePending Real.sqrt : LineTrackerTrapezoid ℝ).goal_ = ⟨10, 0, 0⟩ ∧
    (samplePending Real.sqrt : LineTrackerTrapezoid ℝ).ICs_.cmd_valid_ = false := by
  simp [samplePending, goalAbs, noParams, LineTrackerTrapezoid.Activate,
    LineTrackerTrapezoid.goal_callback, LineTrackerTrapezoid.update,
    LineTrackerTrapezoid.Initialize, LineTrackerTrapezoid.ctor, FlatState.ctor,
    FlatState.set_from_odom]

theorem samplePending_reachable :
    LineTrackerTrapezoid.Reachable Real.sqrt (samplePending Real.sqrt : LineTrackerTrapezoid ℝ) :=
  LineTrackerTrapezoid.Reachable.Activate none
    (LineTrackerTrapezoid.Reachable.goal_callback _
      (LineTrackerTrapezoid.Reachable.update 0 _
        (LineTrackerTrapezoid.Reachable.init sampleMem noParams)))

theorem sampleTracking_facts :
    (sampleTracking Real.sqrt : LineTrackerTrapezoid ℝ).active_ = true ∧
    (sampleTracking Real.sqrt : LineTrackerTrapezoid ℝ).goal_set_ = false ∧
    (sampleTracking Real.sqrt : LineTrackerTrapezoid ℝ).pos_set_ = true ∧
    (sampleTracking Real.sqrt : LineTrackerTrapezoid ℝ).v_des_ = 2 ∧
    (sampleTracking Real.sqrt : LineTrackerTrapezoid ℝ).a_des_ = 1 ∧
    (sampleTracking Real.sqrt : LineTrackerTrapezoid ℝ).traj_start_ = 100 := by
  obtain ⟨f1, f2, -, f4, f5, -, -⟩ := samplePending_facts
  obtain ⟨g1, -, g3, g4, g5⟩ :=
    LineTrackerTrapezoid.update_frame Real.sqrt 0 (samplePending Real.sqrt) (odomAt 100 0)
  obtain ⟨-, q2, -⟩ :=
    LineTrackerTrapezoid.update_planned Real.sqrt 0 (samplePending Real.sqrt) (odomAt 100 0) f1 f2
  obtain ⟨-, r2, -⟩ :=
    LineTrackerTrapezoid.update_ready (samplePending Real.sqrt) 0 (odomAt 100 0) f1
      (fun h => absurd (h.symm.trans f2) (by simp))
  exact ⟨g1.trans f1, r2, g5, g3.trans f4, g4.trans f5, q2⟩

theorem sampleTracking_reachable :
    LineTrackerTrapezoid.Reachable Real.sqrt (sampleTracking Real.sqrt : LineTrackerTrapezoid ℝ) :=
  LineTrackerTrapezoid.Reachable.update 0 _ samplePending_reachable

/-- C2 at the tracker `samplePending` and a planning tick stamped 100. -/
theorem C2_profile_planning_witness :
    ((samplePending Real.sqrt : LineTrackerTrapezoid ℝ).active_ = true ∧
      (samplePending Real.sqrt : LineTrackerTrapezoid ℝ).goal_set_ = true) ∧
    ((samplePending Real.sqrt : LineTrackerTrapezoid ℝ).update Real.sqrt 0
      (odomAt 100 0)).1.traj_start_ = 100 ∧
    ((samplePending Real.sqrt : LineTrackerTrapezoid ℝ).update Real.sqrt 0
      (odomAt 100 0)).1.goal_set_ = false :=
  ⟨⟨samplePending_facts.1, samplePending_facts.2.1⟩,
    (C2_profile_planning Real.sqrt 0 (samplePending Real.sqrt) (odomAt 100 0)
      samplePending_facts.1 samplePending_facts.2.1).1,
    (C2_profile_planning Real.sqrt 0 (samplePending Real.sqrt) (odomAt 100 0)
      samplePending_facts.1 samplePending_facts.2.1).2.2.2.1⟩

/-- C7 at the tracker `sampleHold`: a tick returns the goal (10,0,0) at rest. -/
theorem C7_idempotent_hold_witness :
    ((sampleHold : LineTrackerTrapezoid ℝ).active_ = true ∧
      (sampleHold : LineTrackerTrapezoid ℝ).goal_reached_ = true ∧
      (sampleHold : LineTrackerTrapezoid ℝ).goal_set_ = false) ∧
    ∃ c : PositionCommand ℝ,
      ((sampleHold : LineTrackerTrapezoid ℝ).update Real.sqrt 0 (odomAt 108 ⟨9, 0, 0⟩)).2 =
        some c ∧
      c.position = ⟨10, 0, 0⟩ ∧ c.velocity = 0 ∧ c.acceleration = 0 :=
  ⟨⟨rfl, rfl, rfl⟩,
    ((C7_idempotent_hold Real.sqrt sampleHold rfl rfl rfl).1 0 (odomAt 108 ⟨9, 0, 0⟩)).imp
      (fun _ h => ⟨h.1, h.2.1, h.2.2.1, h.2.2.2.1⟩)⟩

/-- C8 fails as stated: the tracker `sampleTracking` (constructed, initialised, measured,
given a goal, activated, and past its planning tick) has no goal pending, and `Activate`
returns true on it. -/
theorem C8_counterexample :
    ((sampleTracking Real.sqrt : LineTrackerTrapezoid ℝ).Activate none).2 = true ∧
    ¬ ((sampleTracking Real.sqrt : LineTrackerTrapezoid ℝ).goal_set_ = true ∧
      (sampleTracking Real.sqrt : LineTrackerTrapezoid ℝ).pos_set_ = true) := by
  obtain ⟨f1, f2, -⟩ := sampleTracking_facts
  constructor
  · simp [LineTrackerTrapezoid.Activate, f1, f2]
  · intro h
    exact absurd (h.1.symm.trans f2) (by simp)

/-- C4 at the tracker `samplePending`: planned at stamp 100 from the origin, the tick
at the total profile time emits the goal (10,0,0) at rest. -/
theorem C4_arrival_witness :
    ((samplePending Real.sqrt : LineTrackerTrapezoid ℝ).active_ = true ∧
      (samplePending Real.sqrt : LineTrackerTrapezoid ℝ).goal_set_ = true ∧
      0 < (samplePending Real.sqrt : LineTrackerTrapezoid ℝ).v_des_ ∧
      0 < (samplePending Real.sqrt : LineTrackerTrapezoid ℝ).a_des_) ∧
    ∃ c : PositionCommand ℝ,
      (((samplePending Real.sqrt : LineTrackerTrapezoid ℝ).update Real.sqrt 0
        (odomAt 100 0)).1.update Real.sqrt 0
        (odomAt (100 +
          (2 * ((samplePending Real.sqrt : LineTrackerTrapezoid ℝ).update Real.sqrt 0
              (odomAt 100 0)).1.t_accel_ +
            ((samplePending Real.sqrt : LineTrackerTrapezoid ℝ).update Real.sqrt 0
              (odomAt 100 0)).1.t_constant_)) 0)).2 = some c ∧
      c.position = (samplePending Real.sqrt : LineTrackerTrapezoid ℝ).goal_ ∧ c.velocity = 0 := by
  obtain ⟨f1, f2, -, f4, f5, f6, f7⟩ := samplePending_facts
  have hv : 0 < (samplePending Real.sqrt : LineTrackerTrapezoid ℝ).v_des_ := by
    rw [f4]
    norm_num
  have ha : 0 < (samplePending Real.sqrt : LineTrackerTrapezoid ℝ).a_des_ := by
    rw [f5]
    norm_num
  have hne : ((samplePending Real.sqrt : LineTrackerTrapezoid ℝ).ICs_.set_from_odom
      (odomAt 100 0)).pos_ ≠ (samplePending Real.sqrt : LineTrackerTrapezoid ℝ).goal_ := by
    rw [f6]
    simp only [FlatState.set_from_odom, f7, Bool.not_false, if_true]
    intro h
    have hx : (0 : ℝ) = 10 := congrArg Vec3.x h
    norm_num at hx
  exact ⟨⟨f1, f2, hv, ha⟩,
    (C4_arrival (samplePending Real.sqrt) f1 f2 hv ha 0 0 (odomAt 100 0) _ hne rfl).imp
      (fun _ h => ⟨h.1, h.2.1, h.2.2.1⟩)⟩

/-- C5 at the tracker `sampleTracking` (plan start 100, `v_des = 2`) and a tick stamped
101: the emitted speed is at most 2. -/
theorem C5_velocity_peak_witness :
    (LineTrackerTrapezoid.Reachable Real.sqrt (sampleTracking Real.sqrt : LineTrackerTrapezoid ℝ) ∧
      (sampleTracking Real.sqrt : LineTrackerTrapezoid ℝ).active_ = true ∧
      (sampleTracking Real.sqrt : LineTrackerTrapezoid ℝ).traj_start_ ≤ 101) ∧
    ∃ c : PositionCommand ℝ,
      ((sampleTracking Real.sqrt : LineTrackerTrapezoid ℝ).update Real.sqrt 0
        (odomAt 101 0)).2 = some c ∧
      c.velocity.norm Real.sqrt ≤ (sampleTracking Real.sqrt : LineTrackerTrapezoid ℝ).v_des_ := by
  obtain ⟨f1, -, -, f4, f5, f6⟩ := sampleTracking_facts
  have ht : (sampleTracking Real.sqrt : LineTrackerTrapezoid ℝ).traj_start_ ≤ 101 := by
    rw [f6]
    norm_num
  exact ⟨⟨sampleTracking_reachable, f1, ht⟩,
    (C5_velocity_peak (sampleTracking Real.sqrt) sampleTracking_reachable f1
      (by rw [f4]; norm_num) (by rw [f5]; norm_num) 0 (odomAt 101 0) (fun _ => ht)).imp
      (fun _ h => ⟨h.1, h.2.2.2⟩)⟩

/-- C6 at the tracker `sampleTracking` (plan start 100) and ticks stamped 101 and 102. -/
theorem C6_continuity_witness :
    (LineTrackerTrapezoid.Reachable Real.sqrt (sampleTracking Real.sqrt : LineTrackerTrapezoid ℝ) ∧
      (sampleTracking Real.sqrt : LineTrackerTrapezoid ℝ).active_ = true ∧
      (sampleTracking Real.sqrt : LineTrackerTrapezoid ℝ).traj_start_ ≤ 101) ∧
    ∃ c1 c2 : PositionCommand ℝ,
      ((sampleTracking Real.sqrt : LineTrackerTrapezoid ℝ).update Real.sqrt 0
        (odomAt 101 0)).2 = some c1 ∧
      (((sampleTracking Real.sqrt : LineTrackerTrapezoid ℝ).update Real.sqrt 0
        (odomAt 101 0)).1.update Real.sqrt 0 (odomAt 102 0)).2 = some c2 ∧
      (c2.position - c1.position).norm Real.sqrt ≤
        (sampleTracking Real.sqrt : LineTrackerTrapezoid ℝ).v_des_ * (102 - 101) := by
  obtain ⟨f1, -, -, f4, f5, f6⟩ := sampleTracking_facts
  have ht : (sampleTracking Real.sqrt : LineTrackerTrapezoid ℝ).traj_start_ ≤ 101 := by
    rw [f6]
    norm_num
  exact ⟨⟨sampleTracking_reachable, f1, ht⟩,
    C6_continuity (sampleTracking Real.sqrt) sampleTracking_reachable f1
      (by rw [f4]; norm_num) (by rw [f5]; norm_num) 0 0 (odomAt 101 0) (odomAt 102 0)
      (fun _ => ht) (by show (101 : ℝ) ≤ 102; norm_num)⟩

/-- C10 on a concrete run: measurement at the origin stamped 99, plan stamped 100. -/
theorem C10_scenario_witness :
    (((((LineTrackerTrapezoid.ctor (sampleMem : LineTrackerTrapezoid ℝ)).update Real.sqrt 0
      (odomAt 99 0)).1.goal_callback ⟨10, 0, 0, false, 2, 1⟩).Activate none).1.update
      Real.sqrt 0 (odomAt 100 0)).1.t_accel_ = 2 ∧
    (((((LineTrackerTrapezoid.ctor (sampleMem : LineTrackerTrapezoid ℝ)).update Real.sqrt 0
      (odomAt 99 0)).1.goal_callback ⟨10, 0, 0, false, 2, 1⟩).Activate none).1.update
      Real.sqrt 0 (odomAt 100 0)).1.t_constant_ = 3 := by
  have h := C10_scenario sampleMem none 100 0 0 0 0 0 (odomAt 99 0) (odomAt 100 0)
    (odomAt 101 0) (odomAt 103 0) (odomAt 107.5 0) rfl rfl
    (by show (101 : ℝ) = 100 + 1; norm_num) (by show (103 : ℝ) = 100 + 3; norm_num)
    (by show (107.5 : ℝ) = 100 + 7.5; norm_num)
  exact ⟨h.2.1, h.2.2.1⟩

end Instances

/-! ## FlatState ingestion, status, cruise parameters -/

section SecondTheorems
variable {F : Type} [LinearOrderedField F]

/-- C11 (set_from_cmd): a null command leaves FlatState completely unchanged; a present
command overwrites position, velocity, acceleration, jerk, snap, yaw, yaw-rate and
yaw-acceleration with its own fields and sets the valid flag, whatever FlatState held
before. -/
theorem C11_set_from_cmd (s : FlatState F) (c : PositionCommand F) :
    s.set_from_cmd none = s ∧
    (s.set_from_cmd (some c)).pos_ = c.position ∧
    (s.set_from_cmd (some c)).vel_ = c.velocity ∧
    (s.set_from_cmd (some c)).acc_ = c.acceleration ∧
    (s.set_from_cmd (some c)).jrk_ = c.jerk ∧
    (s.set_from_cmd (some c)).snp_ = c.snap ∧
    (s.set_from_cmd (some c)).yaw_ = c.yaw ∧
    (s.set_from_cmd (some c)).yaw_dot_ = c.yaw_dot ∧
    (s.set_from_cmd (some c)).yaw_ddot_ = c.yaw_ddot ∧
    (s.set_from_cmd (some c)).cmd_valid_ = true ∧
    (∀ t : FlatState F, t.set_from_cmd (some c) = s.set_from_cmd (some c)) :=
  ⟨rfl, rfl, rfl, rfl, rfl, rfl, rfl, rfl, rfl, rfl, fun _ => rfl⟩

/-- C15 (cruise parameter fallback): after `goal_callback` the cruise speed is the
message's `v_des` if that is strictly positive and the configured default speed
otherwise, and independently the cruise acceleration is the message's `a_des` if
strictly positive and the configured default acceleration otherwise; the values held
before play no part. -/
theorem C15_cruise_fallback (s : LineTrackerTrapezoid F) (msg : LineTrackerGoal F) :
    (s.goal_callback msg).v_des_ = (if msg.v_des > 0 then msg.v_des else s.default_v_des_) ∧
    (s.goal_callback msg).a_des_ = (if msg.a_des > 0 then msg.a_des else s.default_a_des_) ∧
    (msg.v_des ≤ 0 → (s.goal_callback msg).v_des_ = s.default_v_des_) ∧
    (msg.a_des ≤ 0 → (s.goal_callback msg).a_des_ = s.default_a_des_) ∧
    (∀ v a : F, ({ s with v_des_ := v, a_des_ := a } : LineTrackerTrapezoid F).goal_callback msg =
      s.goal_callback msg) ∧
    (s.goal_callback msg).default_v_des_ = s.default_v_des_ ∧
    (s.goal_callback msg).default_a_des_ = s.default_a_des_ := by
  refine ⟨?_, ?_, fun h => ?_, fun h => ?_, fun v a => ?_, ?_, ?_⟩
  · simp only [LineTrackerTrapezoid.goal_callback]
    split_ifs <;> rfl
  · simp only [LineTrackerTrapezoid.goal_callback]
    split_ifs <;> rfl
  · simp only [LineTrackerTrapezoid.goal_callback, if_neg (not_lt.mpr h)]
    split_ifs <;> rfl
  · simp only [LineTrackerTrapezoid.goal_callback, if_neg (not_lt.mpr h)]
    split_ifs <;> rfl
  · simp only [LineTrackerTrapezoid.goal_callback]
    split_ifs <;> rfl
  · simp only [LineTrackerTrapezoid.goal_callback]
    split_ifs <;> rfl
  · simp only [LineTrackerTrapezoid.goal_callback]
    split_ifs <;> rfl

end SecondTheorems

/-! ## Planned durations, zero-distance goals -/

section Durations

/-- C17, as amended (profile duration invariant, over exact real arithmetic): the
planning tick of an active tracker with positive cruise parameters stores `t_accel ≥ 0`
and `t_const ≥ 0`; `t_const = 0` exactly when `d ≤ v_des^2/a_des`, in which case
`t_accel = sqrt (d/a_des)`, and `t_const > 0` when `d > v_des^2/a_des`, `d` being the
distance from the profile's start to the goal. -/
theorem C17_durations (s : LineTrackerTrapezoid ℝ) (hact : s.active_ = true)
    (hgs : s.goal_set_ = true) (hv : 0 < s.v_des_) (ha : 0 < s.a_des_) (now : ℝ)
    (msg : Odometry ℝ) :
    0 ≤ (s.update Real.sqrt now msg).1.t_accel_ ∧
    0 ≤ (s.update Real.sqrt now msg).1.t_constant_ ∧
    ((s.update Real.sqrt now msg).1.t_constant_ = 0 ↔
      (s.goal_ - (s.ICs_.set_from_odom msg).pos_).norm Real.sqrt ≤ s.v_des_ ^ 2 / s.a_des_) ∧
    ((s.goal_ - (s.ICs_.set_from_odom msg).pos_).norm Real.sqrt ≤ s.v_des_ ^ 2 / s.a_des_ →
      (s.update Real.sqrt now msg).1.t_accel_ =
        Real.sqrt ((s.goal_ - (s.ICs_.set_from_odom msg).pos_).norm Real.sqrt / s.a_des_)) ∧
    ((s.goal_ - (s.ICs_.set_from_odom msg).pos_).norm Real.sqrt > s.v_des_ ^ 2 / s.a_des_ →
      0 < (s.update Real.sqrt now msg).1.t_constant_) := by
  obtain ⟨q1, -, q3⟩ := LineTrackerTrapezoid.update_planned Real.sqrt now s msg hact hgs
  obtain ⟨-, g2, g3, g4, -⟩ := LineTrackerTrapezoid.update_frame Real.sqrt now s msg
  obtain ⟨d1, d2, -, -, -, -⟩ :=
    LineTrackerTrapezoid.Planned.durations _ q1 (g3 ▸ hv) (g4 ▸ ha)
  obtain ⟨p1, p2⟩ := q1
  rw [g2, g3, g4, q3] at p1 p2
  have hpos : ∀ d : ℝ, d > s.v_des_ * s.v_des_ / s.a_des_ → 0 < d / s.v_des_ - s.v_des_ / s.a_des_ := by
    intro d h
    have k : s.v_des_ * s.v_des_ < d * s.a_des_ := (div_lt_iff₀ ha).mp h
    rw [sub_pos, div_lt_div_iff₀ ha hv]
    linarith
  refine ⟨d1, d2, ⟨fun h => ?_, fun h => ?_⟩, fun h => ?_, fun h => ?_⟩
  · by_contra hc
    rw [pow_two] at hc
    have k := hpos _ (not_le.mp hc)
    rw [← (p1 (not_le.mp hc)).2, h] at k
    exact lt_irrefl _ k
  · rw [pow_two] at h
    exact (p2 (not_lt.mpr h)).2
  · rw [pow_two] at h
    exact (p2 (not_lt.mpr h)).1
  · rw [pow_two] at h
    rw [(p1 h).2]
    exact hpos _ h

end Durations

/-! ## Zero-distance goals, feedback, deactivation, replanning, no overshoot -/

section ZeroDistance

theorem Vec3.sub_self_eq_zero (p : Vec3 ℝ) : p - p = 0 := by
  ext
  · simp only [Vec3.sub_x, Vec3.zero_x, sub_self]
  · simp only [Vec3.sub_y, Vec3.zero_y, sub_self]
  · simp only [Vec3.sub_z, Vec3.zero_z, sub_self]

theorem Vec3.normalized_zero : (0 : Vec3 ℝ).normalized Real.sqrt = 0 := by
  simp [Vec3.normalized, Vec3.squaredNorm]

theorem Vec3.smul_zero (c : ℝ) : c * (0 : Vec3 ℝ) = 0 := by
  ext
  · simp only [Vec3.smul_x, Vec3.zero_x, mul_zero]
  · simp only [Vec3.smul_y, Vec3.zero_y, mul_zero]
  · simp only [Vec3.smul_z, Vec3.zero_z, mul_zero]

theorem Vec3.add_zero_right (p : Vec3 ℝ) : p + 0 = p := by
  ext
  · simp only [Vec3.add_x, Vec3.zero_x, add_zero]
  · simp only [Vec3.add_y, Vec3.zero_y, add_zero]
  · simp only [Vec3.add_z, Vec3.zero_z, add_zero]

/-- The planning tick for a goal at the profile's start: both durations are zero, the
command is the goal at rest with zero acceleration, and the goal-reached flag keeps its
value, the elapsed time zero not being past the end of the profile. -/
theorem LineTrackerTrapezoid.update_zero_distance (s : LineTrackerTrapezoid ℝ)
    (hact : s.active_ = true) (hgs : s.goal_set_ = true)
    (ha : 0 < s.a_des_) (now : ℝ) (msg : Odometry ℝ)
    (hz : s.goal_ = (s.ICs_.set_from_odom msg).pos_) :
    (s.update Real.sqrt now msg).1.t_accel_ = 0 ∧
    (s.update Real.sqrt now msg).1.t_constant_ = 0 ∧
    (s.update Real.sqrt now msg).1.goal_reached_ = s.goal_reached_ ∧
    ∃ c : PositionCommand ℝ, (s.update Real.sqrt now msg).2 = some c ∧
      c.position = s.goal_ ∧ c.velocity = 0 ∧ c.acceleration = 0 := by
  obtain ⟨q1, q2, q3⟩ := LineTrackerTrapezoid.update_planned Real.sqrt now s msg hact hgs
  obtain ⟨-, g2, g3, g4, -⟩ := LineTrackerTrapezoid.update_frame Real.sqrt now s msg
  have hsub : (s.update Real.sqrt now msg).1.goal_ - (s.update Real.sqrt now msg).1.start_pos_ = 0 := by
    rw [g2, q3, hz]
    exact Vec3.sub_self_eq_zero _
  have hnot : ¬ ((s.update Real.sqrt now msg).1.goal_ -
      (s.update Real.sqrt now msg).1.start_pos_).norm Real.sqrt >
      (s.update Real.sqrt now msg).1.v_des_ * (s.update Real.sqrt now msg).1.v_des_ /
        (s.update Real.sqrt now msg).1.a_des_ := by
    rw [hsub, Vec3.norm_zero, g3, g4]
    exact not_lt.mpr (div_nonneg (mul_self_nonneg _) ha.le)
  obtain ⟨ta, tc⟩ := q1.2 hnot
  rw [hsub, Vec3.norm_zero, zero_div, Real.sqrt_zero] at ta
  obtain ⟨c, e1, -, -, -, e5⟩ := LineTrackerTrapezoid.update_emits s now msg hact
  obtain ⟨k1, k2, k3, k4, k5⟩ := e5 (Or.inl hgs)
  have htau : msg.header.stamp - (s.update Real.sqrt now msg).1.traj_start_ = 0 := by
    rw [q2, sub_self]
  rw [ta, tc, htau, hsub, Vec3.normalized_zero, Vec3.smul_zero] at k1 k2 k3
  simp only [ta, tc, htau, add_zero, lt_self_iff_false, and_false, or_false] at k4 k5
  refine ⟨ta, tc, ?_, c, e1, ?_, k2, k3⟩
  · rcases Bool.eq_false_or_eq_true s.goal_reached_ with h | h
    · rw [h]
      exact k5 h
    · rw [h]
      rcases Bool.eq_false_or_eq_true (s.update Real.sqrt now msg).1.goal_reached_ with k | k
      · exact absurd ((k4 k).symm.trans h) (by simp)
      · exact k
  · rw [k1, Vec3.add_zero_right, q3, hz]

end ZeroDistance

section ZeroDistanceClaim

/-- C12, as amended (zero-distance goal): the tick that plans a pending goal equal to
FlatState's cached position, with positive cruise parameters, stores `t_accel = 0` and
`t_const = 0` and emits the goal with zero velocity and zero acceleration, but leaves the
goal-reached flag as it was, so after a goal received through the goal callback the
status is ACTIVE right after it; every next tick stamped strictly later sets the flag,
emits the goal at rest, and leaves the status SUCCEEDED. -/
theorem C12_zero_distance (s : LineTrackerTrapezoid ℝ) (hact : s.active_ = true)
    (hgs : s.goal_set_ = true) (_hv : 0 < s.v_des_) (ha : 0 < s.a_des_) (now : ℝ)
    (msg : Odometry ℝ) (hz : s.goal_ = (s.ICs_.set_from_odom msg).pos_) :
    (s.update Real.sqrt now msg).1.t_accel_ = 0 ∧
    (s.update Real.sqrt now msg).1.t_constant_ = 0 ∧
    (∃ c : PositionCommand ℝ, (s.update Real.sqrt now msg).2 = some c ∧
      c.position = s.goal_ ∧ c.velocity = 0 ∧ c.acceleration = 0) ∧
    (s.update Real.sqrt now msg).1.goal_reached_ = s.goal_reached_ ∧
    (s.goal_reached_ = false →
      (s.update Real.sqrt now msg).1.status = some ⟨StatusCode.ACTIVE⟩) ∧
    (∀ (now2 : ℝ) (m2 : Odometry ℝ), msg.header.stamp < m2.header.stamp →
      ((s.update Real.sqrt now msg).1.update Real.sqrt now2 m2).1.goal_reached_ = true ∧
      ((s.update Real.sqrt now msg).1.update Real.sqrt now2 m2).1.status =
        some ⟨StatusCode.SUCCEEDED⟩ ∧
      ∃ c2 : PositionCommand ℝ,
        ((s.update Real.sqrt now msg).1.update Real.sqrt now2 m2).2 = some c2 ∧
        c2.position = s.goal_ ∧ c2.velocity = 0) := by
  obtain ⟨ta, tc, hgr, hc⟩ :=
    LineTrackerTrapezoid.update_zero_distance s hact hgs ha now msg hz
  obtain ⟨-, q2, q3⟩ := LineTrackerTrapezoid.update_planned Real.sqrt now s msg hact hgs
  obtain ⟨r1, r2, -, -, r5, -, -⟩ :=
    LineTrackerTrapezoid.update_ready s now msg hact (fun h => absurd (h.symm.trans hgs) (by simp))
  refine ⟨ta, tc, hc, hgr, fun h => ?_, fun now2 m2 hlt => ?_⟩
  · simp [LineTrackerTrapezoid.status, r1, hgr, h]
  · obtain ⟨g1, g2, -, -, -⟩ :=
      LineTrackerTrapezoid.update_frame Real.sqrt now2 (s.update Real.sqrt now msg).1 m2
    obtain ⟨-, p2, -, p4, p5, p6⟩ :=
      LineTrackerTrapezoid.update_frame_profile Real.sqrt now2 (s.update Real.sqrt now msg).1 m2 r2
    obtain ⟨c2, f1, -, -, f4, f5⟩ :=
      LineTrackerTrapezoid.update_emits (s.update Real.sqrt now msg).1 now2 m2 r1
    have hsub : (s.update Real.sqrt now msg).1.goal_ -
        (s.update Real.sqrt now msg).1.start_pos_ = 0 := by
      rw [r5, q3, hz]
      exact Vec3.sub_self_eq_zero _
    have hpos : 0 < m2.header.stamp - (s.update Real.sqrt now msg).1.traj_start_ := by
      rw [q2]
      exact sub_pos.mpr hlt
    have key : ((s.update Real.sqrt now msg).1.update Real.sqrt now2 m2).1.goal_reached_ = true ∧
        c2.position = s.goal_ ∧ c2.velocity = 0 := by
      rcases Bool.eq_false_or_eq_true (s.update Real.sqrt now msg).1.goal_reached_ with h | h
      · obtain ⟨k1, k2, -, k4⟩ := f4 r2 h
        exact ⟨k4, k1.trans r5, k2⟩
      · obtain ⟨k1, k2, -, -, k5⟩ := f5 (Or.inr h)
        rw [g2, p2, p4, p5, p6, ta, tc, hsub, Vec3.normalized_zero, Vec3.smul_zero] at k1 k2
        rw [p4, p5, p6, ta, tc] at k5
        refine ⟨k5 (Or.inr ⟨hpos, by simpa using hpos, by simpa using hpos⟩), ?_, k2⟩
        rw [k1, Vec3.add_zero_right, q3, hz]
    refine ⟨key.1, ?_, c2, f1, key.2.1, key.2.2⟩
    simp [LineTrackerTrapezoid.status, g1.trans r1, key.1]

end ZeroDistanceClaim

section Feedback
variable {F : Type} [LinearOrderedField F]

/-- Lines 141-184 always return a command and feed it back to FlatState. -/
theorem LineTrackerTrapezoid.update_profile_feedback (sqrt : F → F)
    (s : LineTrackerTrapezoid F) (cmd : PositionCommand F) (t : F) :
    ∃ c : PositionCommand F, (s.update_profile sqrt cmd t).2 = some c ∧
      (s.update_profile sqrt cmd t).1.ICs_ = s.ICs_.set_from_cmd (some c) ∧
      c.jerk = cmd.jerk ∧ c.snap = cmd.snap ∧ c.yaw = cmd.yaw ∧ c.yaw_dot = cmd.yaw_dot ∧
      c.yaw_ddot = cmd.yaw_ddot := by
  simp only [LineTrackerTrapezoid.update_profile]
  split_ifs <;> exact ⟨_, rfl, rfl, rfl, rfl, rfl, rfl, rfl⟩

/-- Every command `update` returns has been fed back to FlatState: afterwards FlatState
is valid and holds exactly the command's fields, jerk, snap and yaw-acceleration being
zero and yaw-rate zero. -/
theorem LineTrackerTrapezoid.update_feedback (sqrt : F → F) (now : F)
    (s : LineTrackerTrapezoid F) (msg : Odometry F) (c : PositionCommand F)
    (h : (s.update sqrt now msg).2 = some c) :
    (s.update sqrt now msg).1.ICs_ =
      { pos_ := c.position, vel_ := c.velocity, acc_ := c.acceleration, jrk_ := c.jerk,
        snp_ := c.snap, yaw_ := c.yaw, yaw_dot_ := c.yaw_dot, yaw_ddot_ := c.yaw_ddot,
        cmd_valid_ := true } ∧
    c.jerk = 0 ∧ c.snap = 0 ∧ c.yaw_ddot = 0 ∧ c.yaw_dot = 0 ∧ s.active_ = true := by
  rcases Bool.eq_false_or_eq_true s.active_ with hact | hact
  · rcases Bool.eq_false_or_eq_true s.goal_set_ with hgs | hgs
    · by_cases hd : (s.goal_ - (s.ICs_.set_from_odom msg).pos_).norm sqrt >
          s.v_des_ * s.v_des_ / s.a_des_
      all_goals
        simp only [LineTrackerTrapezoid.update, hact, hgs, hd, Bool.not_true,
          Bool.false_eq_true, if_false, if_true] at h ⊢
        obtain ⟨c', e1, e2, e3, e4, -, e6, e7⟩ :=
          LineTrackerTrapezoid.update_profile_feedback sqrt _ _ _
        rw [e1] at h
        obtain rfl := Option.some.inj h
        rw [e2]
        exact ⟨rfl, e3, e4, e7, e6, trivial⟩
    · rcases Bool.eq_false_or_eq_true s.goal_reached_ with hgr | hgr
      · simp only [LineTrackerTrapezoid.update, hact, hgs, hgr, Bool.not_true,
          Bool.false_eq_true, if_false, if_true] at h ⊢
        obtain rfl := Option.some.inj h
        exact ⟨rfl, rfl, rfl, rfl, rfl, trivial⟩
      · simp only [LineTrackerTrapezoid.update, hact, hgs, hgr, Bool.not_true,
          Bool.false_eq_true, if_false, if_true] at h ⊢
        obtain ⟨c', e1, e2, e3, e4, -, e6, e7⟩ :=
          LineTrackerTrapezoid.update_profile_feedback sqrt _ _ _
        rw [e1] at h
        obtain rfl := Option.some.inj h
        rw [e2]
        exact ⟨rfl, e3, e4, e7, e6, trivial⟩
  · simp [LineTrackerTrapezoid.update, hact] at h

end Feedback

section FeedbackInvariant
variable {F : Type} [LinearOrderedField F]

/-- A tick on an inactive tracker only records the measurement and returns nothing. -/
theorem LineTrackerTrapezoid.update_inactive (sqrt : F → F) (now : F)
    (s : LineTrackerTrapezoid F) (msg : Odometry F) (h : s.active_ = false) :
    s.update sqrt now msg = ({ s with
      pos_ := msg.position, cur_yaw_ := msg.yaw, pos_set_ := true,
      ICs_ := s.ICs_.set_from_odom msg }, none) := by
  simp [LineTrackerTrapezoid.update, h]

/-- A tick on an active tracker returns a command. -/
theorem LineTrackerTrapezoid.update_returns (sqrt : F → F) (now : F)
    (s : LineTrackerTrapezoid F) (msg : Odometry F) (h : s.active_ = true) :
    ∃ c : PositionCommand F, (s.update sqrt now msg).2 = some c := by
  simp only [LineTrackerTrapezoid.update, h, Bool.not_true, Bool.false_eq_true, if_false]
  split_ifs <;> exact ⟨_, rfl⟩

theorem FlatState.set_from_odom_valid (s : FlatState F) (msg : Odometry F) :
    (s.set_from_odom msg).cmd_valid_ = s.cmd_valid_ ∧
    (s.cmd_valid_ = true → s.set_from_odom msg = s) ∧
    (s.cmd_valid_ = false → (s.set_from_odom msg).pos_ = msg.position ∧
      (s.set_from_odom msg).vel_ = msg.linear) := by
  cases h : s.cmd_valid_ <;> simp [FlatState.set_from_odom, h]

/-- Along every run, a valid FlatState holds exactly the fields of the command most
recently returned by `update`. -/
theorem LineTrackerTrapezoid.ReachableEmitting.feedback (sqrt : F → F)
    (s : LineTrackerTrapezoid F) (last : Option (PositionCommand F))
    (h : LineTrackerTrapezoid.ReachableEmitting sqrt s last) (hv : s.ICs_.cmd_valid_ = true) :
    ∃ c : PositionCommand F, last = some c ∧
      s.ICs_ =
        { pos_ := c.position, vel_ := c.velocity, acc_ := c.acceleration, jrk_ := c.jerk,
          snp_ := c.snap, yaw_ := c.yaw, yaw_dot_ := c.yaw_dot, yaw_ddot_ := c.yaw_ddot,
          cmd_valid_ := true } := by
  induction h with
  | ctor mem => simp [LineTrackerTrapezoid.ctor, FlatState.ctor] at hv
  | init mem p =>
    simp [LineTrackerTrapezoid.Initialize, LineTrackerTrapezoid.ctor, FlatState.ctor] at hv
  | @goal_callback s last msg _ ih =>
    have e : (s.goal_callback msg).ICs_ = s.ICs_ := by
      simp only [LineTrackerTrapezoid.goal_callback]
      split_ifs <;> rfl
    rw [e] at hv ⊢
    exact ih hv
  | @Activate s last cmd _ ih =>
    have e : (s.Activate cmd).1.ICs_ = s.ICs_ := by
      simp only [LineTrackerTrapezoid.Activate]
      split_ifs <;> rfl
    rw [e] at hv ⊢
    exact ih hv
  | Deactivate _ ih =>
    simp [LineTrackerTrapezoid.Deactivate, FlatState.reset] at hv
  | @update s last now msg _ ih =>
    rcases Bool.eq_false_or_eq_true s.active_ with hact | hact
    · obtain ⟨c, hc⟩ := LineTrackerTrapezoid.update_returns sqrt now s msg hact
      refine ⟨c, by rw [hc]; rfl, ?_⟩
      exact (LineTrackerTrapezoid.update_feedback sqrt now s msg c hc).1
    · rw [LineTrackerTrapezoid.update_inactive sqrt now s msg hact] at hv ⊢
      obtain ⟨v1, v2, -⟩ := FlatState.set_from_odom_valid s.ICs_ msg
      have hv' : s.ICs_.cmd_valid_ = true := v1.symm.trans hv
      obtain ⟨c, hc, hi⟩ := ih hv'
      refine ⟨c, by simpa using hc, ?_⟩
      show s.ICs_.set_from_odom msg = _
      rw [v2 hv']
      exact hi

/-- The states of `ReachableEmitting` are the reachable states. -/
theorem LineTrackerTrapezoid.Reachable.emitting (sqrt : F → F) (s : LineTrackerTrapezoid F)
    (h : LineTrackerTrapezoid.Reachable sqrt s) :
    ∃ last : Option (PositionCommand F), LineTrackerTrapezoid.ReachableEmitting sqrt s last := by
  induction h with
  | ctor mem => exact ⟨none, LineTrackerTrapezoid.ReachableEmitting.ctor mem⟩
  | init mem p => exact ⟨none, LineTrackerTrapezoid.ReachableEmitting.init mem p⟩
  | goal_callback msg _ ih =>
    exact ih.imp (fun _ k => LineTrackerTrapezoid.ReachableEmitting.goal_callback msg k)
  | Activate cmd _ ih =>
    exact ih.imp (fun _ k => LineTrackerTrapezoid.ReachableEmitting.Activate cmd k)
  | Deactivate _ ih =>
    exact ih.imp (fun _ k => LineTrackerTrapezoid.ReachableEmitting.Deactivate k)
  | update now msg _ ih =>
    obtain ⟨l, k⟩ := ih
    exact ⟨_, LineTrackerTrapezoid.ReachableEmitting.update now msg k⟩

/-- C19 (feedback invariant): a tick on an active tracker returns a command and a tick
on an inactive one returns none; whenever `update` returns a command, FlatState is valid
afterwards and its position, velocity, acceleration, jerk, snap, yaw, yaw-rate and
yaw-acceleration are the command's, whose jerk, snap and yaw-acceleration are zero;
hence in every state reachable from construction through goal messages, `Activate`,
`update` and `Deactivate`, a valid FlatState holds exactly the fields of the command most
recently returned by `update`. -/
theorem C19_feedback (sqrt : F → F) :
    (∀ (s : LineTrackerTrapezoid F) (now : F) (msg : Odometry F) (c : PositionCommand F),
      (s.update sqrt now msg).2 = some c →
      (s.update sqrt now msg).1.ICs_ =
        { pos_ := c.position, vel_ := c.velocity, acc_ := c.acceleration, jrk_ := c.jerk,
          snp_ := c.snap, yaw_ := c.yaw, yaw_dot_ := c.yaw_dot, yaw_ddot_ := c.yaw_ddot,
          cmd_valid_ := true } ∧
      c.jerk = 0 ∧ c.snap = 0 ∧ c.yaw_ddot = 0) ∧
    (∀ (s : LineTrackerTrapezoid F) (last : Option (PositionCommand F)),
      LineTrackerTrapezoid.ReachableEmitting sqrt s last → s.ICs_.cmd_valid_ = true →
      ∃ c : PositionCommand F, last = some c ∧
        s.ICs_ =
          { pos_ := c.position, vel_ := c.velocity, acc_ := c.acceleration, jrk_ := c.jerk,
            snp_ := c.snap, yaw_ := c.yaw, yaw_dot_ := c.yaw_dot, yaw_ddot_ := c.yaw_ddot,
            cmd_valid_ := true }) ∧
    (∀ s : LineTrackerTrapezoid F, LineTrackerTrapezoid.Reachable sqrt s →
      ∃ last : Option (PositionCommand F),
        LineTrackerTrapezoid.ReachableEmitting sqrt s last) ∧
    (∀ (s : LineTrackerTrapezoid F) (now : F) (msg : Odometry F), s.active_ = true →
      ∃ c : PositionCommand F, (s.update sqrt now msg).2 = some c ∧
        (s.update sqrt now msg).1.ICs_ =
          { pos_ := c.position, vel_ := c.velocity, acc_ := c.acceleration, jrk_ := 0,
            snp_ := 0, yaw_ := c.yaw, yaw_dot_ := c.yaw_dot, yaw_ddot_ := 0,
            cmd_valid_ := true }) ∧
    (∀ (s : LineTrackerTrapezoid F) (now : F) (msg : Odometry F), s.active_ = false →
      (s.update sqrt now msg).2 = none ∧
      (s.update sqrt now msg).1.ICs_ = s.ICs_.set_from_odom msg) := by
  refine ⟨fun s now msg c h => ?_, fun s last h hv => ?_, fun s h => ?_,
    fun s now msg h => ?_, fun s now msg h => ?_⟩
  · obtain ⟨k1, k2, k3, k4, -, -⟩ := LineTrackerTrapezoid.update_feedback sqrt now s msg c h
    exact ⟨k1, k2, k3, k4⟩
  · exact LineTrackerTrapezoid.ReachableEmitting.feedback sqrt s last h hv
  · exact LineTrackerTrapezoid.Reachable.emitting sqrt s h
  · obtain ⟨c, hc⟩ := LineTrackerTrapezoid.update_returns sqrt now s msg h
    obtain ⟨k1, k2, k3, k4, -, -⟩ := LineTrackerTrapezoid.update_feedback sqrt now s msg c hc
    refine ⟨c, hc, ?_⟩
    rw [k1, k2, k3, k4]
  · rw [LineTrackerTrapezoid.update_inactive sqrt now s msg h]
    exact ⟨rfl, rfl⟩

end FeedbackInvariant

section Deactivation
variable {F : Type} [LinearOrderedField F]

/-- Ticks on an inactive tracker return nothing and keep it inactive, with the same
pending flag and the same FlatState latch. -/
theorem LineTrackerTrapezoid.updates_inactive (sqrt : F → F) (s : LineTrackerTrapezoid F)
    (ticks : List (F × Odometry F)) (h : s.active_ = false) :
    (s.updates sqrt ticks).1.active_ = false ∧
    (s.updates sqrt ticks).1.goal_set_ = s.goal_set_ ∧
    (s.updates sqrt ticks).1.ICs_.cmd_valid_ = s.ICs_.cmd_valid_ ∧
    ∀ r ∈ (s.updates sqrt ticks).2, r = none := by
  induction ticks generalizing s with
  | nil => simp [LineTrackerTrapezoid.updates, h]
  | cons tick rest ih =>
    have e := LineTrackerTrapezoid.update_inactive sqrt tick.1 s tick.2 h
    have h1 : (s.update sqrt tick.1 tick.2).1.active_ = false := by rw [e]; exact h
    have h2 : (s.update sqrt tick.1 tick.2).1.goal_set_ = s.goal_set_ := by rw [e]
    have h3 : (s.update sqrt tick.1 tick.2).1.ICs_.cmd_valid_ = s.ICs_.cmd_valid_ := by
      rw [e]
      exact (FlatState.set_from_odom_valid s.ICs_ tick.2).1
    have h4 : (s.update sqrt tick.1 tick.2).2 = none := by rw [e]
    obtain ⟨i1, i2, i3, i4⟩ := ih (s.update sqrt tick.1 tick.2).1 h1
    refine ⟨i1, i2.trans h2, i3.trans h3, fun r hr => ?_⟩
    simp only [LineTrackerTrapezoid.updates, List.mem_cons] at hr
    rcases hr with hr | hr
    · exact hr.trans h4
    · exact i4 r hr

/-- C16 (deactivation releases the latch): `Deactivate` clears the active flag, the
goal-pending flag and FlatState's valid flag and changes nothing else; the next `update`
returns no command and overwrites FlatState's cached position and velocity with the
measurement's; and after any ticks, a goal, any ticks and a successful `Activate`, the
planning tick starts the profile at the position measured on that tick, whatever
FlatState held before the deactivation. -/
theorem C16_deactivate (sqrt : F → F) (s : LineTrackerTrapezoid F) :
    s.Deactivate =
      { s with ICs_ := { s.ICs_ with cmd_valid_ := false }, goal_set_ := false,
               active_ := false } ∧
    (∀ (now : F) (m : Odometry F),
      (s.Deactivate.update sqrt now m).2 = none ∧
      (s.Deactivate.update sqrt now m).1.ICs_.pos_ = m.position ∧
      (s.Deactivate.update sqrt now m).1.ICs_.vel_ = m.linear ∧
      (s.Deactivate.update sqrt now m).1.ICs_.cmd_valid_ = false) ∧
    (∀ (ticks1 ticks2 : List (F × Odometry F)) (g : LineTrackerGoal F)
      (cmd : Option (PositionCommand F)) (now : F) (m : Odometry F),
      ((((s.Deactivate.updates sqrt ticks1).1.goal_callback g).updates sqrt ticks2).1.Activate
        cmd).2 = true →
      ((((((s.Deactivate.updates sqrt ticks1).1.goal_callback g).updates sqrt ticks2).1.Activate
        cmd).1.update sqrt now m).1.start_pos_ = m.position ∧
      (∃ c : PositionCommand F,
        (((((s.Deactivate.updates sqrt ticks1).1.goal_callback g).updates sqrt ticks2).1.Activate
          cmd).1.update sqrt now m).2 = some c) ∧
      (∀ r ∈ (s.Deactivate.updates sqrt ticks1).2, r = none) ∧
      (∀ r ∈ (((s.Deactivate.updates sqrt ticks1).1.goal_callback g).updates sqrt ticks2).2,
        r = none))) := by
  have d1 : s.Deactivate.active_ = false := rfl
  have d2 : s.Deactivate.ICs_.cmd_valid_ = false := rfl
  refine ⟨rfl, fun now m => ?_, fun ticks1 ticks2 g cmd now m hok => ?_⟩
  · rw [LineTrackerTrapezoid.update_inactive sqrt now _ m d1]
    obtain ⟨v1, -, v3⟩ := FlatState.set_from_odom_valid s.Deactivate.ICs_ m
    exact ⟨rfl, (v3 d2).1, (v3 d2).2, v1.trans d2⟩
  · obtain ⟨a1, -, a3, a4⟩ := LineTrackerTrapezoid.updates_inactive sqrt s.Deactivate ticks1 d1
    have b1 : ((s.Deactivate.updates sqrt ticks1).1.goal_callback g).active_ = false := by
      simp only [LineTrackerTrapezoid.goal_callback]
      split_ifs <;> exact a1
    have b2 : ((s.Deactivate.updates sqrt ticks1).1.goal_callback g).goal_set_ = true := by
      simp only [LineTrackerTrapezoid.goal_callback]
    have b3 : ((s.Deactivate.updates sqrt ticks1).1.goal_callback g).ICs_.cmd_valid_ = false := by
      have e : ((s.Deactivate.updates sqrt ticks1).1.goal_callback g).ICs_ =
          (s.Deactivate.updates sqrt ticks1).1.ICs_ := by
        simp only [LineTrackerTrapezoid.goal_callback]
        split_ifs <;> rfl
      rw [e]
      exact a3.trans d2
    obtain ⟨c1, c2, c3, c4⟩ := LineTrackerTrapezoid.updates_inactive sqrt
      ((s.Deactivate.updates sqrt ticks1).1.goal_callback g) ticks2 b1
    have e1 : ((((s.Deactivate.updates sqrt ticks1).1.goal_callback g).updates sqrt
        ticks2).1.Activate cmd).1.active_ = true := by
      simpa [LineTrackerTrapezoid.Activate] using hok
    have e2 : ((((s.Deactivate.updates sqrt ticks1).1.goal_callback g).updates sqrt
        ticks2).1.Activate cmd).1.goal_set_ = true := by
      simp only [LineTrackerTrapezoid.Activate]
      split_ifs <;> exact c2.trans b2
    have e3 : ((((s.Deactivate.updates sqrt ticks1).1.goal_callback g).updates sqrt
        ticks2).1.Activate cmd).1.ICs_.cmd_valid_ = false := by
      simp only [LineTrackerTrapezoid.Activate]
      split_ifs <;> exact c3.trans b3
    obtain ⟨-, -, q3⟩ := LineTrackerTrapezoid.update_planned sqrt now _ m e1 e2
    refine ⟨?_, LineTrackerTrapezoid.update_returns sqrt now _ m e1, a4, c4⟩
    rw [q3]
    exact ((FlatState.set_from_odom_valid _ m).2.2 e3).1

end Deactivation

section Range
variable {F : Type} [LinearOrderedField F]

/-- From the plan start on, the distance travelled stays between zero and the total
distance. -/
theorem profileDist_range (a ta tc d : F) (ha : 0 < a) (hta : 0 ≤ ta) (htc : 0 ≤ tc)
    (hd : d = a * ta * (ta + tc)) (x : F) (hx : 0 ≤ x) :
    0 ≤ profileDist a ta tc d x ∧ profileDist a ta tc d x ≤ d := by
  have h0 : profileDist a ta tc d 0 = 0 := by
    rw [profileDist_accel a ta tc d 0 hta]
    ring
  obtain ⟨m1, -⟩ := profileDist_monoLip a ta tc d ha hta htc hd 0 x le_rfl hx
  obtain ⟨m2, -⟩ := profileDist_monoLip a ta tc d ha hta htc hd x (max x (ta + tc + ta)) hx
    (le_max_left _ _)
  rw [profileDist_reached a ta tc d _ hta htc hd (le_max_right _ _)] at m2
  rw [h0] at m1
  constructor <;> linarith

end Range

section Replan

/-- The planning tick of an active tracker with positive cruise parameters emits the
profile's start, which is FlatState's cached position after ingesting the measurement. -/
theorem LineTrackerTrapezoid.update_planning_position (s : LineTrackerTrapezoid ℝ)
    (hact : s.active_ = true) (hgs : s.goal_set_ = true) (hv : 0 < s.v_des_)
    (ha : 0 < s.a_des_) (now : ℝ) (msg : Odometry ℝ) :
    ∃ c : PositionCommand ℝ, (s.update Real.sqrt now msg).2 = some c ∧
      c.position = (s.ICs_.set_from_odom msg).pos_ := by
  obtain ⟨q1, q2, q3⟩ := LineTrackerTrapezoid.update_planned Real.sqrt now s msg hact hgs
  obtain ⟨-, -, g3, g4, -⟩ := LineTrackerTrapezoid.update_frame Real.sqrt now s msg
  obtain ⟨d1, -, -, -, -, -⟩ :=
    LineTrackerTrapezoid.Planned.durations _ q1 (g3 ▸ hv) (g4 ▸ ha)
  obtain ⟨c, e1, -, -, -, e5⟩ := LineTrackerTrapezoid.update_emits s now msg hact
  obtain ⟨k1, -⟩ := e5 (Or.inl hgs)
  refine ⟨c, e1, ?_⟩
  rw [k1, q2, sub_self, profileDist_accel _ _ _ _ 0 d1, q3]
  have e : (s.update Real.sqrt now msg).1.a_des_ * (0 : ℝ) ^ 2 / 2 = 0 := by ring
  rw [e, Vec3.zero_smul, Vec3.add_zero_right]

/-- C18, as amended (command continuity across a replan): on a reachable active tracker
whose FlatState is valid, with a pending goal and positive stored cruise speed and
acceleration, the planning tick emits exactly the position of the command most recently
returned by `update`, whatever the measurement and the new goal. -/
theorem C18_replan_continuity (s : LineTrackerTrapezoid ℝ)
    (last : Option (PositionCommand ℝ))
    (hr : LineTrackerTrapezoid.ReachableEmitting Real.sqrt s last) (hact : s.active_ = true)
    (hvalid : s.ICs_.cmd_valid_ = true) (hgs : s.goal_set_ = true) (hv : 0 < s.v_des_)
    (ha : 0 < s.a_des_) (now : ℝ) (msg : Odometry ℝ) :
    ∃ c0 c : PositionCommand ℝ, last = some c0 ∧
      (s.update Real.sqrt now msg).2 = some c ∧ c.position = c0.position := by
  obtain ⟨c0, h0, hi⟩ := LineTrackerTrapezoid.ReachableEmitting.feedback Real.sqrt s last hr hvalid
  obtain ⟨c, h1, h2⟩ := LineTrackerTrapezoid.update_planning_position s hact hgs hv ha now msg
  refine ⟨c0, c, h0, h1, ?_⟩
  rw [h2, (FlatState.set_from_odom_valid s.ICs_ msg).2.1 hvalid, hi]

end Replan

section NoOvershoot

/-- C20 (no overshoot): for a reachable active tracker with positive cruise parameters
and two consecutive ticks with non-decreasing stamps, the earlier one planning the
pending goal or coming no earlier than the start of the planned profile, both emitted
positions lie on the segment from the profile's start to the goal, at parameters
`0 ≤ s1 ≤ s2 ≤ d` along the unit direction: the command never moves backwards and never
passes the goal. Outside the hold state the parameter is the scalar profile
`profileDist` at the elapsed time. -/
theorem C20_no_overshoot (s : LineTrackerTrapezoid ℝ)
    (hr : LineTrackerTrapezoid.Reachable Real.sqrt s) (hact : s.active_ = true)
    (hv : 0 < s.v_des_) (ha : 0 < s.a_des_) (now1 now2 : ℝ) (m1 m2 : Odometry ℝ)
    (hplan : s.goal_set_ = false → s.traj_start_ ≤ m1.header.stamp)
    (h12 : m1.header.stamp ≤ m2.header.stamp) :
    ∃ (c1 c2 : PositionCommand ℝ) (s1 s2 : ℝ),
      (s.update Real.sqrt now1 m1).2 = some c1 ∧
      ((s.update Real.sqrt now1 m1).1.update Real.sqrt now2 m2).2 = some c2 ∧
      c1.position = (s.update Real.sqrt now1 m1).1.start_pos_ +
        s1 * ((s.update Real.sqrt now1 m1).1.goal_ -
          (s.update Real.sqrt now1 m1).1.start_pos_).normalized Real.sqrt ∧
      c2.position = (s.update Real.sqrt now1 m1).1.start_pos_ +
        s2 * ((s.update Real.sqrt now1 m1).1.goal_ -
          (s.update Real.sqrt now1 m1).1.start_pos_).normalized Real.sqrt ∧
      0 ≤ s1 ∧ s1 ≤ s2 ∧
      s2 ≤ ((s.update Real.sqrt now1 m1).1.goal_ -
        (s.update Real.sqrt now1 m1).1.start_pos_).norm Real.sqrt ∧
      (s.update Real.sqrt now1 m1).1.start_pos_ +
        ((s.update Real.sqrt now1 m1).1.goal_ -
          (s.update Real.sqrt now1 m1).1.start_pos_).norm Real.sqrt *
        ((s.update Real.sqrt now1 m1).1.goal_ -
          (s.update Real.sqrt now1 m1).1.start_pos_).normalized Real.sqrt = s.goal_ ∧
      (s.goal_set_ = true ∨ s.goal_reached_ = false →
        s1 = profileDist (s.update Real.sqrt now1 m1).1.a_des_
          (s.update Real.sqrt now1 m1).1.t_accel_ (s.update Real.sqrt now1 m1).1.t_constant_
          (((s.update Real.sqrt now1 m1).1.goal_ -
            (s.update Real.sqrt now1 m1).1.start_pos_).norm Real.sqrt)
          (m1.header.stamp - (s.update Real.sqrt now1 m1).1.traj_start_)) := by
  obtain ⟨i1, i2⟩ := LineTrackerTrapezoid.Reachable.invariant Real.sqrt s hr
  obtain ⟨r1, r2, r3, r4, r5, r6, r7⟩ :=
    LineTrackerTrapezoid.update_ready s now1 m1 hact (fun h => ⟨i2 hact h, hplan h⟩)
  obtain ⟨c1, e1, -, -, e4, e5⟩ := LineTrackerTrapezoid.update_emits s now1 m1 hact
  obtain ⟨c2, f1, -, -, f4, f5⟩ :=
    LineTrackerTrapezoid.update_emits (s.update Real.sqrt now1 m1).1 now2 m2 r1
  obtain ⟨-, g2, -, g4, -⟩ :=
    LineTrackerTrapezoid.update_frame Real.sqrt now2 (s.update Real.sqrt now1 m1).1 m2
  obtain ⟨-, p2, -, p4, p5, p6⟩ :=
    LineTrackerTrapezoid.update_frame_profile Real.sqrt now2 (s.update Real.sqrt now1 m1).1 m2 r2
  rw [g2, g4, p2, p4, p5, p6] at f5
  obtain ⟨d1, d2, d3, -, -, -⟩ :=
    LineTrackerTrapezoid.Planned.durations _ r3 (r6 ▸ hv) (r7 ▸ ha)
  have ha1 : 0 < (s.update Real.sqrt now1 m1).1.a_des_ := r7 ▸ ha
  have hd0 := Vec3.norm_nonneg ((s.update Real.sqrt now1 m1).1.goal_ -
    (s.update Real.sqrt now1 m1).1.start_pos_)
  have hseg := Vec3.start_add_norm_mul_normalized (s.update Real.sqrt now1 m1).1.start_pos_
    (s.update Real.sqrt now1 m1).1.goal_
  have ht1 : 0 ≤ m1.header.stamp - (s.update Real.sqrt now1 m1).1.traj_start_ :=
    sub_nonneg.mpr r4
  have ht2 : 0 ≤ m2.header.stamp - (s.update Real.sqrt now1 m1).1.traj_start_ := by linarith
  by_cases hh : s.goal_set_ = false ∧ s.goal_reached_ = true
  · -- both ticks hold the goal
    obtain ⟨k1, -, -, k4⟩ := e4 hh.1 hh.2
    obtain ⟨l1, -, -, -⟩ := f4 r2 k4
    refine ⟨c1, c2, _, _, e1, f1, by rw [k1, hseg, r5], by rw [l1, hseg], hd0, le_rfl, le_rfl,
      hseg.trans r5, fun h => ?_⟩
    rcases h with h | h
    · exact absurd (h.symm.trans hh.1) (by simp)
    · exact absurd (h.symm.trans hh.2) (by simp)
  · have hh' : s.goal_set_ = true ∨ s.goal_reached_ = false := by
      rcases Bool.eq_false_or_eq_true s.goal_set_ with h | h
      · exact Or.inl h
      · rcases Bool.eq_false_or_eq_true s.goal_reached_ with k | k
        · exact absurd ⟨h, k⟩ hh
        · exact Or.inr k
    obtain ⟨k1, -, -, -, -⟩ := e5 hh'
    obtain ⟨n1, n2⟩ := profileDist_range (s.update Real.sqrt now1 m1).1.a_des_
      (s.update Real.sqrt now1 m1).1.t_accel_ (s.update Real.sqrt now1 m1).1.t_constant_
      (((s.update Real.sqrt now1 m1).1.goal_ -
        (s.update Real.sqrt now1 m1).1.start_pos_).norm Real.sqrt) ha1 d1 d2 d3.symm
      (m1.header.stamp - (s.update Real.sqrt now1 m1).1.traj_start_) ht1
    rcases Bool.eq_false_or_eq_true (s.update Real.sqrt now1 m1).1.goal_reached_ with hr1 | hr1
    · -- the later tick holds the goal
      obtain ⟨l1, -, -, -⟩ := f4 r2 hr1
      exact ⟨c1, c2, _, _, e1, f1, k1, by rw [l1, hseg], n1, n2, le_rfl, hseg.trans r5,
        fun _ => rfl⟩
    · -- both positions are on the profile
      obtain ⟨l1, -, -, -, -⟩ := f5 (Or.inr hr1)
      obtain ⟨o1, o2⟩ := profileDist_range (s.update Real.sqrt now1 m1).1.a_des_
        (s.update Real.sqrt now1 m1).1.t_accel_ (s.update Real.sqrt now1 m1).1.t_constant_
        (((s.update Real.sqrt now1 m1).1.goal_ -
          (s.update Real.sqrt now1 m1).1.start_pos_).norm Real.sqrt) ha1 d1 d2 d3.symm
        (m2.header.stamp - (s.update Real.sqrt now1 m1).1.traj_start_) ht2
      obtain ⟨mono, -⟩ := profileDist_monoLip (s.update Real.sqrt now1 m1).1.a_des_
        (s.update Real.sqrt now1 m1).1.t_accel_ (s.update Real.sqrt now1 m1).1.t_constant_
        (((s.update Real.sqrt now1 m1).1.goal_ -
          (s.update Real.sqrt now1 m1).1.start_pos_).norm Real.sqrt) ha1 d1 d2 d3.symm
        (m1.header.stamp - (s.update Real.sqrt now1 m1).1.traj_start_)
        (m2.header.stamp - (s.update Real.sqrt now1 m1).1.traj_start_) ht1 (by linarith)
      exact ⟨c1, c2, _, _, e1, f1, k1, l1, n1, by linarith, o2, hseg.trans r5, fun _ => rfl⟩

end NoOvershoot

section GoalFrame
variable {F : Type} [LinearOrderedField F]

/-- What `goal_callback` leaves alone. -/
theorem LineTrackerTrapezoid.goal_callback_frame (s : LineTrackerTrapezoid F)
    (msg : LineTrackerGoal F) :
    (s.goal_callback msg).ICs_ = s.ICs_ ∧
    (s.goal_callback msg).active_ = s.active_ ∧
    (s.goal_callback msg).goal_set_ = true ∧
    (s.goal_callback msg).goal_reached_ = false := by
  simp only [LineTrackerTrapezoid.goal_callback]
  split_ifs <;> simp

/-- No `update` call changes the configured defaults. -/
theorem LineTrackerTrapezoid.update_frame_defaults (sqrt : F → F) (now : F)
    (s : LineTrackerTrapezoid F) (msg : Odometry F) :
    (s.update sqrt now msg).1.default_v_des_ = s.default_v_des_ ∧
    (s.update sqrt now msg).1.default_a_des_ = s.default_a_des_ := by
  simp only [LineTrackerTrapezoid.update, LineTrackerTrapezoid.update_profile]
  split_ifs <;> simp

end GoalFrame

/-! ## The later theorems at concrete inputs -/

section Instances2

theorem sampleZeroPending_facts :
    (sampleZeroPending Real.sqrt : LineTrackerTrapezoid ℝ).active_ = true ∧
    (sampleZeroPending Real.sqrt : LineTrackerTrapezoid ℝ).goal_set_ = true ∧
    (sampleZeroPending Real.sqrt : LineTrackerTrapezoid ℝ).goal_reached_ = false ∧
    (sampleZeroPending Real.sqrt : LineTrackerTrapezoid ℝ).v_des_ = 2 ∧
    (sampleZeroPending Real.sqrt : LineTrackerTrapezoid ℝ).a_des_ = 1 ∧
    (sampleZeroPending Real.sqrt : LineTrackerTrapezoid ℝ).goal_ = ⟨0, 0, 0⟩ ∧
    (sampleZeroPending Real.sqrt : LineTrackerTrapezoid ℝ).ICs_.cmd_valid_ = false := by
  simp [sampleZeroPending, goalAbs, noParams, LineTrackerTrapezoid.Activate,
    LineTrackerTrapezoid.goal_callback, LineTrackerTrapezoid.update,
    LineTrackerTrapezoid.Initialize, LineTrackerTrapezoid.ctor, FlatState.ctor,
    FlatState.set_from_odom]

theorem sampleNegSpeedPending_facts :
    (sampleNegSpeedPending Real.sqrt : LineTrackerTrapezoid ℝ).active_ = true ∧
    (sampleNegSpeedPending Real.sqrt : LineTrackerTrapezoid ℝ).goal_set_ = true ∧
    (sampleNegSpeedPending Real.sqrt : LineTrackerTrapezoid ℝ).v_des_ = 2 ∧
    (sampleNegSpeedPending Real.sqrt : LineTrackerTrapezoid ℝ).a_des_ = 1 ∧
    (sampleNegSpeedPending Real.sqrt : LineTrackerTrapezoid ℝ).default_v_des_ = -1 ∧
    (sampleNegSpeedPending Real.sqrt : LineTrackerTrapezoid ℝ).ICs_.cmd_valid_ = false := by
  simp [sampleNegSpeedPending, goalAbs, noParams, negSpeedParams, param,
    LineTrackerTrapezoid.Activate,
    LineTrackerTrapezoid.goal_callback, LineTrackerTrapezoid.update,
    LineTrackerTrapezoid.Initialize, LineTrackerTrapezoid.ctor, FlatState.ctor,
    FlatState.set_from_odom]

/-- C12 at the tracker `sampleZeroPending`, planned at stamp 100 at the origin. -/
theorem C12_zero_distance_witness :
    ((sampleZeroPending Real.sqrt : LineTrackerTrapezoid ℝ).active_ = true ∧
      (sampleZeroPending Real.sqrt : LineTrackerTrapezoid ℝ).goal_set_ = true ∧
      0 < (sampleZeroPending Real.sqrt : LineTrackerTrapezoid ℝ).v_des_ ∧
      0 < (sampleZeroPending Real.sqrt : LineTrackerTrapezoid ℝ).a_des_ ∧
      (sampleZeroPending Real.sqrt : LineTrackerTrapezoid ℝ).goal_ =
        ((sampleZeroPending Real.sqrt : LineTrackerTrapezoid ℝ).ICs_.set_from_odom
          (odomAt 100 0)).pos_) ∧
    ((sampleZeroPending Real.sqrt : LineTrackerTrapezoid ℝ).update Real.sqrt 0
      (odomAt 100 0)).1.t_accel_ = 0 ∧
    ((sampleZeroPending Real.sqrt : LineTrackerTrapezoid ℝ).update Real.sqrt 0
      (odomAt 100 0)).1.t_constant_ = 0 := by
  obtain ⟨f1, f2, -, f4, f5, f6, f7⟩ := sampleZeroPending_facts
  have hv : 0 < (sampleZeroPending Real.sqrt : LineTrackerTrapezoid ℝ).v_des_ := by
    rw [f4]
    norm_num
  have ha : 0 < (sampleZeroPending Real.sqrt : LineTrackerTrapezoid ℝ).a_des_ := by
    rw [f5]
    norm_num
  have hz : (sampleZeroPending Real.sqrt : LineTrackerTrapezoid ℝ).goal_ =
      ((sampleZeroPending Real.sqrt : LineTrackerTrapezoid ℝ).ICs_.set_from_odom
        (odomAt 100 0)).pos_ := by
    rw [f6]
    simp only [FlatState.set_from_odom, f7, Bool.not_false, if_true]
    rfl
  have h := C12_zero_distance (sampleZeroPending Real.sqrt) f1 f2 hv ha 0 (odomAt 100 0) hz
  exact ⟨⟨f1, f2, hv, ha, hz⟩, h.1, h.2.1⟩

/-- C12 fails as stated: the tracker `sampleZeroPending` has the goal (0,0,0) pending
with the vehicle and FlatState at (0,0,0); its planning tick (stamp 100) leaves the
goal-reached flag false, so the status right after it is ACTIVE, not SUCCEEDED. -/
theorem C12_counterexample :
    (sampleZeroPending Real.sqrt : LineTrackerTrapezoid ℝ).goal_ =
      ((sampleZeroPending Real.sqrt : LineTrackerTrapezoid ℝ).ICs_.set_from_odom
        (odomAt 100 0)).pos_ ∧
    ((sampleZeroPending Real.sqrt : LineTrackerTrapezoid ℝ).update Real.sqrt 0
      (odomAt 100 0)).1.goal_reached_ = false ∧
    ((sampleZeroPending Real.sqrt : LineTrackerTrapezoid ℝ).update Real.sqrt 0
      (odomAt 100 0)).1.status = some ⟨StatusCode.ACTIVE⟩ ∧
    ((sampleZeroPending Real.sqrt : LineTrackerTrapezoid ℝ).update Real.sqrt 0
      (odomAt 100 0)).1.status ≠ some ⟨StatusCode.SUCCEEDED⟩ := by
  obtain ⟨f1, f2, f3, -, f5, f6, f7⟩ := sampleZeroPending_facts
  have ha : 0 < (sampleZeroPending Real.sqrt : LineTrackerTrapezoid ℝ).a_des_ := by
    rw [f5]
    norm_num
  have hz : (sampleZeroPending Real.sqrt : LineTrackerTrapezoid ℝ).goal_ =
      ((sampleZeroPending Real.sqrt : LineTrackerTrapezoid ℝ).ICs_.set_from_odom
        (odomAt 100 0)).pos_ := by
    rw [f6]
    simp only [FlatState.set_from_odom, f7, Bool.not_false, if_true]
    rfl
  obtain ⟨-, -, hgr, -⟩ := LineTrackerTrapezoid.update_zero_distance
    (sampleZeroPending Real.sqrt) f1 f2 ha 0 (odomAt 100 0) hz
  obtain ⟨g1, -⟩ := LineTrackerTrapezoid.update_frame Real.sqrt 0
    (sampleZeroPending Real.sqrt) (odomAt 100 0)
  have hst : ((sampleZeroPending Real.sqrt : LineTrackerTrapezoid ℝ).update Real.sqrt 0
      (odomAt 100 0)).1.status = some ⟨StatusCode.ACTIVE⟩ := by
    simp [LineTrackerTrapezoid.status, g1.trans f1, hgr.trans f3]
  refine ⟨hz, hgr.trans f3, hst, ?_⟩
  rw [hst]
  simp

/-- C17, as amended, at the tracker `samplePending` and a planning tick stamped 100. -/
theorem C17_durations_witness :
    ((samplePending Real.sqrt : LineTrackerTrapezoid ℝ).active_ = true ∧
      (samplePending Real.sqrt : LineTrackerTrapezoid ℝ).goal_set_ = true ∧
      0 < (samplePending Real.sqrt : LineTrackerTrapezoid ℝ).v_des_ ∧
      0 < (samplePending Real.sqrt : LineTrackerTrapezoid ℝ).a_des_) ∧
    0 ≤ ((samplePending Real.sqrt : LineTrackerTrapezoid ℝ).update Real.sqrt 0
      (odomAt 100 0)).1.t_accel_ ∧
    0 ≤ ((samplePending Real.sqrt : LineTrackerTrapezoid ℝ).update Real.sqrt 0
      (odomAt 100 0)).1.t_constant_ := by
  obtain ⟨f1, f2, -, f4, f5, -, -⟩ := samplePending_facts
  have hv : 0 < (samplePending Real.sqrt : LineTrackerTrapezoid ℝ).v_des_ := by
    rw [f4]
    norm_num
  have ha : 0 < (samplePending Real.sqrt : LineTrackerTrapezoid ℝ).a_des_ := by
    rw [f5]
    norm_num
  have h := C17_durations (samplePending Real.sqrt) f1 f2 hv ha 0 (odomAt 100 0)
  exact ⟨⟨f1, f2, hv, ha⟩, h.1, h.2.1⟩

/-- The `float` operations of lines 119-122 at `negCruiseSpeed`, `negCruiseAccel` and
`negCruiseDist` return correctly rounded values: each result has a 24-bit mantissa and
lies within less than half a unit in the last place of the exact result of the
operation on its arguments. -/
theorem negCruise_correctly_rounded :
    Binary32.mul negCruiseSpeed negCruiseSpeed = ⟨8729543, -19⟩ ∧
    |(Binary32.mul negCruiseSpeed negCruiseSpeed).toRat -
      negCruiseSpeed.toRat * negCruiseSpeed.toRat| < 1 / 2 ^ 20 ∧
    Binary32.div ⟨8729543, -19⟩ negCruiseAccel = ⟨14915685, -22⟩ ∧
    |(Binary32.div ⟨8729543, -19⟩ negCruiseAccel).toRat -
      (⟨8729543, -19⟩ : Binary32).toRat / negCruiseAccel.toRat| < 1 / 2 ^ 23 ∧
    Binary32.div negCruiseSpeed negCruiseAccel = ⟨14621517, -24⟩ ∧
    |(Binary32.div negCruiseSpeed negCruiseAccel).toRat -
      negCruiseSpeed.toRat / negCruiseAccel.toRat| < 1 / 2 ^ 25 ∧
    Binary32.div negCruiseDist negCruiseSpeed = ⟨14621516, -24⟩ ∧
    |(Binary32.div negCruiseDist negCruiseSpeed).toRat -
      negCruiseDist.toRat / negCruiseSpeed.toRat| < 1 / 2 ^ 25 ∧
    Binary32.sub ⟨14621516, -24⟩ ⟨14621517, -24⟩ = ⟨-1, -24⟩ ∧
    (Binary32.sub ⟨14621516, -24⟩ ⟨14621517, -24⟩).toRat =
      (⟨14621516, -24⟩ : Binary32).toRat - (⟨14621517, -24⟩ : Binary32).toRat := by
  have e1 : Binary32.mul negCruiseSpeed negCruiseSpeed = ⟨8729543, -19⟩ := by decide
  have e2 : Binary32.div ⟨8729543, -19⟩ negCruiseAccel = ⟨14915685, -22⟩ := by decide
  have e3 : Binary32.div negCruiseSpeed negCruiseAccel = ⟨14621517, -24⟩ := by decide
  have e4 : Binary32.div negCruiseDist negCruiseSpeed = ⟨14621516, -24⟩ := by decide
  have e5 : Binary32.sub ⟨14621516, -24⟩ ⟨14621517, -24⟩ = ⟨-1, -24⟩ := by decide
  rw [e1, e2, e3, e4, e5]
  refine ⟨rfl, ?_, rfl, ?_, rfl, ?_, rfl, ?_, rfl, ?_⟩ <;>
    norm_num [Binary32.toRat, negCruiseSpeed, negCruiseAccel, negCruiseDist, abs_lt]

/-- The `float` operations of lines 119-122 at `zeroCruiseSpeed`, `zeroCruiseAccel` and
`zeroCruiseDist` return correctly rounded values. -/
theorem zeroCruise_correctly_rounded :
    Binary32.mul zeroCruiseSpeed zeroCruiseSpeed = ⟨16441671, -25⟩ ∧
    |(Binary32.mul zeroCruiseSpeed zeroCruiseSpeed).toRat -
      zeroCruiseSpeed.toRat * zeroCruiseSpeed.toRat| < 1 / 2 ^ 26 ∧
    Binary32.div ⟨16441671, -25⟩ zeroCruiseAccel = ⟨13701392, -23⟩ ∧
    |(Binary32.div ⟨16441671, -25⟩ zeroCruiseAccel).toRat -
      (⟨16441671, -25⟩ : Binary32).toRat / zeroCruiseAccel.toRat| < 1 / 2 ^ 24 ∧
    Binary32.div zeroCruiseSpeed zeroCruiseAccel = ⟨9786709, -22⟩ ∧
    |(Binary32.div zeroCruiseSpeed zeroCruiseAccel).toRat -
      zeroCruiseSpeed.toRat / zeroCruiseAccel.toRat| < 1 / 2 ^ 23 ∧
    Binary32.div zeroCruiseDist zeroCruiseSpeed = ⟨9786709, -22⟩ ∧
    |(Binary32.div zeroCruiseDist zeroCruiseSpeed).toRat -
      zeroCruiseDist.toRat / zeroCruiseSpeed.toRat| < 1 / 2 ^ 23 ∧
    Binary32.sub ⟨9786709, -22⟩ ⟨9786709, -22⟩ = ⟨0, -22⟩ := by
  have e1 : Binary32.mul zeroCruiseSpeed zeroCruiseSpeed = ⟨16441671, -25⟩ := by decide
  have e2 : Binary32.div ⟨16441671, -25⟩ zeroCruiseAccel = ⟨13701392, -23⟩ := by decide
  have e3 : Binary32.div zeroCruiseSpeed zeroCruiseAccel = ⟨9786709, -22⟩ := by decide
  have e4 : Binary32.div zeroCruiseDist zeroCruiseSpeed = ⟨9786709, -22⟩ := by decide
  have e5 : Binary32.sub ⟨9786709, -22⟩ ⟨9786709, -22⟩ = ⟨0, -22⟩ := by decide
  rw [e1, e2, e3, e4, e5]
  refine ⟨rfl, ?_, rfl, ?_, rfl, ?_, rfl, ?_, rfl⟩ <;>
    norm_num [Binary32.toRat, zeroCruiseSpeed, zeroCruiseAccel, zeroCruiseDist, abs_lt]

/-- C17 fails as stated, in the code's own `float` arithmetic (lines 119-123).
With `v_des_ = 4.0804758`, `a_des_ = 4.6820741` and `total_dist = 3.5561767` (the goal
(3.5561767, 0, 0) seen from the origin) the test of line 119 succeeds,
`total_dist/v_des_` rounds to one unit in the last place below `v_des_/a_des_`, and line
122 stores `t_constant_ = -2^-24`, a negative duration. With `v_des_ = 0.7`,
`a_des_ = 0.3` and `total_dist = 1.6333333`, which exceeds `v_des_^2/a_des_` both exactly
and as line 119 computes it, line 122 stores `t_constant_ = 0`. -/
theorem C17_counterexample :
    (0 < negCruiseSpeed.toRat ∧ 0 < negCruiseAccel.toRat ∧ 0 ≤ negCruiseDist.toRat) ∧
    (Binary32.sqrt (Binary32.mul negCruiseDist negCruiseDist)).toRat = negCruiseDist.toRat ∧
    Binary32.mul negCruiseSpeed negCruiseSpeed = ⟨8729543, -19⟩ ∧
    Binary32.div (Binary32.mul negCruiseSpeed negCruiseSpeed) negCruiseAccel =
      ⟨14915685, -22⟩ ∧
    Binary32.gt negCruiseDist
      (Binary32.div (Binary32.mul negCruiseSpeed negCruiseSpeed) negCruiseAccel) = true ∧
    Binary32.div negCruiseSpeed negCruiseAccel = ⟨14621517, -24⟩ ∧
    Binary32.div negCruiseDist negCruiseSpeed = ⟨14621516, -24⟩ ∧
    update_durations32 negCruiseDist negCruiseSpeed negCruiseAccel =
      (⟨14621517, -24⟩, ⟨-1, -24⟩) ∧
    (update_durations32 negCruiseDist negCruiseSpeed negCruiseAccel).2.toRat =
      -(1 / 16777216) ∧
    ¬ 0 ≤ (update_durations32 negCruiseDist negCruiseSpeed negCruiseAccel).2.toRat ∧
    (0 < zeroCruiseSpeed.toRat ∧ 0 < zeroCruiseAccel.toRat ∧ 0 ≤ zeroCruiseDist.toRat) ∧
    (Binary32.sqrt (Binary32.mul zeroCruiseDist zeroCruiseDist)).toRat =
      zeroCruiseDist.toRat ∧
    zeroCruiseDist.toRat > zeroCruiseSpeed.toRat ^ 2 / zeroCruiseAccel.toRat ∧
    Binary32.gt zeroCruiseDist
      (Binary32.div (Binary32.mul zeroCruiseSpeed zeroCruiseSpeed) zeroCruiseAccel) = true ∧
    update_durations32 zeroCruiseDist zeroCruiseSpeed zeroCruiseAccel =
      (⟨9786709, -22⟩, ⟨0, -22⟩) ∧
    (update_durations32 zeroCruiseDist zeroCruiseSpeed zeroCruiseAccel).2.toRat = 0 ∧
    ¬ 0 < (update_durations32 zeroCruiseDist zeroCruiseSpeed zeroCruiseAccel).2.toRat := by
  have e1 : update_durations32 negCruiseDist negCruiseSpeed negCruiseAccel =
      (⟨14621517, -24⟩, ⟨-1, -24⟩) := by decide
  have e2 : update_durations32 zeroCruiseDist zeroCruiseSpeed zeroCruiseAccel =
      (⟨9786709, -22⟩, ⟨0, -22⟩) := by decide
  have m1 : Binary32.mul negCruiseDist negCruiseDist = ⟨13260704, -20⟩ := by decide
  have m2 : Binary32.mul zeroCruiseDist zeroCruiseDist = ⟨11189471, -22⟩ := by decide
  have t1 : Int.toNat 13260704 = 13260704 := rfl
  have t2 : Int.toNat 11189471 = 11189471 := rfl
  have s1 : Binary32.sqrt ⟨13260704, -20⟩ = ⟨14915686, -22⟩ := by
    unfold Binary32.sqrt
    norm_num [t1]
    decide
  have s2 : Binary32.sqrt ⟨11189471, -22⟩ = ⟨13701393, -23⟩ := by
    unfold Binary32.sqrt
    norm_num [t2]
    decide
  refine ⟨⟨?_, ?_, ?_⟩, ?_, by decide, by decide, by decide, by decide, by decide, e1, ?_, ?_,
    ⟨?_, ?_, ?_⟩, ?_, ?_, by decide, e2, ?_, ?_⟩
  · norm_num [Binary32.toRat, negCruiseSpeed]
  · norm_num [Binary32.toRat, negCruiseAccel]
  · norm_num [Binary32.toRat, negCruiseDist]
  · rw [m1, s1]
    norm_num [Binary32.toRat, negCruiseDist]
  · rw [e1]
    norm_num [Binary32.toRat]
  · rw [e1]
    norm_num [Binary32.toRat]
  · norm_num [Binary32.toRat, zeroCruiseSpeed]
  · norm_num [Binary32.toRat, zeroCruiseAccel]
  · norm_num [Binary32.toRat, zeroCruiseDist]
  · rw [m2, s2]
    norm_num [Binary32.toRat, zeroCruiseDist]
  · norm_num [Binary32.toRat, zeroCruiseSpeed, zeroCruiseAccel, zeroCruiseDist]
  · rw [e2]
    norm_num [Binary32.toRat]
  · rw [e2]
    norm_num [Binary32.toRat]

theorem sampleReplan_facts :
    (sampleReplan Real.sqrt : LineTrackerTrapezoid ℝ).active_ = true ∧
    (sampleReplan Real.sqrt : LineTrackerTrapezoid ℝ).ICs_.cmd_valid_ = true ∧
    (sampleReplan Real.sqrt : LineTrackerTrapezoid ℝ).goal_set_ = true ∧
    (sampleReplan Real.sqrt : LineTrackerTrapezoid ℝ).v_des_ = 2 ∧
    (sampleReplan Real.sqrt : LineTrackerTrapezoid ℝ).a_des_ = 1 := by
  obtain ⟨f1, -⟩ := sampleTracking_facts
  obtain ⟨g1, g2, g3, -⟩ :=
    LineTrackerTrapezoid.goal_callback_frame (sampleTracking Real.sqrt) (goalAbs 20 0 0 2 1)
  obtain ⟨c, -, e2, -⟩ := LineTrackerTrapezoid.update_emits (samplePending Real.sqrt) 0
    (odomAt 100 0) samplePending_facts.1
  refine ⟨g2.trans f1, ?_, g3, ?_, ?_⟩
  · show ((sampleTracking Real.sqrt).goal_callback (goalAbs 20 0 0 2 1)).ICs_.cmd_valid_ = true
    rw [g1]
    exact e2
  · simp [sampleReplan, goalAbs, LineTrackerTrapezoid.goal_callback]
  · simp [sampleReplan, goalAbs, LineTrackerTrapezoid.goal_callback]

/-- C18, as amended, at the tracker `sampleReplan` and a tick whose measurement is away
from the commanded position. -/
theorem C18_replan_continuity_witness :
    ((sampleReplan Real.sqrt : LineTrackerTrapezoid ℝ).active_ = true ∧
      (sampleReplan Real.sqrt : LineTrackerTrapezoid ℝ).ICs_.cmd_valid_ = true ∧
      (sampleReplan Real.sqrt : LineTrackerTrapezoid ℝ).goal_set_ = true) ∧
    ∃ (last : Option (PositionCommand ℝ)) (c0 c : PositionCommand ℝ),
      LineTrackerTrapezoid.ReachableEmitting Real.sqrt (sampleReplan Real.sqrt) last ∧
      last = some c0 ∧
      ((sampleReplan Real.sqrt : LineTrackerTrapezoid ℝ).update Real.sqrt 0
        (odomAt 101 ⟨3, 3, 3⟩)).2 = some c ∧
      c.position = c0.position := by
  obtain ⟨f1, f2, f3, f4, f5⟩ := sampleReplan_facts
  obtain ⟨last, hl⟩ := LineTrackerTrapezoid.Reachable.emitting Real.sqrt
    (sampleReplan Real.sqrt)
    (LineTrackerTrapezoid.Reachable.goal_callback _ sampleTracking_reachable)
  obtain ⟨c0, c, h1, h2, h3⟩ := C18_replan_continuity (sampleReplan Real.sqrt) last hl f1 f2 f3
    (by rw [f4]; norm_num) (by rw [f5]; norm_num) 0 (odomAt 101 ⟨3, 3, 3⟩)
  exact ⟨⟨f1, f2, f3⟩, last, c0, c, hl, h1, h2, h3⟩

/-- C20 at the tracker `sampleTracking` (plan start 100) and ticks stamped 101 and 102. -/
theorem C20_no_overshoot_witness :
    (LineTrackerTrapezoid.Reachable Real.sqrt (sampleTracking Real.sqrt : LineTrackerTrapezoid ℝ) ∧
      (sampleTracking Real.sqrt : LineTrackerTrapezoid ℝ).active_ = true ∧
      (sampleTracking Real.sqrt : LineTrackerTrapezoid ℝ).traj_start_ ≤ 101) ∧
    ∃ (c1 c2 : PositionCommand ℝ) (s1 s2 : ℝ),
      ((sampleTracking Real.sqrt : LineTrackerTrapezoid ℝ).update Real.sqrt 0
        (odomAt 101 0)).2 = some c1 ∧
      (((sampleTracking Real.sqrt : LineTrackerTrapezoid ℝ).update Real.sqrt 0
        (odomAt 101 0)).1.update Real.sqrt 0 (odomAt 102 0)).2 = some c2 ∧
      0 ≤ s1 ∧ s1 ≤ s2 := by
  obtain ⟨f1, -, -, f4, f5, f6⟩ := sampleTracking_facts
  have ht : (sampleTracking Real.sqrt : LineTrackerTrapezoid ℝ).traj_start_ ≤ 101 := by
    rw [f6]
    norm_num
  obtain ⟨c1, c2, s1, s2, h1, h2, -, -, h5, h6, -⟩ :=
    C20_no_overshoot (sampleTracking Real.sqrt) sampleTracking_reachable f1
      (by rw [f4]; norm_num) (by rw [f5]; norm_num) 0 0 (odomAt 101 0) (odomAt 102 0)
      (fun _ => ht) (by show (101 : ℝ) ≤ 102; norm_num)
  exact ⟨⟨sampleTracking_reachable, f1, ht⟩, c1, c2, s1, s2, h1, h2, h5, h6⟩

/-- C18 fails as stated: under a configuration whose default speed is -1, the tracker
`sampleNegSpeedPending` plans at stamp 100 and emits a command at the origin; the goal
(10,0,0) then arrives with `v_des = 0`, so the default speed is taken; FlatState is
valid at the origin, and the planning tick at stamp 101 emits position (10,0,0), not
the position (0,0,0) of the command emitted before it. -/
theorem C18_counterexample :
    (sampleNegSpeedReplan Real.sqrt : LineTrackerTrapezoid ℝ).active_ = true ∧
    (sampleNegSpeedReplan Real.sqrt : LineTrackerTrapezoid ℝ).ICs_.cmd_valid_ = true ∧
    (sampleNegSpeedReplan Real.sqrt : LineTrackerTrapezoid ℝ).goal_set_ = true ∧
    ((sampleNegSpeedPending Real.sqrt : LineTrackerTrapezoid ℝ).update Real.sqrt 0
      (odomAt 100 0)).2.map (fun c => c.position) = some ⟨0, 0, 0⟩ ∧
    ((sampleNegSpeedReplan Real.sqrt : LineTrackerTrapezoid ℝ).update Real.sqrt 0
      (odomAt 101 0)).2.map (fun c => c.position) = some ⟨10, 0, 0⟩ := by
  obtain ⟨f1, f2, f3, f4, f5, f6⟩ := sampleNegSpeedPending_facts
  -- the first planning tick
  obtain ⟨c0, a1, a2⟩ := LineTrackerTrapezoid.update_planning_position
    (sampleNegSpeedPending Real.sqrt) f1 f2 (by rw [f3]; norm_num) (by rw [f4]; norm_num) 0
    (odomAt 100 0)
  have a2' : c0.position = ⟨0, 0, 0⟩ := by
    rw [a2]
    simp only [FlatState.set_from_odom, f6, Bool.not_false, if_true]
    rfl
  obtain ⟨c0', b1, b2, b3, -⟩ := LineTrackerTrapezoid.update_emits
    (sampleNegSpeedPending Real.sqrt) 0 (odomAt 100 0) f1
  obtain rfl : c0' = c0 := Option.some.inj (b1.symm.trans a1)
  obtain ⟨g1, -⟩ := LineTrackerTrapezoid.update_frame Real.sqrt 0
    (sampleNegSpeedPending Real.sqrt) (odomAt 100 0)
  obtain ⟨dv, -⟩ := LineTrackerTrapezoid.update_frame_defaults Real.sqrt 0
    (sampleNegSpeedPending Real.sqrt) (odomAt 100 0)
  -- the tracker with the second goal pending
  obtain ⟨h1, h2, h3, -⟩ := LineTrackerTrapezoid.goal_callback_frame
    ((sampleNegSpeedPending Real.sqrt).update Real.sqrt 0 (odomAt 100 0)).1 (goalAbs 10 0 0 0 1)
  have r1 : (sampleNegSpeedReplan Real.sqrt : LineTrackerTrapezoid ℝ).active_ = true :=
    h2.trans (g1.trans f1)
  have r2 : (sampleNegSpeedReplan Real.sqrt : LineTrackerTrapezoid ℝ).ICs_.cmd_valid_ = true := by
    show (((sampleNegSpeedPending Real.sqrt).update Real.sqrt 0 (odomAt 100 0)).1.goal_callback
      (goalAbs 10 0 0 0 1)).ICs_.cmd_valid_ = true
    rw [h1]
    exact b2
  have r3 : (sampleNegSpeedReplan Real.sqrt : LineTrackerTrapezoid ℝ).ICs_.pos_ = ⟨0, 0, 0⟩ := by
    show (((sampleNegSpeedPending Real.sqrt).update Real.sqrt 0 (odomAt 100 0)).1.goal_callback
      (goalAbs 10 0 0 0 1)).ICs_.pos_ = _
    rw [h1, b3, a2']
  have r4 : (sampleNegSpeedReplan Real.sqrt : LineTrackerTrapezoid ℝ).v_des_ = -1 := by
    have e : (sampleNegSpeedReplan Real.sqrt : LineTrackerTrapezoid ℝ).v_des_ =
        ((sampleNegSpeedPending Real.sqrt).update Real.sqrt 0 (odomAt 100 0)).1.default_v_des_ := by
      simp [sampleNegSpeedReplan, goalAbs, LineTrackerTrapezoid.goal_callback]
    rw [e, dv, f5]
  have r5 : (sampleNegSpeedReplan Real.sqrt : LineTrackerTrapezoid ℝ).a_des_ = 1 := by
    simp [sampleNegSpeedReplan, goalAbs, LineTrackerTrapezoid.goal_callback]
  have r6 : (sampleNegSpeedReplan Real.sqrt : LineTrackerTrapezoid ℝ).goal_ = ⟨10, 0, 0⟩ := by
    simp [sampleNegSpeedReplan, goalAbs, LineTrackerTrapezoid.goal_callback]
  -- the second planning tick
  obtain ⟨q1, q2, q3⟩ := LineTrackerTrapezoid.update_planned Real.sqrt 0
    (sampleNegSpeedReplan Real.sqrt) (odomAt 101 0) r1 h3
  obtain ⟨-, k2, k3, k4, -⟩ := LineTrackerTrapezoid.update_frame Real.sqrt 0
    (sampleNegSpeedReplan Real.sqrt) (odomAt 101 0)
  have q3' : ((sampleNegSpeedReplan Real.sqrt : LineTrackerTrapezoid ℝ).update Real.sqrt 0
      (odomAt 101 0)).1.start_pos_ = 0 := by
    rw [q3, (FlatState.set_from_odom_valid _ (odomAt 101 0)).2.1 r2, r3]
    rfl
  have hd : (((sampleNegSpeedReplan Real.sqrt : LineTrackerTrapezoid ℝ).update Real.sqrt 0
      (odomAt 101 0)).1.goal_ -
      ((sampleNegSpeedReplan Real.sqrt : LineTrackerTrapezoid ℝ).update Real.sqrt 0
        (odomAt 101 0)).1.start_pos_).norm Real.sqrt >
      ((sampleNegSpeedReplan Real.sqrt : LineTrackerTrapezoid ℝ).update Real.sqrt 0
        (odomAt 101 0)).1.v_des_ *
      ((sampleNegSpeedReplan Real.sqrt : LineTrackerTrapezoid ℝ).update Real.sqrt 0
        (odomAt 101 0)).1.v_des_ /
      ((sampleNegSpeedReplan Real.sqrt : LineTrackerTrapezoid ℝ).update Real.sqrt 0
        (odomAt 101 0)).1.a_des_ := by
    rw [k2, k3, k4, q3', r4, r5, r6, scenario_norm]
    norm_num
  obtain ⟨ta, tc⟩ := q1.1 hd
  rw [k2, k3, k4, q3', r4, r5, r6, scenario_norm] at tc
  rw [k3, k4, r4, r5] at ta
  obtain ⟨c, e1, -, -, -, e5⟩ := LineTrackerTrapezoid.update_emits
    (sampleNegSpeedReplan Real.sqrt) 0 (odomAt 101 0) r1
  obtain ⟨p1, -⟩ := e5 (Or.inl h3)
  rw [k2, k4, q2, q3', r5, r6, ta, tc, scenario_norm, scenario_dir, sub_self] at p1
  have pv : profileDist (1 : ℝ) (-1 / 1) (10 / -1 - -1 / 1) 10 0 = 10 := by
    norm_num [profileDist]
  have p1' : c.position = ⟨10, 0, 0⟩ := by
    rw [p1, pv]
    ext
    · show (0 : ℝ) + 10 * 1 = 10
      norm_num
    · show (0 : ℝ) + 10 * 0 = 0
      norm_num
    · show (0 : ℝ) + 10 * 0 = 0
      norm_num
  refine ⟨r1, r2, h3, ?_, ?_⟩
  · rw [a1]
    exact congrArg some a2'
  · rw [e1]
    exact congrArg some p1'

/-- C19 on a concrete run: the planning tick of the active tracker `samplePending`
returns a command, and the state after it, `sampleTracking`, is reachable with that
command as the last one returned and a valid FlatState holding its fields. -/
theorem C19_feedback_witness :
    (samplePending Real.sqrt : LineTrackerTrapezoid ℝ).active_ = true ∧
    ∃ c : PositionCommand ℝ,
      ((samplePending Real.sqrt : LineTrackerTrapezoid ℝ).update Real.sqrt 0
        (odomAt 100 0)).2 = some c ∧
      LineTrackerTrapezoid.ReachableEmitting Real.sqrt
        (sampleTracking Real.sqrt : LineTrackerTrapezoid ℝ) (some c) ∧
      (sampleTracking Real.sqrt : LineTrackerTrapezoid ℝ).ICs_.cmd_valid_ = true ∧
      (sampleTracking Real.sqrt : LineTrackerTrapezoid ℝ).ICs_ =
        { pos_ := c.position, vel_ := c.velocity, acc_ := c.acceleration, jrk_ := 0,
          snp_ := 0, yaw_ := c.yaw, yaw_dot_ := c.yaw_dot, yaw_ddot_ := 0,
          cmd_valid_ := true } := by
  obtain ⟨-, -, h3, h4, -⟩ := C19_feedback Real.sqrt
  obtain ⟨last, hl⟩ := h3 _ samplePending_reachable
  obtain ⟨c, hc, hi⟩ := h4 (samplePending Real.sqrt) 0 (odomAt 100 0) samplePending_facts.1
  have hr := LineTrackerTrapezoid.ReachableEmitting.update 0 (odomAt 100 0) hl
  rw [hc] at hr
  refine ⟨samplePending_facts.1, c, hc, hr, ?_, hi⟩
  show ((samplePending Real.sqrt).update Real.sqrt 0 (odomAt 100 0)).1.ICs_.cmd_valid_ = true
  rw [hi]

end Instances2
